import Mathlib

/-!
# ALS-Refactored character: gait pipeline, locomotion state machine, mantling and ragdoll

A shallow embedding of `AAlsCharacter` (Source/ALS/Private/AlsCharacter.cpp) and of
`EAlsGait` and `FAlsGait` (Source/ALS/Public/State/Enumerations/AlsGait.h).

Conventions of the embedding:

* A `float` is stored as a rational (`ℚ`); there is no NaN and no infinity. Where the
  embedded code computes a `float` whose comparison decides a branch (the sums `RunSpeed + 10`
  and `WalkSpeed + 10`, a difference of two yaw angles, a squared length, the height of a
  ledge), the result is rounded to binary32 by `Binary32.Round`, as is the literal `1.3f`. A
  `float` that is only stored or handed to the engine is kept as the ideal value, and so are
  the functions of the engine that are not among the sources.
* A member function that mutates the character is a function `AAlsCharacter → AAlsCharacter`.
* Calls into the engine whose result the character does not read back (crouch requests,
  timeline control, collision and physics switches, remote procedure calls) and calls of the
  overridable notification hooks (whose default bodies are empty) are appended, in call order,
  to the field `Calls`.
* What the engine answers (geometric probes, curve and asset lookups, rotation and transform
  algebra) is read from a parameter `FEngine`; the probes are recorded in `Calls` as well.
* A reference to an engine object is an optional handle; a member function that dereferences
  one returns an `Option`, and `none` is the dereference of a reference that is not valid.
-/

/-! ## Enumerations -/

/-- The gait enumeration `EAlsGait` of AlsGait.h, in declaration order. -/
inductive EAlsGait where
  | Walking
  | Running
  | Sprinting
  deriving DecidableEq, Repr, Inhabited

/-- The underlying `uint8` value of an `EAlsGait` enumerator. -/
def EAlsGait.toUInt8 : EAlsGait → Nat
  | .Walking => 0
  | .Running => 1
  | .Sprinting => 2

instance : LE EAlsGait := ⟨fun a b => a.toUInt8 ≤ b.toUInt8⟩

instance : LT EAlsGait := ⟨fun a b => a.toUInt8 < b.toUInt8⟩

instance (a b : EAlsGait) : Decidable (a ≤ b) := inferInstanceAs (Decidable (a.toUInt8 ≤ b.toUInt8))

instance (a b : EAlsGait) : Decidable (a < b) := inferInstanceAs (Decidable (a.toUInt8 < b.toUInt8))

/-- The gait with its three flags, `FAlsGait` of AlsGait.h; the default values are the member
initialisers, so `{}` is the default constructor `FAlsGait()`. -/
structure FAlsGait where
  Gait : EAlsGait := .Walking
  bWalking : Bool := true
  bRunning : Bool := false
  bSprinting : Bool := false
  deriving DecidableEq, Repr, Inhabited

/-- The assignment `FAlsGait::operator=(const EAlsGait)`: the gait is stored and each flag is
recomputed from the stored gait. -/
def FAlsGait.assign (This : FAlsGait) (NewGait : EAlsGait) : FAlsGait :=
  let This := { This with Gait := NewGait }
  let This := { This with bWalking := This.Gait = EAlsGait.Walking }
  let This := { This with bRunning := This.Gait = EAlsGait.Running }
  { This with bSprinting := This.Gait = EAlsGait.Sprinting }

/-- The constructor `FAlsGait(const EAlsGait)`: the members are initialised by their
initialisers and the initial gait is assigned. -/
def FAlsGait.ofGait (InitialGait : EAlsGait) : FAlsGait :=
  FAlsGait.assign {} InitialGait

/-- The accessor `FAlsGait::IsWalking`. -/
def FAlsGait.IsWalking (This : FAlsGait) : Bool := This.bWalking

/-- The accessor `FAlsGait::IsRunning`. -/
def FAlsGait.IsRunning (This : FAlsGait) : Bool := This.bRunning

/-- The accessor `FAlsGait::IsSprinting`. -/
def FAlsGait.IsSprinting (This : FAlsGait) : Bool := This.bSprinting

/-- The conversion `FAlsGait::operator EAlsGait`. -/
def FAlsGait.toEAlsGait (This : FAlsGait) : EAlsGait := This.Gait

/-- Modelled from the spec: the stance enumeration (its header is not among the sources);
the character either stands or crouches. -/
inductive EAlsStance where
  | Standing
  | Crouching
  deriving DecidableEq, Repr, Inhabited

/-- Modelled from the spec: the rotation mode enumeration (its header is not among the
sources): Looking-Direction, Velocity-Direction and Aiming. -/
inductive EAlsRotationMode where
  | LookingDirection
  | VelocityDirection
  | Aiming
  deriving DecidableEq, Repr, Inhabited

/-- Modelled from the spec: the locomotion mode enumeration (its header is not among the
sources): Grounded, InAir, Mantling, Ragdolling. -/
inductive EAlsLocomotionMode where
  | Grounded
  | InAir
  | Mantling
  | Ragdolling
  deriving DecidableEq, Repr, Inhabited

/-- Modelled from the spec: the locomotion action enumeration (its header is not among the
sources): None and Rolling. -/
inductive EAlsLocomotionAction where
  | None
  | Rolling
  deriving DecidableEq, Repr, Inhabited

/-- Modelled from the spec: the mode enumeration of the movement integrator, restricted to
the enumerators the character source names. -/
inductive EMovementMode where
  | MOVE_None
  | MOVE_Walking
  | MOVE_NavWalking
  | MOVE_Falling
  deriving DecidableEq, Repr, Inhabited

/-- Modelled from the spec: the network role of an instance, in the engine order used by
the comparisons `GetLocalRole() >= ROLE_AutonomousProxy`. -/
inductive ENetRole where
  | ROLE_None
  | ROLE_SimulatedProxy
  | ROLE_AutonomousProxy
  | ROLE_Authority
  deriving DecidableEq, Repr, Inhabited

/-- The rank of a network role; roles are compared through it. -/
def ENetRole.rank : ENetRole → Nat
  | .ROLE_None => 0
  | .ROLE_SimulatedProxy => 1
  | .ROLE_AutonomousProxy => 2
  | .ROLE_Authority => 3

/-- Modelled from the spec: the net mode of the world the character lives in. -/
inductive ENetMode where
  | NM_Standalone
  | NM_DedicatedServer
  | NM_ListenServer
  | NM_Client
  deriving DecidableEq, Repr, Inhabited

/-- Modelled from the spec: the animation tick policy of the mesh, saved when ragdolling
starts and restored when it ends. -/
inductive EVisibilityBasedAnimTickOption where
  | AlwaysTickPoseAndRefreshBones
  | AlwaysTickPose
  | OnlyTickMontagesWhenNotRendered
  | OnlyTickPoseWhenRendered
  deriving DecidableEq, Repr, Inhabited

/-- Modelled from the spec: the collision switch of a component, restricted to the
enumerators the character source names. -/
inductive ECollisionEnabled where
  | NoCollision
  | QueryOnly
  | QueryAndPhysics
  deriving DecidableEq, Repr, Inhabited

/-- Modelled from the spec: the object-type classification of a component, restricted to the
enumerators the character source names. -/
inductive ECollisionChannel where
  | ECC_Pawn
  | ECC_PhysicsBody
  deriving DecidableEq, Repr, Inhabited

/-! ## Binary32 arithmetic

The `float` of the source is the IEEE 754 binary32 format. The embedding stores rationals;
where the embedded code itself computes a `float` and a comparison of the result decides a
branch, the result is rounded as the machine rounds it: to the nearest binary32 value, a tie
going to the even significand. -/

namespace Binary32

/-- The integer nearest to a rational, a tie going to the even one. -/
def RoundEven (Value : ℚ) : ℤ :=
  if Value - ⌊Value⌋ < 1 / 2 then ⌊Value⌋
  else if 1 / 2 < Value - ⌊Value⌋ then ⌊Value⌋ + 1
  else if ⌊Value⌋ % 2 = 0 then ⌊Value⌋
  else ⌊Value⌋ + 1

/-- The exponent of the unit in the last place of a binary32 value of a given magnitude: 23
below the binary exponent of the magnitude (24 bit significand), and never below -149 (the
subnormal values). -/
def Exponent (Magnitude : ℚ) : ℤ :=
  max (Int.log 2 Magnitude - 23) (-149)

/-- The binary32 magnitude nearest to a magnitude, a tie going to the even significand. -/
def RoundMagnitude (Magnitude : ℚ) : ℚ :=
  (RoundEven (Magnitude / 2 ^ Exponent Magnitude) : ℚ) * 2 ^ Exponent Magnitude

/-- The binary32 value nearest to a rational, a tie going to the even significand (the
rounding of every `float` operation); the exponent is not bounded above, so there is no
overflow to infinity. -/
def Round (Value : ℚ) : ℚ :=
  if 0 ≤ Value then RoundMagnitude Value else -RoundMagnitude (-Value)

/-- The `float` sum. -/
def Add (A B : ℚ) : ℚ := Round (A + B)

/-- The `float` difference. -/
def Sub (A B : ℚ) : ℚ := Round (A - B)

/-- The `float` product. -/
def Mul (A B : ℚ) : ℚ := Round (A * B)

end Binary32

/-! ## Engine mathematics -/

/-- A three component vector of the engine. -/
structure FVector where
  X : ℚ := 0
  Y : ℚ := 0
  Z : ℚ := 0
  deriving DecidableEq, Repr, Inhabited

namespace FVector

/-- The sum of two vectors, component by component. -/
def Add (A B : FVector) : FVector := { X := A.X + B.X, Y := A.Y + B.Y, Z := A.Z + B.Z }

/-- The difference of two vectors, component by component. -/
def Sub (A B : FVector) : FVector := { X := A.X - B.X, Y := A.Y - B.Y, Z := A.Z - B.Z }

/-- A vector scaled by a number. -/
def Scale (A : FVector) (S : ℚ) : FVector := { X := A.X * S, Y := A.Y * S, Z := A.Z * S }

/-- A vector divided by a number. -/
def Div (A : FVector) (S : ℚ) : FVector := { X := A.X / S, Y := A.Y / S, Z := A.Z / S }

/-- The product of two vectors, component by component. -/
def Mul (A B : FVector) : FVector := { X := A.X * B.X, Y := A.Y * B.Y, Z := A.Z * B.Z }

/-- The squared length of a vector, `X * X + Y * Y + Z * Z` in `float` arithmetic. -/
def SizeSquared (A : FVector) : ℚ :=
  Binary32.Add (Binary32.Add (Binary32.Mul A.X A.X) (Binary32.Mul A.Y A.Y))
    (Binary32.Mul A.Z A.Z)

/-- The vector with all components one. -/
def OneVector : FVector := { X := 1, Y := 1, Z := 1 }

end FVector

/-- A two component vector of the engine, used for ranges. -/
structure FVector2D where
  X : ℚ := 0
  Y : ℚ := 0
  deriving DecidableEq, Repr, Inhabited

/-- The smaller component of a range. -/
def FVector2D.GetMin (Range : FVector2D) : ℚ := min Range.X Range.Y

/-- The larger component of a range. -/
def FVector2D.GetMax (Range : FVector2D) : ℚ := max Range.X Range.Y

/-- The squared length of a two component vector, `X * X + Y * Y` in `float` arithmetic. -/
def FVector2D.SizeSquared (A : FVector2D) : ℚ :=
  Binary32.Add (Binary32.Mul A.X A.X) (Binary32.Mul A.Y A.Y)

/-- A rotation of the engine, in degrees. A rotation is represented by its rotator; the
conversions to and from quaternions are the identity in this embedding. -/
structure FRotator where
  Pitch : ℚ := 0
  Yaw : ℚ := 0
  Roll : ℚ := 0
  deriving DecidableEq, Repr, Inhabited

/-- A transform of the engine: rotation, location and scale. -/
structure FTransform where
  Rotation : FRotator := {}
  Location : FVector := {}
  Scale3D : FVector := FVector.OneVector
  deriving DecidableEq, Repr, Inhabited

/-- A reference to an engine object: `none` is the null pointer, `some Handle` names an object
that may have been destroyed in the meantime. -/
abbrev FObjectPtr := Option Nat

/-- The engine constant `SMALL_NUMBER`. -/
def SMALL_NUMBER : ℚ := 1 / 100000000

/-- The engine constant `KINDA_SMALL_NUMBER`. -/
def KINDA_SMALL_NUMBER : ℚ := 1 / 10000

/-- The engine constant `ZERO_ANIMWEIGHT_THRESH`. -/
def ZERO_ANIMWEIGHT_THRESH : ℚ := 1 / 100000

namespace FMath

/-- The engine function `FMath::Square`, the `float` product of a number with itself. -/
def Square (A : ℚ) : ℚ := Binary32.Mul A A

/-- Modelled from the spec: the C library `fmod`, the remainder of `X / Y` with the quotient
truncated toward zero (used by the engine to wrap angles). -/
def Fmod (X Y : ℚ) : ℚ :=
  X - Y * (((if 0 ≤ X / Y then ⌊X / Y⌋ else ⌈X / Y⌉ : ℤ)) : ℚ)

/-- Modelled from the spec: the engine clamp of `X` into the interval from `Min` to `Max`. -/
def Clamp (X Min Max : ℚ) : ℚ :=
  if X < Min then Min else if X < Max then X else Max

/-- Modelled from the spec: the fraction of the way `Value` lies from `MinValue` to
`MaxValue`; a range that is a single point answers whether `Value` is before or after it.
In exact arithmetic the test for a degenerate range is the test for a zero width. -/
def GetRangePct (MinValue MaxValue Value : ℚ) : ℚ :=
  let Divisor := MaxValue - MinValue
  if Divisor = 0 then
    (if Value ≥ MaxValue then 1 else 0)
  else
    (Value - MinValue) / Divisor

/-- Modelled from the spec: linear interpolation from `A` to `B`. -/
def Lerp (A B Alpha : ℚ) : ℚ :=
  A + Alpha * (B - A)

/-- Modelled from the spec: the engine function `FMath::GetMappedRangeValueClamped` (not among
the sources), the linear remap of `Value` from `InputRange` to `OutputRange` with the fraction
clamped to the unit interval. -/
def GetMappedRangeValueClamped (InputRange OutputRange : ℚ × ℚ) (Value : ℚ) : ℚ :=
  let ClampedPct := Clamp (GetRangePct InputRange.1 InputRange.2 Value) 0 1
  Lerp OutputRange.1 OutputRange.2 ClampedPct

/-- Modelled from the spec: the engine function `FMath::FInterpTo` (not among the sources),
the fixed-rate interpolation of `Current` toward `Target`: it moves by the remaining distance
times the clamped product of time step and speed, and snaps to the target once within the
snap tolerance. -/
def FInterpTo (Current Target DeltaTime InterpSpeed : ℚ) : ℚ :=
  if InterpSpeed ≤ 0 then
    Target
  else
    let Dist := Target - Current
    if Dist * Dist < SMALL_NUMBER then
      Target
    else
      let DeltaMove := Dist * Clamp (DeltaTime * InterpSpeed) 0 1
      Current + DeltaMove

end FMath

namespace FRotator

/-- Modelled from the spec: the engine function `FRotator::ClampAxis` (not among the sources),
which wraps an angle in degrees into the half open interval from 0 to 360. -/
def ClampAxis (Angle : ℚ) : ℚ :=
  let A := FMath.Fmod Angle 360
  if A < 0 then A + 360 else A

/-- Modelled from the spec: the engine function `FRotator::NormalizeAxis` (not among the
sources), which wraps an angle in degrees into the interval from -180 (excluded) to 180
(included). -/
def NormalizeAxis (Angle : ℚ) : ℚ :=
  let A := ClampAxis Angle
  if A > 180 then A - 360 else A

end FRotator

/-! ## Settings and state structures -/

/-- The speed thresholds of `FAlsMovementGaitSettings` read by the gait pipeline. -/
structure FAlsMovementGaitSettings where
  WalkSpeed : ℚ
  RunSpeed : ℚ
  SprintSpeed : ℚ
  /-- The curve of acceleration, deceleration and ground friction over the gait amount. -/
  AccelerationAndDecelerationAndGroundFrictionCurve : Option Nat := none
  /-- The curve of the rotation speed over the gait amount. -/
  RotationSpeedCurve : Option Nat := none
  deriving DecidableEq, Repr, Inhabited

/-- Modelled from the spec: the speed configured for a gait,
`FAlsMovementGaitSettings::GetSpeedForGait` (its header is not among the sources). -/
def FAlsMovementGaitSettings.GetSpeedForGait (GaitSettings : FAlsMovementGaitSettings) :
    EAlsGait → ℚ
  | .Walking => GaitSettings.WalkSpeed
  | .Running => GaitSettings.RunSpeed
  | .Sprinting => GaitSettings.SprintSpeed

/-- The members of `LocomotionState` read or written by the embedded functions. -/
structure FAlsLocomotionState where
  bHasInputAcceleration : Bool := false
  InputAccelerationAmount : ℚ := 0
  InputAccelerationYawAngle : ℚ := 0
  Speed : ℚ := 0
  bHasSpeed : Bool := false
  bMoving : Bool := false
  Velocity : FVector := {}
  PreviousVelocity : FVector := {}
  Acceleration : FVector := {}
  VelocityYawAngle : ℚ := 0
  SmoothMaxAcceleration : ℚ := 0
  TargetActorRotation : FRotator := {}
  deriving DecidableEq, Repr, Inhabited

/-- The members of `AimingState` read by the embedded functions; `SmoothRotationYaw` stands
for `AimingState.SmoothRotation.Yaw`. -/
structure FAlsAimingState where
  SmoothRotationYaw : ℚ := 0
  SmoothRotationPitch : ℚ := 0
  SmoothRotationRoll : ℚ := 0
  PreviousSmoothYawAngle : ℚ := 0
  YawSpeed : ℚ := 0
  deriving DecidableEq, Repr, Inhabited

/-- The state of the in air mode: the yaw captured when the character leaves the ground. -/
structure FAlsInAirState where
  TargetYawAngle : ℚ := 0
  deriving DecidableEq, Repr, Inhabited

/-- The members of `RagdollingState` written when ragdolling starts. -/
structure FAlsRagdollingState where
  PullForce : ℚ := 0
  PreviousVisibilityBasedAnimTickOption : EVisibilityBasedAnimTickOption :=
    .AlwaysTickPoseAndRefreshBones
  RootBoneVelocity : FVector := {}
  bGrounded : Bool := false
  bFacedUpward : Bool := false
  deriving DecidableEq, Repr, Inhabited

/-- The members of `RollingSettings` read by the state machine. -/
structure FAlsRollingSettings where
  bCrouchOnStart : Bool := true
  bRotateToInputAccelerationOnStart : Bool := false
  bSmoothRotateToInputAccelerationDuringRoll : Bool := false
  bStartRollingOnLand : Bool := false
  RollingOnLandSpeedThreshold : ℚ := 0
  deriving DecidableEq, Repr, Inhabited

/-- The state of the rolling action: the yaw the roll heads to. -/
structure FAlsRollingState where
  TargetYawAngle : ℚ := 0
  deriving DecidableEq, Repr, Inhabited

/-- The members of `RagdollingSettings` read when the character lands. -/
structure FAlsRagdollingSettings where
  bStartRagdollingOnLand : Bool := false
  RagdollingOnLandSpeedThreshold : ℚ := 0
  deriving DecidableEq, Repr, Inhabited

/-- Modelled from the spec: the traversal type of a mantle (its header is not among the
sources): high or low by the climbed height, or started in the air. -/
inductive EAlsMantlingType where
  | High
  | Low
  | InAir
  deriving DecidableEq, Repr, Inhabited

/-- The trace parameters of the mantle detection, `FAlsMantlingTraceSettings`. -/
structure FAlsMantlingTraceSettings where
  LedgeHeight : FVector2D := {}
  ReachDistance : ℚ := 0
  TraceRadiusForward : ℚ := 0
  TraceRadiusDownward : ℚ := 0
  deriving DecidableEq, Repr, Inhabited

/-- The members of `GeneralMantlingSettings` read by the mantle detection. -/
structure FAlsGeneralMantlingSettings where
  GroundedTrace : FAlsMantlingTraceSettings := {}
  InAirTrace : FAlsMantlingTraceSettings := {}
  TargetPrimitiveSpeedThreshold : ℚ := 0
  deriving DecidableEq, Repr, Inhabited

/-- The settings bundle of one mantling type, `FAlsMantlingSettings`, as selected by the
overridable `SelectMantlingSettings`. -/
structure FAlsMantlingSettings where
  Montage : FObjectPtr := none
  InterpolationAndCorrectionAmountsCurve : FObjectPtr := none
  StartRelativeLocation : FVector := {}
  ReferenceHeight : FVector2D := {}
  StartTime : FVector2D := {}
  PlayRate : FVector2D := {}
  deriving DecidableEq, Repr, Inhabited

/-- The state of a mantle, `FAlsMantlingState`, written by `StartMantling`. -/
structure FAlsMantlingState where
  Montage : FObjectPtr := none
  InterpolationAndCorrectionCurve : FObjectPtr := none
  PlayRate : ℚ := 0
  StartTime : ℚ := 0
  Primitive : FObjectPtr := none
  TargetTransform : FTransform := {}
  RelativeTransform : FTransform := {}
  ActorOffset : FTransform := {}
  AnimationOffset : FVector := {}
  deriving DecidableEq, Repr, Inhabited

/-- The shape of a sweep. -/
inductive FCollisionShape where
  | Capsule (Radius HalfHeight : ℚ)
  | Sphere (Radius : ℚ)
  deriving DecidableEq, Repr, Inhabited

/-- The bones the ragdoll is pulled at. -/
inductive EAlsBone where
  | Pelvis
  | Spine03
  deriving DecidableEq, Repr, Inhabited

/-- The members of a hit result of the probing backend read by the character. -/
structure FHitResult where
  bBlockingHit : Bool := false
  bStartPenetrating : Bool := false
  Component : FObjectPtr := none
  Location : FVector := {}
  ImpactPoint : FVector := {}
  ImpactNormal : FVector := {}
  TraceStart : FVector := {}
  deriving DecidableEq, Repr, Inhabited

/-- Modelled from the spec: a hit is a valid blocking hit when it blocks and did not start
in penetration. -/
def FHitResult.IsValidBlockingHit (Hit : FHitResult) : Bool :=
  Hit.bBlockingHit && !Hit.bStartPenetrating

/-- The members of a primitive component read through a reference to it. -/
structure UPrimitiveComponent where
  ComponentTransform : FTransform := {}
  ComponentVelocity : FVector := {}
  bCanCharacterStepUp : Bool := true
  deriving DecidableEq, Repr, Inhabited

/-- The members of a vector curve asset read through a reference to it. -/
structure UCurveVector where
  GetVectorValue : ℚ → FVector := fun _ => {}
  MinTime : ℚ := 0
  MaxTime : ℚ := 0

/-- Modelled from the spec: the external collaborators of the character at one instant: the
objects alive in the world, the probing backend, the transform and vector mathematics of the
engine that is not rational, and the overridable selection hooks. The default values describe
an empty world. -/
structure FEngine where
  /-- The primitive components alive, by handle. -/
  Components : Nat → Option UPrimitiveComponent := fun _ => none
  /-- The vector curve assets, by handle. -/
  VectorCurves : Nat → Option UCurveVector := fun _ => none
  /-- The animation montages alive, by handle. -/
  bMontageValid : Nat → Bool := fun _ => false
  SweepSingleByChannel : FVector → FVector → FCollisionShape → FHitResult := fun _ _ _ => {}
  SweepTestByProfile : FVector → FVector → FCollisionShape → Bool := fun _ _ _ => false
  LineTraceSingleByChannel : FVector → FVector → FHitResult := fun _ _ => {}
  /-- The walkability test of the movement integrator. -/
  IsWalkable : FHitResult → Bool := fun _ => false
  GetUnsafeNormal2D : FVector → FVector := fun V => V
  ToOrientationRotator : FVector → FRotator := fun _ => {}
  RotatorVector : FRotator → FVector := fun _ => {}
  /-- The composition of transforms, `A * B`. -/
  TransformMultiply : FTransform → FTransform → FTransform := fun A _ => A
  TransformInverse : FTransform → FTransform := fun A => A
  /-- The normalised interpolation of rotations strictly between the end points of a blend. -/
  QuatFastLerp : FRotator → FRotator → ℚ → FRotator := fun A _ _ => A
  SelectMantlingSettings : EAlsMantlingType → FAlsMantlingSettings := fun _ => {}
  SelectRollMontage : FObjectPtr := none
  /-- The float curve assets, by handle. -/
  FloatCurves : Nat → Option (ℚ → ℚ) := fun _ => none
  /-- The gait settings of the movement settings asset for a rotation mode and a stance. -/
  MovementSettings : EAlsRotationMode → EAlsStance → FAlsMovementGaitSettings :=
    fun _ _ => { WalkSpeed := 0, RunSpeed := 0, SprintSpeed := 0 }
  /-- The length of a vector. -/
  VectorSize : FVector → ℚ := fun _ => 0
  /-- The length of the horizontal part of a vector. -/
  VectorSize2D : FVector → ℚ := fun _ => 0
  /-- The engine interpolation `FMath::RInterpTo` of rotations. -/
  RInterpTo : FRotator → FRotator → ℚ → ℚ → FRotator := fun _ Target _ _ => Target
  /-- The engine interpolation `FMath::RInterpConstantTo` of rotations. -/
  RInterpConstantTo : FRotator → FRotator → ℚ → ℚ → FRotator := fun _ Target _ _ => Target
  /-- The helper `UAlsMath::AngleInterpolateConstantTo` for angles. -/
  AngleInterpolateConstantTo : ℚ → ℚ → ℚ → ℚ → ℚ := fun _ Target _ _ => Target
  /-- The rotation of an actor after a world rotation is added to it. -/
  AddWorldRotation : FRotator → FRotator → FRotator := fun Current _ => Current
  /-- The engine predicate `HasAnyRootMotion()`. -/
  bHasAnyRootMotion : Bool := false
  /-- The value of the animation curve of the rotation yaw offset. -/
  RotationYawOffsetCurveValue : ℚ := 0
  /-- The value of the animation curve of the rotation yaw speed. -/
  RotationYawSpeedCurveValue : ℚ := 0
  /-- The overridable selection `SelectGetUpMontage` of the get up montage, by whether the
  ragdoll faced upward; the default implementation returns no montage. -/
  SelectGetUpMontage : Bool → FObjectPtr := fun _ => none

/-- The primitive component a reference points to, if it is still alive. -/
def FEngine.ResolvePrimitive (Engine : FEngine) (Pointer : FObjectPtr) :
    Option UPrimitiveComponent :=
  Pointer.bind Engine.Components

/-- The vector curve a reference points to, if there is one. -/
def FEngine.ResolveVectorCurve (Engine : FEngine) (Pointer : FObjectPtr) :
    Option UCurveVector :=
  Pointer.bind Engine.VectorCurves

/-- Modelled from the spec: the helper `UAlsMath::AddTransforms` (its header is not among the
sources), the target transform plus an offset: rotator, location and scale are added
component by component. -/
def UAlsMath.AddTransforms (A B : FTransform) : FTransform :=
  { Rotation :=
      { Pitch := A.Rotation.Pitch + B.Rotation.Pitch, Yaw := A.Rotation.Yaw + B.Rotation.Yaw,
        Roll := A.Rotation.Roll + B.Rotation.Roll }
    Location := A.Location.Add B.Location
    Scale3D := A.Scale3D.Add B.Scale3D }

/-- Modelled from the spec: the helper `UAlsMath::SubtractTransforms` (its header is not among
the sources), the offset between two transforms: rotator, location and scale are subtracted
component by component. -/
def UAlsMath.SubtractTransforms (A B : FTransform) : FTransform :=
  { Rotation :=
      { Pitch := A.Rotation.Pitch - B.Rotation.Pitch, Yaw := A.Rotation.Yaw - B.Rotation.Yaw,
        Roll := A.Rotation.Roll - B.Rotation.Roll }
    Location := A.Location.Sub B.Location
    Scale3D := A.Scale3D.Sub B.Scale3D }

/-- Modelled from the spec: the engine blend `UKismetMathLibrary::TLerp` of two transforms
(not among the sources): at a weight of at most `ZERO_ANIMWEIGHT_THRESH` the blend is the
first transform, at a weight of at least one minus that threshold it is the second, and in
between location and scale are interpolated linearly and the rotation by the engine. -/
def UKismetMathLibrary.TLerp (Engine : FEngine) (A B : FTransform) (Alpha : ℚ) : FTransform :=
  if Alpha ≤ ZERO_ANIMWEIGHT_THRESH then
    A
  else if Alpha ≥ 1 - ZERO_ANIMWEIGHT_THRESH then
    B
  else
    { Rotation := Engine.QuatFastLerp A.Rotation B.Rotation Alpha
      Location := A.Location.Add ((B.Location.Sub A.Location).Scale Alpha)
      Scale3D := A.Scale3D.Add ((B.Scale3D.Sub A.Scale3D).Scale Alpha) }

/-- The float curve a reference points to, if there is one. -/
def FEngine.ResolveFloatCurve (Engine : FEngine) (Pointer : FObjectPtr) : Option (ℚ → ℚ) :=
  Pointer.bind Engine.FloatCurves

/-- The engine test `IsValid` on a reference to an animation montage. -/
def FEngine.IsValidMontage (Engine : FEngine) (Pointer : FObjectPtr) : Bool :=
  match Pointer with
  | none => false
  | some Handle => Engine.bMontageValid Handle

/-- A call that leaves the character: a request to the engine whose result is not read back,
a remote procedure call, or an overridable notification hook. -/
inductive EngineCall where
  | Crouch
  | UnCrouch
  | MantlingTimelineStop
  | OnLocomotionModeChanged (PreviousMode : EAlsLocomotionMode)
  | OnLocomotionActionChanged (PreviousAction : EAlsLocomotionAction)
  | SuperOnMovementModeChanged (PreviousMode : EMovementMode)
  | ServerStartRagdolling
  | MulticastStartRagdolling
  | SetReplicateMovement (bEnabled : Bool)
  | MarkRagdollTargetLocationDirty
  | ServerSetRagdollTargetLocation (NewLocation : FVector)
  | CapsuleSetCollisionEnabled (NewType : ECollisionEnabled)
  | MeshSetCollisionObjectType (Channel : ECollisionChannel)
  | MeshSetCollisionEnabled (NewType : ECollisionEnabled)
  | MeshSetAllBodiesBelowPelvisSimulatePhysics
  | MontageStop
  | OnRagdollingStarted
  | MontagePlay (Montage : FObjectPtr) (PlayRate StartTime : ℚ) (bStopAllMontages : Bool)
  | ServerStartRolling (Montage : FObjectPtr) (PlayRate TargetYawAngle : ℚ)
  | MulticastStartRolling (Montage : FObjectPtr) (PlayRate TargetYawAngle : ℚ)
  | SetLandedGroundFrictionResetTimer (Rate : ℚ)
  | SweepSingleByChannel (Start End : FVector) (Shape : FCollisionShape)
  | SweepTestByProfile (Start End : FVector) (Shape : FCollisionShape)
  | LineTraceSingleByChannel (Start End : FVector)
  | ServerStartMantling (TargetPrimitive : FObjectPtr) (TargetLocation : FVector)
      (TargetRotation : FRotator) (MantlingHeight : ℚ) (MantlingType : EAlsMantlingType)
  | OnMantlingStarted (TargetPrimitive : FObjectPtr) (TargetLocation : FVector)
      (TargetRotation : FRotator) (MantlingHeight : ℚ) (MantlingType : EAlsMantlingType)
  | MantlingTimelineSetTimelineLength (NewLength : ℚ)
  | MantlingTimelineSetPlayRate (NewRate : ℚ)
  | MantlingTimelinePlayFromStart
  | MeshAddForce (Force : FVector) (BoneName : EAlsBone)
  | MulticastStartMantling (TargetPrimitive : FObjectPtr) (TargetLocation : FVector)
      (TargetRotation : FRotator) (MantlingHeight : ℚ) (MantlingType : EAlsMantlingType)
  | ForceNetUpdate
  | OnMantlingEnded
  | SuperTick (DeltaTime : ℚ)
  | OnRotationModeChanged (PreviousMode : EAlsRotationMode)
  | OnGaitChanged (PreviousGait : EAlsGait)
  | MarkInputAccelerationDirty
  | MarkAimingRotationDirty
  | SetCustomMaxWalkSpeed (NewMaxWalkSpeed : ℚ)
  | MeshSetAllMotorsAngularDriveParams (InSpring InDamping InForceLimit : ℚ)
      (bSkipCustomPhysicsType : Bool)
  | MeshSetEnableGravity (bGravityEnabled : Bool)
  | SuperJump
  | MulticastStopRagdolling
  | ServerStopRagdolling
  | MeshSetAllBodiesSimulatePhysics (bNewSimulate : Bool)
  | OnRagdollingEnded
  deriving DecidableEq, Repr, Inhabited

/-- The character: the members of `AAlsCharacter` (and of the components it owns) that the
embedded functions read or write, the facts about its network instance, and the log of the
calls that left it. The default values describe a standing, grounded character on a
standalone instance. -/
structure AAlsCharacter where
  DesiredStance : EAlsStance := .Standing
  DesiredGait : EAlsGait := .Running
  Stance : EAlsStance := .Standing
  Gait : EAlsGait := .Walking
  RotationMode : EAlsRotationMode := .LookingDirection
  LocomotionMode : EAlsLocomotionMode := .Grounded
  LocomotionAction : EAlsLocomotionAction := .None
  LocomotionState : FAlsLocomotionState := {}
  AimingState : FAlsAimingState := {}
  InAirState : FAlsInAirState := {}
  RagdollingState : FAlsRagdollingState := {}
  RollingSettings : FAlsRollingSettings := {}
  RagdollTargetLocation : FVector := {}
  /-- The yaw of `GetActorRotation()`. -/
  ActorRotationYaw : ℚ := 0
  /-- The location of the pelvis socket of the mesh, as the engine reports it. -/
  PelvisLocation : FVector := {}
  /-- The mode of the movement integrator, `GetCharacterMovement()->MovementMode`. -/
  MovementMode : EMovementMode := .MOVE_Walking
  bIgnoreClientMovementErrorChecksAndCorrection : Bool := false
  /-- The tick policy of the mesh, `GetMesh()->VisibilityBasedAnimTickOption`. -/
  VisibilityBasedAnimTickOption : EVisibilityBasedAnimTickOption :=
    .AlwaysTickPoseAndRefreshBones
  LocalRole : ENetRole := .ROLE_Authority
  NetMode : ENetMode := .NM_Standalone
  Calls : List EngineCall := []
  RollingState : FAlsRollingState := {}
  RagdollingSettings : FAlsRagdollingSettings := {}
  GeneralMantlingSettings : FAlsGeneralMantlingSettings := {}
  MantlingState : FAlsMantlingState := {}
  /-- The input acceleration, replicated from the movement integrator. -/
  InputAcceleration : FVector := {}
  /-- The engine predicate `IsLocallyControlled()`. -/
  bLocallyControlled : Bool := true
  /-- The pitch of `GetActorRotation()`. -/
  ActorRotationPitch : ℚ := 0
  /-- The roll of `GetActorRotation()`. -/
  ActorRotationRoll : ℚ := 0
  /-- The location of the actor, `GetActorLocation()`. -/
  ActorLocation : FVector := {}
  /-- The scale of the actor transform. -/
  ActorScale3D : FVector := FVector.OneVector
  /-- The forward vector of the actor, `GetActorForwardVector()`. -/
  ActorForwardVector : FVector := { X := 1 }
  /-- The rotation of the pelvis socket of the mesh, as the engine reports it. -/
  PelvisRotation : FRotator := {}
  /-- The location of the upper spine socket of the mesh, as the engine reports it. -/
  Spine03Location : FVector := {}
  /-- The velocity of the movement integrator, `GetCharacterMovement()->Velocity`. -/
  MovementVelocity : FVector := {}
  /-- The braking friction factor of the movement integrator. -/
  BrakingFrictionFactor : ℚ := 0
  /-- The scaled half height of the capsule. -/
  CapsuleHalfHeight : ℚ := 0
  /-- The scaled radius of the capsule. -/
  CapsuleRadius : ℚ := 0
  /-- The world location of the capsule. -/
  CapsuleLocation : FVector := {}
  /-- The up vector of the capsule. -/
  CapsuleUpVector : FVector := { Z := 1 }
  /-- The playback position of the mantling timeline. -/
  MantlingTimelinePlaybackPosition : ℚ := 0
  DesiredRotationMode : EAlsRotationMode := .LookingDirection
  bAiming : Bool := false
  bRotateToVelocityWhenSprinting : Bool := false
  bEnableNetworkOptimizations : Bool := false
  AimingRotation : FRotator := {}
  /-- The control rotation of the controller, `GetControlRotation()`. -/
  ControlRotation : FRotator := {}
  /-- The current acceleration of the movement integrator, `GetCurrentAcceleration()`. -/
  MovementCurrentAcceleration : FVector := {}
  /-- The max acceleration of the movement integrator. -/
  MovementMaxAcceleration : ℚ := 0
  /-- The max walk speed of the movement integrator. -/
  MaxWalkSpeed : ℚ := 0
  /-- The braking deceleration of the movement integrator while walking. -/
  BrakingDecelerationWalking : ℚ := 0
  /-- The ground friction of the movement integrator. -/
  GroundFriction : ℚ := 0
  /-- The physical velocity of the root bone of the mesh, as the engine reports it. -/
  MeshRootBoneVelocity : FVector := {}
  deriving DecidableEq, Repr, Inhabited

namespace AAlsCharacter

/-- Record a call that leaves the character. -/
def Invoke (Character : AAlsCharacter) (Call : EngineCall) : AAlsCharacter :=
  { Character with Calls := Character.Calls ++ [Call] }

/-- The engine predicate `HasAuthority()`: the local role is the authority. -/
def HasAuthority (Character : AAlsCharacter) : Bool :=
  Character.LocalRole = .ROLE_Authority

/-! ## Gait pipeline -/

/-- Sprinting is possible with input acceleration, outside the aiming rotation mode, with a
full input acceleration amount and, in the looking direction rotation mode, with the input
faced forward relative to the camera (`AAlsCharacter::CanSprint`). The difference of the two
yaw angles is the `float` difference. -/
def CanSprint (Character : AAlsCharacter) : Bool :=
  if !Character.LocomotionState.bHasInputAcceleration ||
      Character.RotationMode = EAlsRotationMode.Aiming then
    false
  else
    let bHasFullInputAccelerationAmount : Bool :=
      Character.LocomotionState.InputAccelerationAmount > 9 / 10
    if Character.RotationMode = EAlsRotationMode.VelocityDirection then
      bHasFullInputAccelerationAmount
    else if Character.RotationMode = EAlsRotationMode.LookingDirection then
      let YawAngleDifference : ℚ :=
        FRotator.NormalizeAxis
          (Binary32.Sub Character.LocomotionState.InputAccelerationYawAngle
            Character.AimingState.SmoothRotationYaw)
      bHasFullInputAccelerationAmount && |YawAngleDifference| < 50
    else
      false

/-- The maximum gait the character is currently allowed to be in
(`AAlsCharacter::CalculateMaxAllowedGait`). -/
def CalculateMaxAllowedGait (Character : AAlsCharacter) : EAlsGait :=
  if Character.Stance = EAlsStance.Standing ∧
      Character.RotationMode ≠ EAlsRotationMode.Aiming then
    if Character.DesiredGait = EAlsGait.Sprinting then
      (if Character.CanSprint then EAlsGait.Sprinting else EAlsGait.Running)
    else
      Character.DesiredGait
  else if Character.DesiredGait = EAlsGait.Sprinting then
    EAlsGait.Running
  else
    Character.DesiredGait

/-- The gait given by the actual movement of the character
(`AAlsCharacter::CalculateActualGait`). The two thresholds are the `float` sums
`RunSpeed + 10` and `WalkSpeed + 10`, and the speed compared with them is the binary32 value
of the variable `Speed`: `Binary32.Round` of the stored speed, which is the stored speed
itself for every value the variable can hold. -/
def CalculateActualGait (Character : AAlsCharacter) (MaxAllowedGait : EAlsGait)
    (GaitSettings : FAlsMovementGaitSettings) : EAlsGait :=
  if Binary32.Round Character.LocomotionState.Speed >
      Binary32.Add GaitSettings.RunSpeed 10 then
    (if MaxAllowedGait = EAlsGait.Sprinting then EAlsGait.Sprinting else EAlsGait.Running)
  else if Binary32.Round Character.LocomotionState.Speed ≥
      Binary32.Add GaitSettings.WalkSpeed 10 then
    EAlsGait.Running
  else
    EAlsGait.Walking

/-- The current speed mapped to the range from 0 to 3, where 0 is stopped, 1 is walking,
2 is running and 3 is sprinting (`AAlsCharacter::CalculateGaitAmount`). -/
def CalculateGaitAmount (Character : AAlsCharacter)
    (GaitSettings : FAlsMovementGaitSettings) : ℚ :=
  if Character.LocomotionState.Speed ≤ GaitSettings.WalkSpeed then
    FMath.GetMappedRangeValueClamped (0, GaitSettings.WalkSpeed) (0, 1)
      Character.LocomotionState.Speed
  else if Character.LocomotionState.Speed ≤ GaitSettings.RunSpeed then
    FMath.GetMappedRangeValueClamped (GaitSettings.WalkSpeed, GaitSettings.RunSpeed) (1, 2)
      Character.LocomotionState.Speed
  else
    FMath.GetMappedRangeValueClamped (GaitSettings.RunSpeed, GaitSettings.SprintSpeed) (2, 3)
      Character.LocomotionState.Speed

/-- The gait computed on one tick, the argument `RefreshGait` passes to `SetGait`:
`CalculateActualGait(CalculateMaxAllowedGait(), GaitSettings)`. -/
def TickGait (Character : AAlsCharacter) (GaitSettings : FAlsMovementGaitSettings) : EAlsGait :=
  Character.CalculateActualGait Character.CalculateMaxAllowedGait GaitSettings

/-- The speed ramp scenario of the specification, one character state per tick: a standing
character with desired gait Sprinting, full input (input acceleration present, amount 1) and
the velocity direction rotation mode on every tick; RunSpeed 375 and SprintSpeed 700; the
speeds of the ticks are non-decreasing, start at 0 and end at 700. -/
def SpeedRampScenario (GaitSettings : FAlsMovementGaitSettings) (Ticks : List AAlsCharacter) :
    Prop :=
  GaitSettings.RunSpeed = 375 ∧ GaitSettings.SprintSpeed = 700 ∧
  (∀ Character ∈ Ticks,
    Character.Stance = EAlsStance.Standing ∧
    Character.DesiredGait = EAlsGait.Sprinting ∧
    Character.RotationMode = EAlsRotationMode.VelocityDirection ∧
    Character.LocomotionState.bHasInputAcceleration = true ∧
    Character.LocomotionState.InputAccelerationAmount = 1) ∧
  Ticks.Pairwise (fun Earlier Later =>
    Earlier.LocomotionState.Speed ≤ Later.LocomotionState.Speed) ∧
  Ticks.head?.map (fun Character => Character.LocomotionState.Speed) = some 0 ∧
  Ticks.getLast?.map (fun Character => Character.LocomotionState.Speed) = some 700

/-! ## Locomotion state machine -/

/-- Re-apply the desired stance while grounded with no action
(`AAlsCharacter::RefreshDesiredStance`); crouching and standing up are requests to the
movement integrator. -/
def RefreshDesiredStance (Character : AAlsCharacter) : AAlsCharacter :=
  if Character.LocomotionMode = EAlsLocomotionMode.Grounded ∧
      Character.LocomotionAction = EAlsLocomotionAction.None then
    match Character.DesiredStance with
    | .Standing => Character.Invoke .UnCrouch
    | .Crouching => Character.Invoke .Crouch
  else
    Character

/-- Store a new ragdoll target location, mark it dirty for replication and forward it to the
server from an autonomous proxy (`AAlsCharacter::SetRagdollTargetLocation`). -/
def SetRagdollTargetLocation (NewLocation : FVector) (Character : AAlsCharacter) :
    AAlsCharacter :=
  if Character.RagdollTargetLocation ≠ NewLocation then
    let Character := { Character with RagdollTargetLocation := NewLocation }
    let Character := Character.Invoke .MarkRagdollTargetLocationDirty
    if Character.LocalRole = ENetRole.ROLE_AutonomousProxy then
      Character.Invoke (.ServerSetRagdollTargetLocation NewLocation)
    else
      Character
  else
    Character

mutual

/-- Modelled from the spec: the movement integrator switches its mode and, when the mode
changed, raises the movement-mode-changed notification of the character. -/
def SetMovementMode (NewMovementMode : EMovementMode) (Character : AAlsCharacter) :
    AAlsCharacter :=
  if Character.MovementMode = NewMovementMode then
    Character
  else
    let PreviousMode := Character.MovementMode
    OnMovementModeChanged PreviousMode { Character with MovementMode := NewMovementMode }
termination_by (if NewMovementMode = EMovementMode.MOVE_None then 1 else 9)
decreasing_by
  all_goals simp_wf
  all_goals split <;> simp

/-- Use the movement mode of the integrator to set the locomotion mode
(`AAlsCharacter::OnMovementModeChanged`). -/
def OnMovementModeChanged (PreviousMode : EMovementMode) (Character : AAlsCharacter) :
    AAlsCharacter :=
  match h : Character.MovementMode with
  | .MOVE_Walking =>
    SetLocomotionMode .Grounded (Character.Invoke (.SuperOnMovementModeChanged PreviousMode))
  | .MOVE_NavWalking =>
    SetLocomotionMode .Grounded (Character.Invoke (.SuperOnMovementModeChanged PreviousMode))
  | .MOVE_Falling =>
    SetLocomotionMode .InAir (Character.Invoke (.SuperOnMovementModeChanged PreviousMode))
  | .MOVE_None => Character.Invoke (.SuperOnMovementModeChanged PreviousMode)
termination_by (if Character.MovementMode = EMovementMode.MOVE_None then 0 else 8)
decreasing_by
  all_goals simp_wf
  all_goals simp [h]

/-- Switch the locomotion mode; nothing happens when the mode does not change
(`AAlsCharacter::SetLocomotionMode`). -/
def SetLocomotionMode (NewMode : EAlsLocomotionMode) (Character : AAlsCharacter) :
    AAlsCharacter :=
  if Character.LocomotionMode = NewMode then
    Character
  else
    let PreviousMode := Character.LocomotionMode
    NotifyLocomotionModeChanged PreviousMode { Character with LocomotionMode := NewMode }
termination_by (if NewMode = EAlsLocomotionMode.Ragdolling then 3 else 7)
decreasing_by
  all_goals simp_wf
  all_goals split <;> simp

/-- The side effects of a locomotion mode change, followed by the overridable hook
(`AAlsCharacter::NotifyLocomotionModeChanged`). -/
def NotifyLocomotionModeChanged (PreviousMode : EAlsLocomotionMode)
    (Character : AAlsCharacter) : AAlsCharacter :=
  if Character.LocomotionMode = EAlsLocomotionMode.Grounded then
    (RefreshDesiredStance Character).Invoke (.OnLocomotionModeChanged PreviousMode)
  else if Character.LocomotionMode = EAlsLocomotionMode.Ragdolling ∧
      PreviousMode = EAlsLocomotionMode.Mantling then
    (Character.Invoke .MantlingTimelineStop).Invoke (.OnLocomotionModeChanged PreviousMode)
  else if h : Character.LocomotionMode = EAlsLocomotionMode.InAir then
    if Character.LocomotionAction = EAlsLocomotionAction.None then
      let Character :=
        { Character with
          InAirState := { Character.InAirState with TargetYawAngle := Character.ActorRotationYaw } }
      let Character :=
        if Character.Stance = EAlsStance.Crouching then Character.Invoke .UnCrouch
        else Character
      Character.Invoke (.OnLocomotionModeChanged PreviousMode)
    else if Character.LocomotionAction = EAlsLocomotionAction.Rolling then
      (StartRagdolling Character).Invoke (.OnLocomotionModeChanged PreviousMode)
    else
      Character.Invoke (.OnLocomotionModeChanged PreviousMode)
  else
    Character.Invoke (.OnLocomotionModeChanged PreviousMode)
termination_by (if Character.LocomotionMode = EAlsLocomotionMode.Ragdolling then 0 else 6)
decreasing_by
  all_goals simp_wf
  all_goals simp [h]

/-- Start ragdolling unless already ragdolling: the authority broadcasts the start, which
also runs it on the authority itself; any other instance only requests it from the server
(`AAlsCharacter::StartRagdolling`). -/
def StartRagdolling (Character : AAlsCharacter) : AAlsCharacter :=
  if Character.LocomotionMode = EAlsLocomotionMode.Ragdolling then
    Character
  else if Character.HasAuthority then
    StartRagdollingImplementation (Character.Invoke .MulticastStartRagdolling)
  else
    Character.Invoke .ServerStartRagdolling
termination_by 5

/-- Engage the ragdoll (`AAlsCharacter::StartRagdollingImplementation`). -/
def StartRagdollingImplementation (Character : AAlsCharacter) : AAlsCharacter :=
  let Character := Character.Invoke (.SetReplicateMovement false)
  let Character := { Character with bIgnoreClientMovementErrorChecksAndCorrection := true }
  let Character :=
    if Character.LocalRole.rank ≥ ENetRole.ROLE_AutonomousProxy.rank then
      SetRagdollTargetLocation Character.PelvisLocation Character
    else
      Character
  let Character :=
    { Character with RagdollingState := { Character.RagdollingState with PullForce := 0 } }
  let Character :=
    if Character.NetMode = ENetMode.NM_DedicatedServer then
      { Character with
        RagdollingState :=
          { Character.RagdollingState with
            PreviousVisibilityBasedAnimTickOption := Character.VisibilityBasedAnimTickOption }
        VisibilityBasedAnimTickOption :=
          EVisibilityBasedAnimTickOption.AlwaysTickPoseAndRefreshBones }
    else
      Character
  let Character := SetMovementMode .MOVE_None Character
  let Character := SetLocomotionMode .Ragdolling Character
  let Character := Character.Invoke (.CapsuleSetCollisionEnabled .NoCollision)
  let Character := Character.Invoke (.MeshSetCollisionObjectType .ECC_PhysicsBody)
  let Character := Character.Invoke (.MeshSetCollisionEnabled .QueryAndPhysics)
  let Character := Character.Invoke .MeshSetAllBodiesBelowPelvisSimulatePhysics
  let Character := Character.Invoke .MontageStop
  Character.Invoke .OnRagdollingStarted
termination_by 4

end

/-- The side effects of a locomotion action change, followed by the overridable hook
(`AAlsCharacter::NotifyLocomotionActionChanged`). -/
def NotifyLocomotionActionChanged (PreviousAction : EAlsLocomotionAction)
    (Character : AAlsCharacter) : AAlsCharacter :=
  let Character :=
    if Character.LocomotionAction = EAlsLocomotionAction.Rolling ∧
        Character.RollingSettings.bCrouchOnStart then
      Character.Invoke .Crouch
    else
      Character
  (RefreshDesiredStance Character).Invoke (.OnLocomotionActionChanged PreviousAction)

/-- Switch the locomotion action; nothing happens when the action does not change
(`AAlsCharacter::SetLocomotionAction`). -/
def SetLocomotionAction (NewAction : EAlsLocomotionAction) (Character : AAlsCharacter) :
    AAlsCharacter :=
  if Character.LocomotionAction = NewAction then
    Character
  else
    let PreviousAction := Character.LocomotionAction
    NotifyLocomotionActionChanged PreviousAction { Character with LocomotionAction := NewAction }

/-! ## Landing and rolling -/

/-- The calls by which a roll starts: the montage, the request to the server and the
broadcast. -/
def IsStartRollingCall : EngineCall → Bool
  | .MontagePlay _ _ _ _ => true
  | .ServerStartRolling _ _ _ => true
  | .MulticastStartRolling _ _ _ => true
  | _ => false

/-- Apply a broadcast roll on an instance that is not locally controlled: store the target
yaw and play the montage (`AAlsCharacter::MulticastStartRolling_Implementation`). -/
def MulticastStartRolling_Implementation (Montage : FObjectPtr)
    (PlayRate TargetYawAngle : ℚ) (Character : AAlsCharacter) : AAlsCharacter :=
  if !Character.bLocallyControlled then
    let Character :=
      { Character with
        RollingState := { Character.RollingState with TargetYawAngle := TargetYawAngle } }
    Character.Invoke (.MontagePlay Montage PlayRate 0 true)
  else
    Character

/-- Forward a roll to the authority (`ServerStartRolling`): the request is recorded; on the
authority its implementation runs at once, broadcasting the roll, which also applies the
broadcast on the authority itself, and forcing a net update
(`AAlsCharacter::ServerStartRolling_Implementation`). -/
def ServerStartRolling (Montage : FObjectPtr) (PlayRate TargetYawAngle : ℚ)
    (Character : AAlsCharacter) : AAlsCharacter :=
  let Character := Character.Invoke (.ServerStartRolling Montage PlayRate TargetYawAngle)
  if Character.HasAuthority then
    let Character :=
      Character.Invoke (.MulticastStartRolling Montage PlayRate TargetYawAngle)
    let Character :=
      MulticastStartRolling_Implementation Montage PlayRate TargetYawAngle Character
    Character.Invoke .ForceNetUpdate
  else
    Character

/-- Start a roll toward a yaw: play the selected montage and forward the roll to the server
(`AAlsCharacter::StartRolling`). -/
def StartRolling (Engine : FEngine) (PlayRate TargetYawAngle : ℚ)
    (Character : AAlsCharacter) : AAlsCharacter :=
  let Character :=
    { Character with
      RollingState := { Character.RollingState with TargetYawAngle := TargetYawAngle } }
  let Montage := Engine.SelectRollMontage
  let Character := Character.Invoke (.MontagePlay Montage PlayRate 0 true)
  ServerStartRolling Montage PlayRate TargetYawAngle Character

/-- React to a landing: ragdoll on a hard landing when enabled, else roll on a fast landing
when enabled, else raise the braking friction for half a second
(`AAlsCharacter::OnLandedNetworked`). The play rate of the roll is the `float` literal
`1.3f`, the binary32 value nearest to 13/10. -/
def OnLandedNetworked (Engine : FEngine) (Character : AAlsCharacter) : AAlsCharacter :=
  let VerticalSpeed := |Character.MovementVelocity.Z|
  if Character.RagdollingSettings.bStartRagdollingOnLand = true ∧
      VerticalSpeed > Character.RagdollingSettings.RagdollingOnLandSpeedThreshold then
    StartRagdolling Character
  else if Character.RollingSettings.bStartRollingOnLand = true ∧
      VerticalSpeed ≥ Character.RollingSettings.RollingOnLandSpeedThreshold then
    StartRolling Engine (Binary32.Round (13 / 10))
      (if Character.LocomotionState.bHasSpeed then Character.LocomotionState.VelocityYawAngle
       else Character.ActorRotationYaw)
      Character
  else
    let Character :=
      { Character with
        BrakingFrictionFactor :=
          if Character.LocomotionState.bHasInputAcceleration then 1 / 2 else 3 }
    Character.Invoke (.SetLandedGroundFrictionResetTimer (1 / 2))

/-! ## Mantling -/

/-- The rotation of the actor, `GetActorRotation()`. -/
def GetActorRotation (Character : AAlsCharacter) : FRotator :=
  { Pitch := Character.ActorRotationPitch, Yaw := Character.ActorRotationYaw,
    Roll := Character.ActorRotationRoll }

/-- The transform of the actor, `GetActorTransform()`. -/
def GetActorTransform (Character : AAlsCharacter) : FTransform :=
  { Rotation := Character.GetActorRotation, Location := Character.ActorLocation,
    Scale3D := Character.ActorScale3D }

/-- Modelled from the spec: the engine call `SetActorLocationAndRotation` without sweep moves
the actor to the location and rotation given. -/
def SetActorLocationAndRotation (NewLocation : FVector) (NewRotation : FRotator)
    (Character : AAlsCharacter) : AAlsCharacter :=
  { Character with
    ActorLocation := NewLocation
    ActorRotationPitch := NewRotation.Pitch
    ActorRotationYaw := NewRotation.Yaw
    ActorRotationRoll := NewRotation.Roll }

/-- Set the mantling state, leave the movement integrator, enter the Mantling mode and start
the mantling timeline and montage (`AAlsCharacter::StartMantling`). The result is `none` when
the call dereferences a reference that is not valid: the target primitive, whose transform is
read without a check, or the correction curve of the selected settings. -/
def StartMantling (Engine : FEngine) (TargetPrimitive : FObjectPtr) (TargetLocation : FVector)
    (TargetRotation : FRotator) (MantlingHeight : ℚ) (MantlingType : EAlsMantlingType)
    (Character : AAlsCharacter) : Option AAlsCharacter :=
  let MantlingSettings := Engine.SelectMantlingSettings MantlingType
  let Character :=
    { Character with
      MantlingState :=
        { Character.MantlingState with
          Montage := MantlingSettings.Montage
          InterpolationAndCorrectionCurve :=
            MantlingSettings.InterpolationAndCorrectionAmountsCurve
          PlayRate :=
            FMath.GetMappedRangeValueClamped
              (MantlingSettings.ReferenceHeight.X, MantlingSettings.ReferenceHeight.Y)
              (MantlingSettings.PlayRate.X, MantlingSettings.PlayRate.Y) MantlingHeight
          StartTime :=
            FMath.GetMappedRangeValueClamped
              (MantlingSettings.ReferenceHeight.X, MantlingSettings.ReferenceHeight.Y)
              (MantlingSettings.StartTime.X, MantlingSettings.StartTime.Y) MantlingHeight
          Primitive := TargetPrimitive
          TargetTransform :=
            { Rotation := TargetRotation, Location := TargetLocation,
              Scale3D := FVector.OneVector } } }
  match Engine.ResolvePrimitive TargetPrimitive with
  | none => none
  | some Primitive =>
    let Character :=
      { Character with
        MantlingState :=
          { Character.MantlingState with
            RelativeTransform :=
              Engine.TransformMultiply Character.MantlingState.TargetTransform
                (Engine.TransformInverse Primitive.ComponentTransform) } }
    let Character :=
      { Character with
        MantlingState :=
          { Character.MantlingState with
            ActorOffset :=
              UAlsMath.SubtractTransforms Character.GetActorTransform
                Character.MantlingState.TargetTransform } }
    let AnimationOffsetLocation :=
      (Engine.RotatorVector TargetRotation).Scale MantlingSettings.StartRelativeLocation.X
    let AnimationOffsetLocation :=
      { AnimationOffsetLocation with Z := MantlingSettings.StartRelativeLocation.Z }
    let Character :=
      { Character with
        MantlingState :=
          { Character.MantlingState with AnimationOffset := AnimationOffsetLocation } }
    let Character := SetMovementMode .MOVE_None Character
    let Character := SetLocomotionMode .Mantling Character
    match Engine.ResolveVectorCurve Character.MantlingState.InterpolationAndCorrectionCurve with
    | none => none
    | some Curve =>
      let Character :=
        Character.Invoke
          (.MantlingTimelineSetTimelineLength (Curve.MaxTime - Character.MantlingState.StartTime))
      let Character :=
        Character.Invoke (.MantlingTimelineSetPlayRate Character.MantlingState.PlayRate)
      let Character :=
        { Character.Invoke .MantlingTimelinePlayFromStart with
          MantlingTimelinePlaybackPosition := 0 }
      let Character :=
        if Engine.IsValidMontage Character.MantlingState.Montage then
          Character.Invoke
            (.MontagePlay Character.MantlingState.Montage Character.MantlingState.PlayRate
              Character.MantlingState.StartTime false)
        else
          Character
      some (Character.Invoke
        (.OnMantlingStarted TargetPrimitive TargetLocation TargetRotation MantlingHeight
          MantlingType))

/-- Every instance but the locally controlled one applies the broadcast mantle
(`AAlsCharacter::MulticastStartMantling_Implementation`). -/
def MulticastStartMantling_Implementation (Engine : FEngine) (TargetPrimitive : FObjectPtr)
    (TargetLocation : FVector) (TargetRotation : FRotator) (MantlingHeight : ℚ)
    (MantlingType : EAlsMantlingType) (Character : AAlsCharacter) : Option AAlsCharacter :=
  if !Character.bLocallyControlled then
    StartMantling Engine TargetPrimitive TargetLocation TargetRotation MantlingHeight
      MantlingType Character
  else
    some Character

/-- Forward the computed mantle to the authority (`ServerStartMantling`): the request is
recorded; on the authority its implementation runs at once, broadcasting the mantle, which
also applies the broadcast on the authority itself, and forcing a net update. -/
def ServerStartMantling (Engine : FEngine) (TargetPrimitive : FObjectPtr)
    (TargetLocation : FVector) (TargetRotation : FRotator) (MantlingHeight : ℚ)
    (MantlingType : EAlsMantlingType) (Character : AAlsCharacter) : Option AAlsCharacter :=
  let Character :=
    Character.Invoke
      (.ServerStartMantling TargetPrimitive TargetLocation TargetRotation MantlingHeight
        MantlingType)
  if Character.HasAuthority then
    let Character :=
      Character.Invoke
        (.MulticastStartMantling TargetPrimitive TargetLocation TargetRotation MantlingHeight
          MantlingType)
    match MulticastStartMantling_Implementation Engine TargetPrimitive TargetLocation
        TargetRotation MantlingHeight MantlingType Character with
    | none => none
    | some Character => some (Character.Invoke .ForceNetUpdate)
  else
    some Character

/-- The lowest point of the capsule, two units lower, from which the mantle probes start
(the value `CapsuleBottomLocation` of `TryStartMantling`). -/
def MantlingCapsuleBottomLocation (Character : AAlsCharacter) : FVector :=
  Character.CapsuleLocation.Sub
    (Character.CapsuleUpVector.Scale (Character.CapsuleHalfHeight + 2))

/-- The direction of the forward probe (the value `ForwardTraceDirection` of
`TryStartMantling`). -/
def MantlingForwardTraceDirection (Engine : FEngine) (Character : AAlsCharacter) : FVector :=
  if Character.LocomotionState.InputAccelerationAmount ≥ KINDA_SMALL_NUMBER then
    Character.InputAcceleration.Div Character.LocomotionState.SmoothMaxAcceleration
  else if Character.LocomotionState.bHasSpeed then
    Engine.GetUnsafeNormal2D Character.LocomotionState.Velocity
  else
    Character.ActorForwardVector

/-- The start of the forward probe (the value `ForwardTraceStart` of `TryStartMantling`). -/
def MantlingForwardTraceStart (Engine : FEngine) (TraceSettings : FAlsMantlingTraceSettings)
    (Character : AAlsCharacter) : FVector :=
  let Start :=
    Character.MantlingCapsuleBottomLocation.Sub
      ((Character.MantlingForwardTraceDirection Engine).Scale 30)
  { Start with
    Z := Start.Z + (TraceSettings.LedgeHeight.GetMax + TraceSettings.LedgeHeight.GetMin) / 2 }

/-- The end of the forward probe (the value `ForwardTraceEnd` of `TryStartMantling`). -/
def MantlingForwardTraceEnd (Engine : FEngine) (TraceSettings : FAlsMantlingTraceSettings)
    (Character : AAlsCharacter) : FVector :=
  (Character.MantlingForwardTraceStart Engine TraceSettings).Add
    ((Character.MantlingForwardTraceDirection Engine).Scale TraceSettings.ReachDistance)

/-- The capsule swept by the forward probe of `TryStartMantling`. -/
def MantlingForwardTraceShape (TraceSettings : FAlsMantlingTraceSettings) : FCollisionShape :=
  .Capsule TraceSettings.TraceRadiusForward
    ((TraceSettings.LedgeHeight.GetMax - TraceSettings.LedgeHeight.GetMin) / 2 + 1)

/-- The forward probe of `TryStartMantling` as a recorded call. -/
def MantlingForwardTraceCall (Engine : FEngine) (TraceSettings : FAlsMantlingTraceSettings)
    (Character : AAlsCharacter) : EngineCall :=
  .SweepSingleByChannel (Character.MantlingForwardTraceStart Engine TraceSettings)
    (Character.MantlingForwardTraceEnd Engine TraceSettings)
    (MantlingForwardTraceShape TraceSettings)

/-- The hit the engine answers the forward probe of `TryStartMantling` with. -/
def MantlingForwardTraceHit (Engine : FEngine) (TraceSettings : FAlsMantlingTraceSettings)
    (Character : AAlsCharacter) : FHitResult :=
  Engine.SweepSingleByChannel (Character.MantlingForwardTraceStart Engine TraceSettings)
    (Character.MantlingForwardTraceEnd Engine TraceSettings)
    (MantlingForwardTraceShape TraceSettings)

/-- The end of the downward probe (the value `DownwardTraceEnd` of `TryStartMantling`). -/
def MantlingDownwardTraceEnd (Engine : FEngine) (TraceSettings : FAlsMantlingTraceSettings)
    (Character : AAlsCharacter) : FVector :=
  let End : FVector :=
    { (Character.MantlingForwardTraceHit Engine TraceSettings).ImpactPoint with
      Z := Character.MantlingCapsuleBottomLocation.Z }
  End.Sub ((Character.MantlingForwardTraceHit Engine TraceSettings).ImpactNormal.Scale 15)

/-- The start of the downward probe (the value `DownwardTraceStart` of `TryStartMantling`). -/
def MantlingDownwardTraceStart (Engine : FEngine) (TraceSettings : FAlsMantlingTraceSettings)
    (Character : AAlsCharacter) : FVector :=
  { Character.MantlingDownwardTraceEnd Engine TraceSettings with
    Z := (Character.MantlingDownwardTraceEnd Engine TraceSettings).Z +
      (TraceSettings.LedgeHeight.GetMax + TraceSettings.TraceRadiusDownward + 1) }

/-- The downward probe of `TryStartMantling` as a recorded call. -/
def MantlingDownwardTraceCall (Engine : FEngine) (TraceSettings : FAlsMantlingTraceSettings)
    (Character : AAlsCharacter) : EngineCall :=
  .SweepSingleByChannel (Character.MantlingDownwardTraceStart Engine TraceSettings)
    (Character.MantlingDownwardTraceEnd Engine TraceSettings)
    (.Sphere TraceSettings.TraceRadiusDownward)

/-- The hit the engine answers the downward probe of `TryStartMantling` with. -/
def MantlingDownwardTraceHit (Engine : FEngine) (TraceSettings : FAlsMantlingTraceSettings)
    (Character : AAlsCharacter) : FHitResult :=
  Engine.SweepSingleByChannel (Character.MantlingDownwardTraceStart Engine TraceSettings)
    (Character.MantlingDownwardTraceEnd Engine TraceSettings)
    (.Sphere TraceSettings.TraceRadiusDownward)

/-- The location the character would stand at after the mantle (the value
`SweepTestLocation` of `TryStartMantling`); its height is the `float` sum
`Hit.ImpactPoint.Z + CapsuleHalfHeight + 2`. -/
def MantlingSweepTestLocation (Engine : FEngine) (TraceSettings : FAlsMantlingTraceSettings)
    (Character : AAlsCharacter) : FVector :=
  { X := (Character.MantlingDownwardTraceHit Engine TraceSettings).Location.X
    Y := (Character.MantlingDownwardTraceHit Engine TraceSettings).Location.Y
    Z := Binary32.Add
      (Binary32.Add (Character.MantlingDownwardTraceHit Engine TraceSettings).ImpactPoint.Z
        Character.CapsuleHalfHeight) 2 }

/-- Detect a ledge to mantle and start the mantle (`AAlsCharacter::TryStartMantling`); the
probes are recorded and answered by the engine, and the local values of the source that
describe the probes are the definitions above. The squared speed of the target, the square
of the threshold and the mantling height are computed in `float` arithmetic. The result is
`none` when the call dereferences a reference that is not valid. -/
def TryStartMantling (Engine : FEngine) (TraceSettings : FAlsMantlingTraceSettings)
    (Character : AAlsCharacter) : Option (Bool × AAlsCharacter) :=
  let CapsuleHalfHeight := Character.CapsuleHalfHeight
  let Hit := Character.MantlingForwardTraceHit Engine TraceSettings
  let Traced := Character.Invoke (Character.MantlingForwardTraceCall Engine TraceSettings)
  if !Hit.IsValidBlockingHit then
    some (false, Traced)
  else if Engine.IsWalkable Hit then
    some (false, Traced)
  else
    match Engine.ResolvePrimitive Hit.Component with
    | none => none
    | some HitComponent =>
      if !HitComponent.bCanCharacterStepUp then
        some (false, Traced)
      else
        let TargetPrimitive := Hit.Component
        match Engine.ResolvePrimitive TargetPrimitive with
        | none => some (false, Traced)
        | some Target =>
          if Target.ComponentVelocity.SizeSquared >
              FMath.Square Character.GeneralMantlingSettings.TargetPrimitiveSpeedThreshold then
            some (false, Traced)
          else
            let ForwardTraceImpactNormal := Hit.ImpactNormal
            let Traced :=
              Traced.Invoke (Character.MantlingDownwardTraceCall Engine TraceSettings)
            let Hit := Character.MantlingDownwardTraceHit Engine TraceSettings
            if !Engine.IsWalkable Hit then
              some (false, Traced)
            else
              let SweepTestLocation := Character.MantlingSweepTestLocation Engine TraceSettings
              let Traced :=
                Traced.Invoke
                  (.SweepTestByProfile SweepTestLocation SweepTestLocation
                    (.Capsule Character.CapsuleRadius CapsuleHalfHeight))
              if Engine.SweepTestByProfile SweepTestLocation SweepTestLocation
                  (.Capsule Character.CapsuleRadius CapsuleHalfHeight) then
                some (false, Traced)
              else
                let TargetRotation :=
                  Engine.ToOrientationRotator
                    (ForwardTraceImpactNormal.Mul { X := -1, Y := -1, Z := 0 })
                let MantlingHeight := Binary32.Sub SweepTestLocation.Z Character.ActorLocation.Z
                let MantlingType :=
                  if Character.LocomotionMode = EAlsLocomotionMode.InAir then
                    EAlsMantlingType.InAir
                  else if MantlingHeight > 125 then
                    EAlsMantlingType.High
                  else
                    EAlsMantlingType.Low
                match StartMantling Engine TargetPrimitive SweepTestLocation TargetRotation
                    MantlingHeight MantlingType Traced with
                | none => none
                | some Started =>
                  match ServerStartMantling Engine TargetPrimitive SweepTestLocation
                      TargetRotation MantlingHeight MantlingType Started with
                  | none => none
                  | some Forwarded => some (true, Forwarded)

/-- Try to mantle from the ground, only when grounded with no action
(`AAlsCharacter::TryStartMantlingGrounded`). -/
def TryStartMantlingGrounded (Engine : FEngine) (Character : AAlsCharacter) :
    Option (Bool × AAlsCharacter) :=
  if Character.LocomotionMode = EAlsLocomotionMode.Grounded ∧
      Character.LocomotionAction = EAlsLocomotionAction.None then
    TryStartMantling Engine Character.GeneralMantlingSettings.GroundedTrace Character
  else
    some (false, Character)

/-- Try to mantle in the air (`AAlsCharacter::TryStartMantlingInAir`). -/
def TryStartMantlingInAir (Engine : FEngine) (Character : AAlsCharacter) :
    Option (Bool × AAlsCharacter) :=
  TryStartMantling Engine Character.GeneralMantlingSettings.InAirTrace Character

/-- The blended transform of one timeline update, the value `ResultTransform` of
`OnMantlingTimelineUpdated`, from the mantling state with its target transform resolved, the
sampled interpolation and correction amounts and the blend-in factor: the start offset is
blended toward the animation offsets by the horizontal and vertical correction amounts, the
target plus that offset is blended toward the pure target by the interpolation amount, and
the result is blended in from the target plus the actor offset by `BlendInTime`. -/
def MantlingResultTransform (Engine : FEngine) (MantlingState : FAlsMantlingState)
    (InterpolationAndCorrectionAmounts : FVector) (BlendInTime : ℚ) : FTransform :=
  let InterpolationAmount := InterpolationAndCorrectionAmounts.X
  let HorizontalCorrectionAmount := InterpolationAndCorrectionAmounts.Y
  let VerticalCorrectionAmount := InterpolationAndCorrectionAmounts.Z
  let TargetHorizontalOffset : FTransform :=
    { Rotation := {}
      Location :=
        { X := MantlingState.AnimationOffset.X
          Y := MantlingState.AnimationOffset.Y
          Z := MantlingState.ActorOffset.Location.Z }
      Scale3D := FVector.OneVector }
  let ResultHorizontalOffset :=
    UKismetMathLibrary.TLerp Engine MantlingState.ActorOffset TargetHorizontalOffset
      HorizontalCorrectionAmount
  let TargetVerticalOffset : FTransform :=
    { Rotation := MantlingState.ActorOffset.Rotation
      Location :=
        { X := MantlingState.ActorOffset.Location.X
          Y := MantlingState.ActorOffset.Location.Y
          Z := MantlingState.AnimationOffset.Z }
      Scale3D := FVector.OneVector }
  let ResultVerticalOffset :=
    UKismetMathLibrary.TLerp Engine MantlingState.ActorOffset TargetVerticalOffset
      VerticalCorrectionAmount
  let ResultOffset : FTransform :=
    { Rotation := ResultHorizontalOffset.Rotation
      Location :=
        { X := ResultHorizontalOffset.Location.X
          Y := ResultHorizontalOffset.Location.Y
          Z := ResultVerticalOffset.Location.Z }
      Scale3D := FVector.OneVector }
  let TargetTransform :=
    UKismetMathLibrary.TLerp Engine
      (UAlsMath.AddTransforms MantlingState.TargetTransform ResultOffset)
      MantlingState.TargetTransform InterpolationAmount
  UKismetMathLibrary.TLerp Engine
    (UAlsMath.AddTransforms MantlingState.TargetTransform MantlingState.ActorOffset)
    TargetTransform BlendInTime

/-- One update of the mantling timeline (`AAlsCharacter::OnMantlingTimelineUpdated`): the
target transform is resolved again against the target primitive, the correction curve is
sampled at the start time plus the playback position, and the blended transform is applied to
the actor. The result is `none` when the call dereferences a reference that is not valid: the
target primitive or the correction curve, both read without a check. -/
def OnMantlingTimelineUpdated (Engine : FEngine) (BlendInTime : ℚ)
    (Character : AAlsCharacter) : Option AAlsCharacter :=
  match Engine.ResolvePrimitive Character.MantlingState.Primitive with
  | none => none
  | some Primitive =>
    let Character :=
      { Character with
        MantlingState :=
          { Character.MantlingState with
            TargetTransform :=
              Engine.TransformMultiply Character.MantlingState.RelativeTransform
                Primitive.ComponentTransform } }
    match Engine.ResolveVectorCurve Character.MantlingState.InterpolationAndCorrectionCurve with
    | none => none
    | some Curve =>
      let InterpolationAndCorrectionAmounts :=
        Curve.GetVectorValue
          (Character.MantlingState.StartTime + Character.MantlingTimelinePlaybackPosition)
      let ResultTransform :=
        MantlingResultTransform Engine Character.MantlingState
          InterpolationAndCorrectionAmounts BlendInTime
      let ResultRotation := ResultTransform.Rotation
      let Character :=
        SetActorLocationAndRotation ResultTransform.Location ResultRotation Character
      some
        { Character with
          LocomotionState :=
            { Character.LocomotionState with TargetActorRotation := ResultRotation } }

/-- Return the movement integrator to walking when the mantling timeline ends
(`AAlsCharacter::OnMantlingTimelineEnded`). -/
def OnMantlingTimelineEnded (Character : AAlsCharacter) : AAlsCharacter :=
  (SetMovementMode .MOVE_Walking Character).Invoke .OnMantlingEnded

/-! ## Ragdolling -/

/-- Reconcile the actor with the ragdoll (`AAlsCharacter::RefreshRagdollingActorTransform`):
a locally controlled instance takes the pelvis location as the target location; every
instance probes downward from the target location by the half height of the capsule and lifts
the actor location above a floor found; an instance that is not locally controlled ramps the
pull force toward 750 and pulls the pelvis, or the upper spine when the ragdoll moves fast,
toward the target location; the actor faces along the pelvis yaw, turned around when the
ragdoll lies face up. -/
def RefreshRagdollingActorTransform (Engine : FEngine) (DeltaTime : ℚ)
    (Character : AAlsCharacter) : AAlsCharacter :=
  let Character :=
    if Character.bLocallyControlled then
      SetRagdollTargetLocation Character.PelvisLocation Character
    else
      Character
  let PelvisRotation := Character.PelvisRotation
  let TraceEnd : FVector :=
    { X := Character.RagdollTargetLocation.X
      Y := Character.RagdollTargetLocation.Y
      Z := Character.RagdollTargetLocation.Z - Character.CapsuleHalfHeight }
  let Hit := Engine.LineTraceSingleByChannel Character.RagdollTargetLocation TraceEnd
  let Character :=
    Character.Invoke (.LineTraceSingleByChannel Character.RagdollTargetLocation TraceEnd)
  let NewActorLocation := Character.RagdollTargetLocation
  let Character :=
    { Character with
      RagdollingState := { Character.RagdollingState with bGrounded := Hit.IsValidBlockingHit } }
  let NewActorLocation :=
    if Character.RagdollingState.bGrounded then
      { NewActorLocation with
        Z := NewActorLocation.Z +
          (Character.CapsuleHalfHeight - |Hit.ImpactPoint.Z - Hit.TraceStart.Z| + 2) }
    else
      NewActorLocation
  let Character :=
    if !Character.bLocallyControlled then
      let Character :=
        { Character with
          RagdollingState :=
            { Character.RagdollingState with
              PullForce :=
                FMath.FInterpTo Character.RagdollingState.PullForce 750 DeltaTime (6 / 10) } }
      let RagdollSpeedSquared :=
        FVector2D.SizeSquared
          { X := Character.RagdollingState.RootBoneVelocity.X
            Y := Character.RagdollingState.RootBoneVelocity.Y }
      if RagdollSpeedSquared > 300 * 300 then
        Character.Invoke
          (.MeshAddForce
            ((Character.RagdollTargetLocation.Sub Character.Spine03Location).Scale
              Character.RagdollingState.PullForce)
            .Spine03)
      else
        Character.Invoke
          (.MeshAddForce
            ((Character.RagdollTargetLocation.Sub Character.PelvisLocation).Scale
              Character.RagdollingState.PullForce)
            .Pelvis)
    else
      Character
  let Character :=
    { Character with
      RagdollingState := { Character.RagdollingState with bFacedUpward := PelvisRotation.Roll < 0 } }
  let Character :=
    { Character with
      LocomotionState :=
        { Character.LocomotionState with
          TargetActorRotation :=
            { Pitch := 0
              Yaw := if Character.RagdollingState.bFacedUpward then PelvisRotation.Yaw - 180
                     else PelvisRotation.Yaw
              Roll := 0 } } }
  SetActorLocationAndRotation NewActorLocation Character.LocomotionState.TargetActorRotation
    Character

/-- The pull forces along a run of ragdoll refreshes, one engine answer and time step per
tick: the pull force before the run and after each tick. -/
def RagdollingPullForces : List (FEngine × ℚ) → AAlsCharacter → List ℚ
  | [], Character => [Character.RagdollingState.PullForce]
  | (Engine, DeltaTime) :: Ticks, Character =>
    Character.RagdollingState.PullForce ::
      RagdollingPullForces Ticks (RefreshRagdollingActorTransform Engine DeltaTime Character)

/-- Disengage the ragdoll: restore replication and the animation tick policy, return the
movement integrator to walking with a get up montage when the ragdoll is grounded, else to
falling with the velocity of the root bone, and restore the collision and physics switches
(`AAlsCharacter::StopRagdollingImplementation`). -/
def StopRagdollingImplementation (Engine : FEngine) (Character : AAlsCharacter) :
    AAlsCharacter :=
  let Character := Character.Invoke (.SetReplicateMovement true)
  let Character := { Character with bIgnoreClientMovementErrorChecksAndCorrection := false }
  let Character :=
    if Character.NetMode = ENetMode.NM_DedicatedServer then
      { Character with
        VisibilityBasedAnimTickOption :=
          Character.RagdollingState.PreviousVisibilityBasedAnimTickOption }
    else
      Character
  let Character :=
    if Character.RagdollingState.bGrounded then
      let Character := SetMovementMode .MOVE_Walking Character
      Character.Invoke
        (.MontagePlay (Engine.SelectGetUpMontage Character.RagdollingState.bFacedUpward) 1 0
          true)
    else
      let Character := SetMovementMode .MOVE_Falling Character
      { Character with MovementVelocity := Character.RagdollingState.RootBoneVelocity }
  let Character := Character.Invoke (.MeshSetAllBodiesSimulatePhysics false)
  let Character := Character.Invoke (.MeshSetCollisionEnabled .QueryOnly)
  let Character := Character.Invoke (.MeshSetCollisionObjectType .ECC_Pawn)
  let Character := Character.Invoke (.CapsuleSetCollisionEnabled .QueryAndPhysics)
  Character.Invoke .OnRagdollingEnded

/-- Stop ragdolling when ragdolling: the authority broadcasts the stop, which also runs it on
the authority itself; any other instance only requests it from the server. The result is
whether the character was ragdolling (`AAlsCharacter::TryStopRagdolling`). -/
def TryStopRagdolling (Engine : FEngine) (Character : AAlsCharacter) : Bool × AAlsCharacter :=
  if Character.LocomotionMode ≠ EAlsLocomotionMode.Ragdolling then
    (false, Character)
  else if Character.HasAuthority then
    (true, StopRagdollingImplementation Engine (Character.Invoke .MulticastStopRagdolling))
  else
    (true, Character.Invoke .ServerStopRagdolling)

/-- The calls that play a montage. -/
def IsMontagePlayCall : EngineCall → Bool
  | .MontagePlay _ _ _ _ => true
  | _ => false

/-- The calls that control the mantling timeline. -/
def IsMantlingTimelineCall : EngineCall → Bool
  | .MantlingTimelineStop => true
  | .MantlingTimelineSetTimelineLength _ => true
  | .MantlingTimelineSetPlayRate _ => true
  | .MantlingTimelinePlayFromStart => true
  | _ => false

/-! ## Input -/

/-- Forward a jump request to the base character only when grounded, with no action and
standing (`AAlsCharacter::Jump`). -/
def Jump (Character : AAlsCharacter) : AAlsCharacter :=
  if Character.LocomotionMode = EAlsLocomotionMode.Grounded ∧
      Character.LocomotionAction = EAlsLocomotionAction.None ∧
      Character.Stance = EAlsStance.Standing then
    Character.Invoke .SuperJump
  else
    Character

/-! ## The tick -/

/-- Switch the rotation mode and call the overridable hook when it changed
(`AAlsCharacter::SetRotationMode`). -/
def SetRotationMode (NewMode : EAlsRotationMode) (Character : AAlsCharacter) : AAlsCharacter :=
  if Character.RotationMode ≠ NewMode then
    let PreviousMode := Character.RotationMode
    ({ Character with RotationMode := NewMode }).Invoke (.OnRotationModeChanged PreviousMode)
  else
    Character

/-- Derive the rotation mode from aiming, sprinting and the desired rotation mode
(`AAlsCharacter::RefreshRotationMode`). -/
def RefreshRotationMode (Character : AAlsCharacter) : AAlsCharacter :=
  if Character.bAiming then
    SetRotationMode .Aiming Character
  else if Character.bRotateToVelocityWhenSprinting ∧
      Character.DesiredGait = EAlsGait.Sprinting then
    SetRotationMode .VelocityDirection Character
  else
    SetRotationMode Character.DesiredRotationMode Character

/-- Store a new input acceleration and mark it dirty for replication
(`AAlsCharacter::SetInputAcceleration`). -/
def SetInputAcceleration (NewInputAcceleration : FVector) (Character : AAlsCharacter) :
    AAlsCharacter :=
  if Character.InputAcceleration ≠ NewInputAcceleration then
    ({ Character with InputAcceleration := NewInputAcceleration }).Invoke
      .MarkInputAccelerationDirty
  else
    Character

/-- Refresh the locomotion kinematics: input acceleration, velocity, acceleration, speed and
the moving flag (`AAlsCharacter::RefreshLocomotion`). `GetVelocity()` is the velocity of the
movement integrator. -/
def RefreshLocomotion (Engine : FEngine) (DeltaTime : ℚ) (Character : AAlsCharacter) :
    AAlsCharacter :=
  let Character :=
    if Character.LocalRole.rank > ENetRole.ROLE_SimulatedProxy.rank then
      let Character := SetInputAcceleration Character.MovementCurrentAcceleration Character
      { Character with
        LocomotionState :=
          { Character.LocomotionState with
            SmoothMaxAcceleration := Character.MovementMaxAcceleration } }
    else
      { Character with
        LocomotionState :=
          { Character.LocomotionState with
            SmoothMaxAcceleration :=
              if Character.MovementMaxAcceleration > SMALL_NUMBER then
                Character.MovementMaxAcceleration
              else
                Character.LocomotionState.SmoothMaxAcceleration / 2 } }
  let Character :=
    { Character with
      LocomotionState :=
        { Character.LocomotionState with
          InputAccelerationAmount :=
            Engine.VectorSize Character.InputAcceleration /
              Character.LocomotionState.SmoothMaxAcceleration } }
  let Character :=
    { Character with
      LocomotionState :=
        { Character.LocomotionState with
          bHasInputAcceleration :=
            Character.LocomotionState.InputAccelerationAmount > SMALL_NUMBER } }
  let Character :=
    if Character.LocomotionState.bHasInputAcceleration then
      { Character with
        LocomotionState :=
          { Character.LocomotionState with
            InputAccelerationYawAngle :=
              (Engine.ToOrientationRotator Character.InputAcceleration).Yaw } }
    else
      Character
  let Character :=
    { Character with
      LocomotionState := { Character.LocomotionState with Velocity := Character.MovementVelocity } }
  let NewAcceleration :=
    (Character.LocomotionState.Velocity.Sub Character.LocomotionState.PreviousVelocity).Div
      DeltaTime
  let Character :=
    { Character with
      LocomotionState :=
        { Character.LocomotionState with
          Acceleration :=
            if NewAcceleration.SizeSquared > SMALL_NUMBER ∨ Character.bLocallyControlled then
              NewAcceleration
            else
              Character.LocomotionState.Acceleration.Div 2 } }
  let Character :=
    { Character with
      LocomotionState :=
        { Character.LocomotionState with
          Speed := Engine.VectorSize2D Character.LocomotionState.Velocity } }
  let Character :=
    { Character with
      LocomotionState :=
        { Character.LocomotionState with bHasSpeed := Character.LocomotionState.Speed > 1 } }
  let Character :=
    if Character.LocomotionState.bHasSpeed then
      { Character with
        LocomotionState :=
          { Character.LocomotionState with
            VelocityYawAngle :=
              (Engine.ToOrientationRotator Character.LocomotionState.Velocity).Yaw } }
    else
      Character
  { Character with
    LocomotionState :=
      { Character.LocomotionState with
        bMoving :=
          Character.LocomotionState.bHasSpeed &&
            Character.LocomotionState.bHasInputAcceleration ||
          decide (Character.LocomotionState.Speed > 150) } }

/-- Store a new aiming rotation and mark it dirty for replication
(`AAlsCharacter::SetAimingRotation`). -/
def SetAimingRotation (NewAimingRotation : FRotator) (Character : AAlsCharacter) :
    AAlsCharacter :=
  if Character.AimingRotation ≠ NewAimingRotation then
    ({ Character with AimingRotation := NewAimingRotation }).Invoke .MarkAimingRotationDirty
  else
    Character

/-- The smoothed aiming rotation, `AimingState.SmoothRotation`. -/
def GetSmoothRotation (Character : AAlsCharacter) : FRotator :=
  { Pitch := Character.AimingState.SmoothRotationPitch
    Yaw := Character.AimingState.SmoothRotationYaw
    Roll := Character.AimingState.SmoothRotationRoll }

/-- Smooth the aiming rotation toward the control rotation and measure its yaw speed
(`AAlsCharacter::RefreshAiming`). -/
def RefreshAiming (Engine : FEngine) (DeltaTime : ℚ) (Character : AAlsCharacter) :
    AAlsCharacter :=
  let Character :=
    if Character.LocalRole.rank > ENetRole.ROLE_SimulatedProxy.rank then
      SetAimingRotation Character.ControlRotation Character
    else
      Character
  let SmoothRotation :=
    Engine.RInterpTo Character.GetSmoothRotation Character.AimingRotation DeltaTime 30
  let Character :=
    { Character with
      AimingState :=
        { Character.AimingState with
          SmoothRotationPitch := SmoothRotation.Pitch
          SmoothRotationYaw := SmoothRotation.Yaw
          SmoothRotationRoll := SmoothRotation.Roll } }
  { Character with
    AimingState :=
      { Character.AimingState with
        YawSpeed :=
          |(Character.AimingState.SmoothRotationYaw -
            Character.AimingState.PreviousSmoothYawAngle) / DeltaTime| } }

/-- The gait settings for the current rotation mode and stance
(`AAlsCharacter::GetGaitSettings`). -/
def GetGaitSettings (Engine : FEngine) (Character : AAlsCharacter) : FAlsMovementGaitSettings :=
  Engine.MovementSettings Character.RotationMode Character.Stance

/-- Switch the gait and call the overridable hook when it changed
(`AAlsCharacter::SetGait`). -/
def SetGait (NewGait : EAlsGait) (Character : AAlsCharacter) : AAlsCharacter :=
  if Character.Gait ≠ NewGait then
    let PreviousGait := Character.Gait
    ({ Character with Gait := NewGait }).Invoke (.OnGaitChanged PreviousGait)
  else
    Character

/-- Modelled from the spec: `UAlsCharacterMovementComponent::SetCustomMaxWalkSpeed` (its source
is not among the sources) pushes the top speed to the movement integrator. -/
def SetCustomMaxWalkSpeed (NewMaxWalkSpeed : ℚ) (Character : AAlsCharacter) : AAlsCharacter :=
  ({ Character with MaxWalkSpeed := NewMaxWalkSpeed }).Invoke
    (.SetCustomMaxWalkSpeed NewMaxWalkSpeed)

/-- Push the max speed of the max allowed gait only
(`AAlsCharacter::RefreshGaitSettingsNetworked`). -/
def RefreshGaitSettingsNetworked (MaxAllowedGait : EAlsGait)
    (GaitSettings : FAlsMovementGaitSettings) (Character : AAlsCharacter) : AAlsCharacter :=
  let NewMaxSpeed := GaitSettings.GetSpeedForGait MaxAllowedGait
  if Character.bLocallyControlled ∨ Character.HasAuthority then
    if Character.MaxWalkSpeed ≠ NewMaxSpeed then
      SetCustomMaxWalkSpeed NewMaxSpeed Character
    else
      Character
  else
    { Character with MaxWalkSpeed := NewMaxSpeed }

/-- Push the max speed of the max allowed gait and the acceleration, deceleration and ground
friction sampled from the movement curve at the gait amount
(`AAlsCharacter::RefreshGaitSettingsStandalone`). The result is `none` when the movement curve
is not valid. -/
def RefreshGaitSettingsStandalone (Engine : FEngine) (MaxAllowedGait : EAlsGait)
    (GaitSettings : FAlsMovementGaitSettings) (Character : AAlsCharacter) :
    Option AAlsCharacter :=
  let Character := SetCustomMaxWalkSpeed (GaitSettings.GetSpeedForGait MaxAllowedGait) Character
  match Engine.ResolveVectorCurve
      GaitSettings.AccelerationAndDecelerationAndGroundFrictionCurve with
  | none => none
  | some Curve =>
    let AccelerationAndDecelerationAndGroundFriction :=
      Curve.GetVectorValue (Character.CalculateGaitAmount GaitSettings)
    some
      { Character with
        MovementMaxAcceleration := AccelerationAndDecelerationAndGroundFriction.X
        BrakingDecelerationWalking := AccelerationAndDecelerationAndGroundFriction.Y
        GroundFriction := AccelerationAndDecelerationAndGroundFriction.Z }

/-- Refresh the gait and the movement settings from the max allowed gait
(`AAlsCharacter::RefreshGait`). -/
def RefreshGait (Engine : FEngine) (GaitSettings : FAlsMovementGaitSettings)
    (Character : AAlsCharacter) : Option AAlsCharacter :=
  let MaxAllowedGait := Character.CalculateMaxAllowedGait
  let Character := SetGait (Character.CalculateActualGait MaxAllowedGait GaitSettings) Character
  if Character.bEnableNetworkOptimizations then
    some (RefreshGaitSettingsNetworked MaxAllowedGait GaitSettings Character)
  else
    RefreshGaitSettingsStandalone Engine MaxAllowedGait GaitSettings Character

/-- Modelled from the spec: the engine call `SetActorRotation` turns the actor to the rotation
given. -/
def SetActorRotation (NewRotation : FRotator) (Character : AAlsCharacter) : AAlsCharacter :=
  { Character with
    ActorRotationPitch := NewRotation.Pitch
    ActorRotationYaw := NewRotation.Yaw
    ActorRotationRoll := NewRotation.Roll }

/-- Head for a target yaw and turn the actor toward it (`AAlsCharacter::RefreshActorRotation`). -/
def RefreshActorRotation (Engine : FEngine) (TargetYawAngle DeltaTime RotationSpeed : ℚ)
    (Character : AAlsCharacter) : AAlsCharacter :=
  let Character :=
    { Character with
      LocomotionState :=
        { Character.LocomotionState with
          TargetActorRotation := { Pitch := 0, Yaw := TargetYawAngle, Roll := 0 } } }
  SetActorRotation
    (Engine.RInterpTo Character.GetActorRotation Character.LocomotionState.TargetActorRotation
      DeltaTime RotationSpeed)
    Character

/-- Move the target rotation at a constant rate toward a target yaw and turn the actor toward
the target rotation (`AAlsCharacter::RefreshActorRotationExtraSmooth`). -/
def RefreshActorRotationExtraSmooth (Engine : FEngine)
    (TargetYawAngle DeltaTime TargetRotationSpeed ActorRotationSpeed : ℚ)
    (Character : AAlsCharacter) : AAlsCharacter :=
  let Character :=
    { Character with
      LocomotionState :=
        { Character.LocomotionState with
          TargetActorRotation :=
            Engine.RInterpConstantTo Character.LocomotionState.TargetActorRotation
              { Pitch := 0, Yaw := TargetYawAngle, Roll := 0 } DeltaTime TargetRotationSpeed } }
  SetActorRotation
    (Engine.RInterpTo Character.GetActorRotation Character.LocomotionState.TargetActorRotation
      DeltaTime ActorRotationSpeed)
    Character

/-- Keep the actor within 70 degrees of the aim yaw while aiming and standing still
(`AAlsCharacter::RefreshAimingActorRotation`). The difference of the two yaw angles is the
`float` difference. -/
def RefreshAimingActorRotation (Engine : FEngine) (DeltaTime : ℚ)
    (Character : AAlsCharacter) : AAlsCharacter :=
  let YawAngleDifference :=
    FRotator.NormalizeAxis
      (Binary32.Sub Character.AimingState.SmoothRotationYaw Character.ActorRotationYaw)
  if |YawAngleDifference| > 70 then
    RefreshActorRotation Engine
      (Character.AimingState.SmoothRotationYaw + (if YawAngleDifference > 0 then -70 else 70))
      DeltaTime 20 Character
  else
    Character

/-- The rotation speed from the rotation speed curve at the gait amount, scaled up by the yaw
speed of the aim (`AAlsCharacter::CalculateActorRotationSpeed`). The result is `none` when the
rotation speed curve is not valid. -/
def CalculateActorRotationSpeed (Engine : FEngine) (GaitSettings : FAlsMovementGaitSettings)
    (Character : AAlsCharacter) : Option ℚ :=
  match Engine.ResolveFloatCurve GaitSettings.RotationSpeedCurve with
  | none => none
  | some Curve =>
    some (Curve (Character.CalculateGaitAmount GaitSettings) *
      FMath.GetMappedRangeValueClamped (0, 300) (1, 3) Character.AimingState.YawSpeed)

/-- Refresh the actor rotation on the ground (`AAlsCharacter::RefreshGroundedActorRotation`). -/
def RefreshGroundedActorRotation (Engine : FEngine) (DeltaTime : ℚ)
    (GaitSettings : FAlsMovementGaitSettings) (Character : AAlsCharacter) :
    Option AAlsCharacter :=
  if Character.LocomotionAction = EAlsLocomotionAction.Rolling then
    let Character :=
      if Character.RollingSettings.bSmoothRotateToInputAccelerationDuringRoll ∧
          Character.LocomotionState.bHasInputAcceleration then
        { Character with
          RollingState :=
            { Character.RollingState with
              TargetYawAngle :=
                Engine.AngleInterpolateConstantTo Character.RollingState.TargetYawAngle
                  Character.LocomotionState.InputAccelerationYawAngle DeltaTime 100 } }
      else
        Character
    some (RefreshActorRotation Engine Character.RollingState.TargetYawAngle DeltaTime 10
      Character)
  else if Character.LocomotionAction ≠ EAlsLocomotionAction.None then
    some Character
  else if Character.LocomotionState.bMoving ∧ !Engine.bHasAnyRootMotion then
    match Character.RotationMode with
    | .VelocityDirection =>
      match CalculateActorRotationSpeed Engine GaitSettings Character with
      | none => none
      | some ActorRotationSpeed =>
        some (RefreshActorRotationExtraSmooth Engine Character.LocomotionState.VelocityYawAngle
          DeltaTime 800 ActorRotationSpeed Character)
    | .LookingDirection =>
      let TargetYawAngle :=
        if Character.Gait = EAlsGait.Sprinting then
          Character.LocomotionState.VelocityYawAngle
        else
          Character.AimingState.SmoothRotationYaw + Engine.RotationYawOffsetCurveValue
      match CalculateActorRotationSpeed Engine GaitSettings Character with
      | none => none
      | some ActorRotationSpeed =>
        some (RefreshActorRotationExtraSmooth Engine TargetYawAngle DeltaTime 500
          ActorRotationSpeed Character)
    | .Aiming =>
      some (RefreshActorRotationExtraSmooth Engine Character.AimingState.SmoothRotationYaw
        DeltaTime 1000 20 Character)
  else
    let Character :=
      if Character.RotationMode = EAlsRotationMode.Aiming then
        if Character.LocomotionState.bHasInputAcceleration then
          RefreshActorRotationExtraSmooth Engine Character.AimingState.SmoothRotationYaw
            DeltaTime 1000 20 Character
        else
          RefreshAimingActorRotation Engine DeltaTime Character
      else
        Character
    let RotationYawSpeed := Engine.RotationYawSpeedCurveValue
    if |RotationYawSpeed| ≤ KINDA_SMALL_NUMBER then
      some Character
    else
      let Character :=
        if Character.LocalRole = ENetRole.ROLE_AutonomousProxy then
          let Character :=
            { Character with
              LocomotionState :=
                { Character.LocomotionState with
                  TargetActorRotation :=
                    { Character.LocomotionState.TargetActorRotation with
                      Yaw :=
                        FRotator.NormalizeAxis
                          (Character.LocomotionState.TargetActorRotation.Yaw +
                            RotationYawSpeed * DeltaTime) } } }
          SetActorRotation Character.LocomotionState.TargetActorRotation Character
        else
          SetActorRotation
            (Engine.AddWorldRotation Character.GetActorRotation
              { Pitch := 0, Yaw := RotationYawSpeed * DeltaTime, Roll := 0 })
            Character
      some
        { Character with
          LocomotionState :=
            { Character.LocomotionState with TargetActorRotation := Character.GetActorRotation } }

/-- Refresh the actor rotation in the air (`AAlsCharacter::RefreshInAirActorRotation`). -/
def RefreshInAirActorRotation (Engine : FEngine) (DeltaTime : ℚ)
    (Character : AAlsCharacter) : AAlsCharacter :=
  if Character.LocomotionAction = EAlsLocomotionAction.Rolling then
    RefreshActorRotation Engine Character.RollingState.TargetYawAngle DeltaTime 10 Character
  else
    match Character.RotationMode with
    | .VelocityDirection =>
      RefreshActorRotation Engine Character.InAirState.TargetYawAngle DeltaTime 5 Character
    | .LookingDirection =>
      RefreshActorRotation Engine Character.InAirState.TargetYawAngle DeltaTime 5 Character
    | .Aiming =>
      let Character :=
        RefreshActorRotation Engine Character.AimingState.SmoothRotationYaw DeltaTime 15
          Character
      { Character with
        InAirState := { Character.InAirState with TargetYawAngle := Character.ActorRotationYaw } }

/-- Refresh the ragdoll: sample the velocity of the root bone, drive the joint motors and the
gravity from it, and reconcile the actor (`AAlsCharacter::RefreshRagdolling`). -/
def RefreshRagdolling (Engine : FEngine) (DeltaTime : ℚ) (Character : AAlsCharacter) :
    AAlsCharacter :=
  let RootBoneVelocity := Character.MeshRootBoneVelocity
  let Character :=
    { Character with
      RagdollingState :=
        { Character.RagdollingState with
          RootBoneVelocity :=
            if RootBoneVelocity.SizeSquared > SMALL_NUMBER ∨ Character.bLocallyControlled then
              RootBoneVelocity
            else
              Character.RagdollingState.RootBoneVelocity.Div 2 } }
  let Character :=
    Character.Invoke
      (.MeshSetAllMotorsAngularDriveParams
        (FMath.Clamp (Engine.VectorSize Character.RagdollingState.RootBoneVelocity / 1000) 0 1 *
          25000)
        0 0 false)
  let Character :=
    Character.Invoke
      (.MeshSetEnableGravity (Character.RagdollingState.RootBoneVelocity.Z > -4000))
  RefreshRagdollingActorTransform Engine DeltaTime Character

/-- One simulation step of the character (`AAlsCharacter::Tick`): the rotation mode, the
locomotion kinematics and the aiming are refreshed, then the work of the locomotion mode is
done: gait and rotation on the ground; rotation and a mantle attempt in the air; the ragdoll
refresh while ragdolling; nothing while mantling. The result is `none` when the step
dereferences a reference that is not valid. -/
def Tick (Engine : FEngine) (DeltaTime : ℚ) (Character : AAlsCharacter) :
    Option AAlsCharacter :=
  let Character := Character.Invoke (.SuperTick DeltaTime)
  let Character := RefreshRotationMode Character
  let Character := RefreshLocomotion Engine DeltaTime Character
  let Character := RefreshAiming Engine DeltaTime Character
  let Dispatched : Option AAlsCharacter :=
    match Character.LocomotionMode with
    | .Grounded =>
      let GaitSettings := Character.GetGaitSettings Engine
      match RefreshGait Engine GaitSettings Character with
      | none => none
      | some Character => RefreshGroundedActorRotation Engine DeltaTime GaitSettings Character
    | .InAir =>
      match TryStartMantlingInAir Engine
          (RefreshInAirActorRotation Engine DeltaTime Character) with
      | none => none
      | some Result => some Result.2
    | .Ragdolling => some (RefreshRagdolling Engine DeltaTime Character)
    | .Mantling => some Character
  match Dispatched with
  | none => none
  | some Character =>
    some
      { Character with
        LocomotionState :=
          { Character.LocomotionState with
            PreviousVelocity := Character.LocomotionState.Velocity }
        AimingState :=
          { Character.AimingState with
            PreviousSmoothYawAngle := Character.AimingState.SmoothRotationYaw } }

/-- The calls by which a mantle is attempted or started: the probes of the detection, the
start of the timeline and of the montage, and the forwarding to the other instances. -/
def IsMantlingCall : EngineCall → Bool
  | .SweepSingleByChannel _ _ _ => true
  | .SweepTestByProfile _ _ _ => true
  | .ServerStartMantling _ _ _ _ _ => true
  | .MulticastStartMantling _ _ _ _ _ => true
  | .OnMantlingStarted _ _ _ _ _ => true
  | .MantlingTimelineSetTimelineLength _ => true
  | .MantlingTimelineSetPlayRate _ => true
  | .MantlingTimelinePlayFromStart => true
  | _ => false

end AAlsCharacter

/-! ## A sample world -/

/-- A sample world with a ledge, used to exercise the mantle: capsule probes hit a wall that
belongs to component 1 and is not walkable, sphere probes hit the walkable top of the ledge at
height 33, there is free space to stand, and the mantling settings of every type use the
correction curve 2, which lasts one second and is constantly (1, 1, 1). -/
def SampleLedgeEngine : FEngine :=
  { Components := fun Handle => if Handle = 1 then some {} else none
    VectorCurves := fun Handle =>
      if Handle = 2 then some { GetVectorValue := fun _ => FVector.OneVector, MaxTime := 1 }
      else none
    SweepSingleByChannel := fun _ _ Shape =>
      match Shape with
      | .Capsule _ _ =>
        { bBlockingHit := true, Component := some 1, ImpactPoint := { X := 50, Z := 20 },
          ImpactNormal := { X := -1 } }
      | .Sphere _ =>
        { bBlockingHit := true, Location := { X := 65, Z := 33 },
          ImpactPoint := { X := 65, Z := 33 }, ImpactNormal := { Z := 1 } }
    IsWalkable := fun Hit => decide (Hit.ImpactNormal.Z > 0)
    SelectMantlingSettings := fun _ => { InterpolationAndCorrectionAmountsCurve := some 2 } }

/-! ## Theorems -/

open AAlsCharacter

/-! ### Binary32 rounding -/

namespace Binary32

/-- An integer rounds to itself. -/
theorem RoundEven_intCast (Value : ℤ) : RoundEven (Value : ℚ) = Value := by
  unfold RoundEven
  rw [Int.floor_intCast]
  norm_num

/-- The integer a rational rounds to, from its distance to that integer. -/
theorem RoundEven_eq_of (Value : ℚ) (Nearest : ℤ)
    (hNearest : |Value - Nearest| < 1 / 2 ∨ (|Value - Nearest| = 1 / 2 ∧ Nearest % 2 = 0)) :
    RoundEven Value = Nearest := by
  unfold RoundEven
  have hFloor := Int.floor_le Value
  have hLt := Int.lt_floor_add_one Value
  rcases hNearest with hNear | ⟨hTie, hEven⟩
  · rw [abs_lt] at hNear
    by_cases hSide : (Nearest : ℚ) ≤ Value
    · have hEq : ⌊Value⌋ = Nearest := by
        rw [Int.floor_eq_iff]
        exact ⟨hSide, by linarith [hNear.2]⟩
      rw [hEq, if_pos (by linarith [hNear.2])]
    · have hEq : ⌊Value⌋ = Nearest - 1 := by
        rw [Int.floor_eq_iff]
        push_cast
        exact ⟨by linarith [hNear.1], by linarith [not_le.mp hSide]⟩
      rw [hEq]
      push_cast
      rw [if_neg (by linarith [hNear.1]), if_pos (by linarith [hNear.1])]
      ring
  · by_cases hSide : (Nearest : ℚ) ≤ Value
    · have hValue : Value = Nearest + 1 / 2 := by
        rw [abs_of_nonneg (by linarith)] at hTie
        linarith
      have hEq : ⌊Value⌋ = Nearest := by
        rw [Int.floor_eq_iff]
        exact ⟨hSide, by linarith⟩
      rw [hEq, if_neg (by linarith), if_neg (by linarith), if_pos hEven]
    · have hValue : Value = Nearest - 1 / 2 := by
        rw [abs_of_neg (by linarith [not_le.mp hSide])] at hTie
        linarith
      have hEq : ⌊Value⌋ = Nearest - 1 := by
        rw [Int.floor_eq_iff]
        push_cast
        exact ⟨by linarith, by linarith⟩
      rw [hEq]
      push_cast
      rw [if_neg (by linarith), if_neg (by linarith), if_neg (by omega)]
      ring

/-- Rounding to the nearest integer is monotone. -/
theorem RoundEven_mono {Low High : ℚ} (hLe : Low ≤ High) : RoundEven Low ≤ RoundEven High := by
  have hFloorLe : ⌊Low⌋ ≤ ⌊High⌋ := Int.floor_le_floor hLe
  have hLowUpper : RoundEven Low ≤ ⌊Low⌋ + 1 := by
    unfold RoundEven
    split_ifs <;> omega
  have hHighLower : ⌊High⌋ ≤ RoundEven High := by
    unfold RoundEven
    split_ifs <;> omega
  rcases lt_or_eq_of_le hFloorLe with hLt | hEq
  · omega
  · unfold RoundEven
    rw [← hEq]
    have hFrac : Low - ⌊Low⌋ ≤ High - ⌊Low⌋ := by linarith
    split_ifs <;> first | omega | (exfalso; linarith)

/-- A rational at most an integer rounds to at most that integer. -/
theorem RoundEven_le_of_le {Value : ℚ} {Bound : ℤ} (hLe : Value ≤ Bound) :
    RoundEven Value ≤ Bound := by
  have hMono := RoundEven_mono hLe
  rwa [RoundEven_intCast] at hMono

/-- A rational at least an integer rounds to at least that integer. -/
theorem le_RoundEven_of_le {Value : ℚ} {Bound : ℤ} (hLe : (Bound : ℚ) ≤ Value) :
    Bound ≤ RoundEven Value := by
  have hMono := RoundEven_mono hLe
  rwa [RoundEven_intCast] at hMono

/-- The binary exponent of a magnitude, from the binade it lies in. -/
theorem log_eq_of_binade {Magnitude : ℚ} {Binade : ℤ}
    (hLow : (2 : ℚ) ^ Binade ≤ Magnitude) (hHigh : Magnitude < (2 : ℚ) ^ (Binade + 1)) :
    Int.log 2 Magnitude = Binade := by
  have hPos : 0 < Magnitude := lt_of_lt_of_le (zpow_pos (by norm_num) _) hLow
  have hLe : Binade ≤ Int.log 2 Magnitude :=
    (Int.zpow_le_iff_le_log (by norm_num) hPos).mp (by exact_mod_cast hLow)
  have hLt : Int.log 2 Magnitude < Binade + 1 :=
    (Int.lt_zpow_iff_log_lt (by norm_num) hPos).mp (by exact_mod_cast hHigh)
  omega

/-- A positive magnitude lies in the binade of its binary exponent. -/
theorem binade_of_pos {Magnitude : ℚ} (hPos : 0 < Magnitude) :
    (2 : ℚ) ^ Int.log 2 Magnitude ≤ Magnitude ∧
      Magnitude < (2 : ℚ) ^ (Int.log 2 Magnitude + 1) := by
  have hLow := Int.zpow_log_le_self (b := 2) (by norm_num) hPos
  have hHigh := Int.lt_zpow_succ_log_self (b := 2) (by norm_num) Magnitude
  exact ⟨by exact_mod_cast hLow, by exact_mod_cast hHigh⟩

/-- The unit in the last place is positive. -/
theorem ulp_pos (Magnitude : ℚ) : (0 : ℚ) < 2 ^ Exponent Magnitude :=
  zpow_pos (by norm_num) _

/-- A power of two with a natural exponent is an integer. -/
theorem zpow_eq_intCast {Power : ℤ} (hPower : 0 ≤ Power) :
    (2 : ℚ) ^ Power = (((2 : ℤ) ^ Power.toNat : ℤ) : ℚ) := by
  conv_lhs => rw [← Int.toNat_of_nonneg hPower]
  rw [zpow_natCast]
  push_cast
  rfl

/-- The magnitude a nonnegative rational rounds to is nonnegative. -/
theorem RoundMagnitude_nonneg {Magnitude : ℚ} (hNonneg : 0 ≤ Magnitude) :
    0 ≤ RoundMagnitude Magnitude := by
  unfold RoundMagnitude
  have hQuotient : ((0 : ℤ) : ℚ) ≤ Magnitude / 2 ^ Exponent Magnitude := by
    push_cast
    exact div_nonneg hNonneg (le_of_lt (ulp_pos _))
  have hRound := le_RoundEven_of_le hQuotient
  exact mul_nonneg (by exact_mod_cast hRound) (le_of_lt (ulp_pos _))

/-- Zero rounds to zero. -/
theorem RoundMagnitude_zero : RoundMagnitude 0 = 0 := by
  unfold RoundMagnitude
  rw [zero_div]
  have hZero : RoundEven 0 = 0 := by
    have hCast := RoundEven_intCast 0
    simpa using hCast
  rw [hZero]
  simp

/-- Rounding of magnitudes is monotone. -/
theorem RoundMagnitude_mono {Low High : ℚ} (hNonneg : 0 ≤ Low) (hLe : Low ≤ High) :
    RoundMagnitude Low ≤ RoundMagnitude High := by
  rcases eq_or_lt_of_le hNonneg with hZero | hPos
  · rw [← hZero, RoundMagnitude_zero]
    exact RoundMagnitude_nonneg (le_trans hNonneg hLe)
  · have hHighPos : 0 < High := lt_of_lt_of_le hPos hLe
    have hLog : Int.log 2 Low ≤ Int.log 2 High := Int.log_mono_right hPos hLe
    have hExponent : Exponent Low ≤ Exponent High := by
      unfold Exponent
      exact max_le_max (by omega) (le_refl _)
    rcases eq_or_lt_of_le hExponent with hSame | hLower
    · unfold RoundMagnitude
      rw [← hSame]
      have hQuotient : Low / 2 ^ Exponent Low ≤ High / 2 ^ Exponent Low :=
        div_le_div_of_nonneg_right hLe (le_of_lt (ulp_pos _))
      have hRound := RoundEven_mono hQuotient
      exact mul_le_mul_of_nonneg_right (by exact_mod_cast hRound) (le_of_lt (ulp_pos _))
    · have hNormal : Exponent High = Int.log 2 High - 23 := by
        unfold Exponent at hLower ⊢
        have hFloor : (-149 : ℤ) ≤ max (Int.log 2 Low - 23) (-149) := le_max_right _ _
        rw [max_eq_left]
        by_contra hNot
        rw [max_eq_right (by omega)] at hLower
        omega
      have hLowLog : Int.log 2 Low - 23 ≤ Exponent Low := le_max_left _ _
      have hBinade := binade_of_pos hHighPos
      have hLowBelow : Low < (2 : ℚ) ^ Int.log 2 High := by
        have hNext := (binade_of_pos hPos).2
        refine lt_of_lt_of_le hNext ?_
        exact zpow_le_zpow_right₀ (by norm_num) (by omega)
      have hUpper : RoundMagnitude Low ≤ (2 : ℚ) ^ Int.log 2 High := by
        unfold RoundMagnitude
        have hSplit : (2 : ℚ) ^ Int.log 2 High =
            (2 : ℚ) ^ (Int.log 2 High - Exponent Low) * 2 ^ Exponent Low := by
          rw [← zpow_add₀ (by norm_num)]
          congr 1
          ring
        have hPower : 0 ≤ Int.log 2 High - Exponent Low := by omega
        rw [hSplit, zpow_eq_intCast hPower]
        have hQuotient : Low / 2 ^ Exponent Low ≤
            (((2 : ℤ) ^ (Int.log 2 High - Exponent Low).toNat : ℤ) : ℚ) := by
          rw [div_le_iff₀ (ulp_pos _), ← zpow_eq_intCast hPower, ← hSplit]
          exact le_of_lt hLowBelow
        have hRound := RoundEven_le_of_le hQuotient
        exact mul_le_mul_of_nonneg_right (by exact_mod_cast hRound) (le_of_lt (ulp_pos _))
      have hLower2 : (2 : ℚ) ^ Int.log 2 High ≤ RoundMagnitude High := by
        unfold RoundMagnitude
        have hSplit : (2 : ℚ) ^ Int.log 2 High = (2 : ℚ) ^ (23 : ℤ) * 2 ^ Exponent High := by
          rw [← zpow_add₀ (by norm_num), hNormal]
          congr 1
          ring
        rw [hSplit, zpow_eq_intCast (by norm_num : (0 : ℤ) ≤ 23)]
        have hQuotient : (((2 : ℤ) ^ (23 : ℤ).toNat : ℤ) : ℚ) ≤ High / 2 ^ Exponent High := by
          rw [le_div_iff₀ (ulp_pos _), ← zpow_eq_intCast (by norm_num : (0 : ℤ) ≤ 23),
            ← hSplit]
          exact hBinade.1
        have hRound := le_RoundEven_of_le hQuotient
        exact mul_le_mul_of_nonneg_right (by exact_mod_cast hRound) (le_of_lt (ulp_pos _))
      exact le_trans hUpper hLower2

/-- Binary32 rounding is monotone. -/
theorem Round_mono {Low High : ℚ} (hLe : Low ≤ High) : Round Low ≤ Round High := by
  unfold Round
  by_cases hLow : 0 ≤ Low
  · rw [if_pos hLow, if_pos (le_trans hLow hLe)]
    exact RoundMagnitude_mono hLow hLe
  · rw [if_neg hLow]
    by_cases hHigh : 0 ≤ High
    · rw [if_pos hHigh]
      have hFirst := RoundMagnitude_nonneg (le_of_lt (neg_pos.mpr (not_le.mp hLow)))
      have hSecond := RoundMagnitude_nonneg hHigh
      linarith
    · rw [if_neg hHigh]
      have hMono := RoundMagnitude_mono (le_of_lt (neg_pos.mpr (not_le.mp hHigh)))
        (neg_le_neg hLe)
      linarith

/-- Zero is a binary32 value. -/
theorem Round_zero : Round 0 = 0 := by
  unfold Round
  rw [if_pos (le_refl _), RoundMagnitude_zero]

/-- A nonnegative rational rounds to a nonnegative value. -/
theorem Round_nonneg {Value : ℚ} (hNonneg : 0 ≤ Value) : 0 ≤ Round Value := by
  have hMono := Round_mono hNonneg
  rwa [Round_zero] at hMono

/-- A magnitude with a significand below 2^24 and an exponent from -149 up rounds to
itself. -/
theorem RoundMagnitude_of_representable {Significand Power : ℤ}
    (hNonneg : 0 ≤ Significand) (hSignificand : Significand < 2 ^ 24)
    (hPower : -149 ≤ Power) :
    RoundMagnitude ((Significand : ℚ) * 2 ^ Power) = (Significand : ℚ) * 2 ^ Power := by
  rcases eq_or_lt_of_le hNonneg with hZero | hPos
  · rw [← hZero]
    simp [RoundMagnitude_zero]
  · have hPowerPos : (0 : ℚ) < 2 ^ Power := zpow_pos (by norm_num) _
    have hValuePos : (0 : ℚ) < (Significand : ℚ) * 2 ^ Power :=
      mul_pos (by exact_mod_cast hPos) hPowerPos
    have hBelow : (Significand : ℚ) * 2 ^ Power < (2 : ℚ) ^ (24 + Power) := by
      rw [zpow_add₀ (by norm_num)]
      have hCast : (Significand : ℚ) < (2 : ℚ) ^ (24 : ℤ) := by
        have hInt : ((Significand : ℤ) : ℚ) < (((2 : ℤ) ^ 24 : ℤ) : ℚ) := by
          exact_mod_cast hSignificand
        norm_num at hInt ⊢
        exact hInt
      exact mul_lt_mul_of_pos_right hCast hPowerPos
    have hLog : Int.log 2 ((Significand : ℚ) * 2 ^ Power) < 24 + Power :=
      (Int.lt_zpow_iff_log_lt (by norm_num) hValuePos).mp (by exact_mod_cast hBelow)
    have hExponent : Exponent ((Significand : ℚ) * 2 ^ Power) ≤ Power := by
      unfold Exponent
      exact max_le (by omega) hPower
    unfold RoundMagnitude
    have hGap : 0 ≤ Power - Exponent ((Significand : ℚ) * 2 ^ Power) := by omega
    have hSplit : (2 : ℚ) ^ Power =
        (2 : ℚ) ^ (Power - Exponent ((Significand : ℚ) * 2 ^ Power)) *
          2 ^ Exponent ((Significand : ℚ) * 2 ^ Power) := by
      rw [← zpow_add₀ (by norm_num)]
      congr 1
      ring
    have hQuotient : (Significand : ℚ) * 2 ^ Power /
        2 ^ Exponent ((Significand : ℚ) * 2 ^ Power) =
        ((Significand *
          (2 : ℤ) ^ (Power - Exponent ((Significand : ℚ) * 2 ^ Power)).toNat : ℤ) : ℚ) := by
      rw [div_eq_iff (ne_of_gt (ulp_pos _))]
      push_cast
      rw [mul_assoc]
      congr 1
      have hInt := zpow_eq_intCast hGap
      push_cast at hInt
      rw [← hInt]
      exact hSplit
    rw [hQuotient, RoundEven_intCast, ← hQuotient]
    exact div_mul_cancel₀ _ (ne_of_gt (ulp_pos _))

/-- A rational with a significand below 2^24 in absolute value and an exponent from -149 up
is a binary32 value: it rounds to itself. -/
theorem Round_of_representable {Significand Power : ℤ}
    (hSignificand : |Significand| < 2 ^ 24) (hPower : -149 ≤ Power) :
    Round ((Significand : ℚ) * 2 ^ Power) = (Significand : ℚ) * 2 ^ Power := by
  have hPowerPos : (0 : ℚ) < 2 ^ Power := zpow_pos (by norm_num) _
  rw [abs_lt] at hSignificand
  unfold Round
  by_cases hSign : 0 ≤ Significand
  · rw [if_pos (mul_nonneg (by exact_mod_cast hSign) (le_of_lt hPowerPos))]
    exact RoundMagnitude_of_representable hSign hSignificand.2 hPower
  · have hNeg : (Significand : ℚ) * 2 ^ Power < 0 :=
      mul_neg_of_neg_of_pos (by exact_mod_cast not_le.mp hSign) hPowerPos
    rw [if_neg (not_le.mpr hNeg)]
    have hFlip : -((Significand : ℚ) * 2 ^ Power) = ((-Significand : ℤ) : ℚ) * 2 ^ Power := by
      push_cast
      ring
    rw [hFlip, RoundMagnitude_of_representable (by omega) (by omega) hPower]
    push_cast
    ring

/-- An integer below 2^24 in absolute value is a binary32 value. -/
theorem Round_intCast {Value : ℤ} (hValue : |Value| < 2 ^ 24) :
    Round (Value : ℚ) = Value := by
  have hRound := @Round_of_representable Value 0 hValue (by norm_num)
  simpa using hRound

/-- The binary32 value a positive rational of the normal range rounds to, from the binade it
lies in and the integer nearest to it in units in the last place. -/
theorem Round_eq_of_binade (Binade Nearest : ℤ) {Value : ℚ}
    (hLow : (2 : ℚ) ^ Binade ≤ Value) (hHigh : Value < (2 : ℚ) ^ (Binade + 1))
    (hNormal : -126 ≤ Binade)
    (hNearest : |Value / 2 ^ (Binade - 23) - Nearest| < 1 / 2 ∨
      (|Value / 2 ^ (Binade - 23) - Nearest| = 1 / 2 ∧ Nearest % 2 = 0)) :
    Round Value = (Nearest : ℚ) * 2 ^ (Binade - 23) := by
  have hPos : 0 < Value := lt_of_lt_of_le (zpow_pos (by norm_num) _) hLow
  have hExponent : Exponent Value = Binade - 23 := by
    unfold Exponent
    rw [log_eq_of_binade hLow hHigh]
    exact max_eq_left (by omega)
  unfold Round RoundMagnitude
  rw [if_pos (le_of_lt hPos), hExponent, RoundEven_eq_of _ _ hNearest]

/-- A natural number below 2^24 is a binary32 value. -/
theorem Round_natCast (Value : ℕ) (hValue : Value < 16777216) :
    Round (Value : ℚ) = Value := by
  have hRound := @Round_intCast (Value : ℤ) (by rw [abs_of_nonneg (by omega)]; norm_num; omega)
  simpa using hRound

/-- A numeral below 2^24 is a binary32 value. -/
theorem Round_ofNat (Value : ℕ) [Value.AtLeastTwo] (hValue : Value < 16777216) :
    Round (no_index (OfNat.ofNat Value)) = OfNat.ofNat Value :=
  Round_natCast Value hValue

/-- Rounding commutes with negation. -/
theorem Round_neg (Value : ℚ) : Round (-Value) = -Round Value := by
  unfold Round
  rcases lt_trichotomy Value 0 with hNeg | hZero | hPos
  · rw [if_pos (by linarith), if_neg (by linarith), neg_neg]
  · subst hZero
    simp [RoundMagnitude_zero]
  · rw [if_neg (by linarith), if_pos (by linarith), neg_neg]

end Binary32

/-! ### Order on gaits -/

theorem EAlsGait.le_iff (a b : EAlsGait) : a ≤ b ↔ a.toUInt8 ≤ b.toUInt8 := Iff.rfl

theorem EAlsGait.lt_iff (a b : EAlsGait) : a < b ↔ a.toUInt8 < b.toUInt8 := Iff.rfl

theorem EAlsGait.le_refl (a : EAlsGait) : a ≤ a := Nat.le_refl _

theorem EAlsGait.le_trans {a b c : EAlsGait} (hab : a ≤ b) (hbc : b ≤ c) : a ≤ c :=
  Nat.le_trans hab hbc

/-! ### CalculateActualGait -/

/-- C1, as stated, fails: at speed 33554448 with RunSpeed 33554436 (both binary32 values) and
max allowed gait Sprinting the speed is above RunSpeed + 10 = 33554446, yet the `float` sum
RunSpeed + 10 is 33554448, the speed is not above it, and the gait returned is Running. -/
theorem C1_float_threshold_counterexample :
    (33554448 : ℚ) > 33554436 + 10 ∧
    Binary32.Round 33554448 = 33554448 ∧ Binary32.Round 33554436 = 33554436 ∧
    Binary32.Add 33554436 10 = 33554448 ∧
    AAlsCharacter.CalculateActualGait { LocomotionState := { Speed := 33554448 } }
        EAlsGait.Sprinting { WalkSpeed := 175, RunSpeed := 33554436, SprintSpeed := 650 } =
      EAlsGait.Running := by
  have hSpeed : Binary32.Round 33554448 = 33554448 := by
    have h := @Binary32.Round_of_representable 8388612 2 (by norm_num) (by norm_num)
    norm_num at h
    exact h
  have hRun : Binary32.Round 33554436 = 33554436 := by
    have h := @Binary32.Round_of_representable 8388609 2 (by norm_num) (by norm_num)
    norm_num at h
    exact h
  have hSum : Binary32.Add 33554436 10 = 33554448 := by
    unfold Binary32.Add
    rw [Binary32.Round_eq_of_binade 25 8388612 (by norm_num) (by norm_num) (by norm_num)
      (Or.inr ⟨by norm_num [abs_of_neg], by norm_num⟩)]
    norm_num
  refine ⟨by norm_num, hSpeed, hRun, hSum, ?_⟩
  simp only [CalculateActualGait, hSpeed, hSum]
  norm_num [Binary32.Add, Binary32.Round_ofNat]

/-- C1, amended: for a speed that is a binary32 value, `CalculateActualGait` returns
Sprinting above the `float` sum RunSpeed + 10 when the max allowed gait is Sprinting, Running
above that sum otherwise, Running from the `float` sum WalkSpeed + 10 up to the `float` sum
RunSpeed + 10, and Walking below the `float` sum WalkSpeed + 10. -/
theorem C1_CalculateActualGait_cases (Character : AAlsCharacter) (MaxAllowedGait : EAlsGait)
    (GaitSettings : FAlsMovementGaitSettings)
    (hSpeed : Binary32.Round Character.LocomotionState.Speed =
      Character.LocomotionState.Speed) :
    (Character.LocomotionState.Speed > Binary32.Add GaitSettings.RunSpeed 10 →
        MaxAllowedGait = EAlsGait.Sprinting →
        Character.CalculateActualGait MaxAllowedGait GaitSettings = EAlsGait.Sprinting) ∧
    (Character.LocomotionState.Speed > Binary32.Add GaitSettings.RunSpeed 10 →
        MaxAllowedGait ≠ EAlsGait.Sprinting →
        Character.CalculateActualGait MaxAllowedGait GaitSettings = EAlsGait.Running) ∧
    (¬ Character.LocomotionState.Speed > Binary32.Add GaitSettings.RunSpeed 10 →
        Character.LocomotionState.Speed ≥ Binary32.Add GaitSettings.WalkSpeed 10 →
        Character.CalculateActualGait MaxAllowedGait GaitSettings = EAlsGait.Running) ∧
    (¬ Character.LocomotionState.Speed > Binary32.Add GaitSettings.RunSpeed 10 →
        ¬ Character.LocomotionState.Speed ≥ Binary32.Add GaitSettings.WalkSpeed 10 →
        Character.CalculateActualGait MaxAllowedGait GaitSettings = EAlsGait.Walking) := by
  refine ⟨?_, ?_, ?_, ?_⟩
  · intro hRun hMax
    simp only [CalculateActualGait, hSpeed, if_pos hRun, if_pos hMax]
  · intro hRun hMax
    simp only [CalculateActualGait, hSpeed, if_pos hRun, if_neg hMax]
  · intro hRun hWalk
    simp only [CalculateActualGait, hSpeed, if_neg hRun, if_pos hWalk]
  · intro hRun hWalk
    simp only [CalculateActualGait, hSpeed, if_neg hRun, if_neg hWalk]

/-- C1 amended, at a concrete input: at speed 400 with RunSpeed 375 the gait is Sprinting
when Sprinting is allowed. -/
theorem C1_CalculateActualGait_cases_witness :
    AAlsCharacter.CalculateActualGait { LocomotionState := { Speed := 400 } }
      EAlsGait.Sprinting { WalkSpeed := 175, RunSpeed := 375, SprintSpeed := 650 } =
      EAlsGait.Sprinting :=
  (C1_CalculateActualGait_cases { LocomotionState := { Speed := 400 } } EAlsGait.Sprinting
    { WalkSpeed := 175, RunSpeed := 375, SprintSpeed := 650 }
    (by simp [Binary32.Round_ofNat])).1
    (by norm_num [Binary32.Add, Binary32.Round_ofNat]) rfl

/-- For a fixed max allowed gait and fixed settings the actual gait does not decrease when
the speed grows. -/
theorem CalculateActualGait_mono (Slow Fast : AAlsCharacter)
    (MaxAllowedGait : EAlsGait) (GaitSettings : FAlsMovementGaitSettings)
    (hSpeed : Slow.LocomotionState.Speed ≤ Fast.LocomotionState.Speed) :
    Slow.CalculateActualGait MaxAllowedGait GaitSettings ≤
      Fast.CalculateActualGait MaxAllowedGait GaitSettings := by
  have hRound := Binary32.Round_mono hSpeed
  unfold CalculateActualGait
  by_cases h1 : Binary32.Round Slow.LocomotionState.Speed >
      Binary32.Add GaitSettings.RunSpeed 10
  · have h2 : Binary32.Round Fast.LocomotionState.Speed >
        Binary32.Add GaitSettings.RunSpeed 10 := lt_of_lt_of_le h1 hRound
    rw [if_pos h1, if_pos h2]
    exact EAlsGait.le_refl _
  · rw [if_neg h1]
    by_cases h2 : Binary32.Round Fast.LocomotionState.Speed >
        Binary32.Add GaitSettings.RunSpeed 10
    · rw [if_pos h2]
      cases MaxAllowedGait <;> split <;> decide
    · rw [if_neg h2]
      by_cases h3 : Binary32.Round Slow.LocomotionState.Speed ≥
          Binary32.Add GaitSettings.WalkSpeed 10
      · have h4 : Binary32.Round Fast.LocomotionState.Speed ≥
            Binary32.Add GaitSettings.WalkSpeed 10 := le_trans h3 hRound
        rw [if_pos h3, if_pos h4]
        exact EAlsGait.le_refl _
      · rw [if_neg h3]
        split <;> decide

/-- C2: for a fixed max allowed gait and fixed settings, `CalculateActualGait` is monotonic
non-decreasing in the speed under the order Walking < Running < Sprinting. -/
theorem C2_CalculateActualGait_monotone (Slow Fast : AAlsCharacter)
    (MaxAllowedGait : EAlsGait) (GaitSettings : FAlsMovementGaitSettings)
    (hSpeed : Slow.LocomotionState.Speed ≤ Fast.LocomotionState.Speed) :
    Slow.CalculateActualGait MaxAllowedGait GaitSettings ≤
      Fast.CalculateActualGait MaxAllowedGait GaitSettings :=
  CalculateActualGait_mono Slow Fast MaxAllowedGait GaitSettings hSpeed

/-- C2 at a concrete input: speeds 100 and 500 with max allowed gait Sprinting. -/
theorem C2_CalculateActualGait_monotone_witness :
    AAlsCharacter.CalculateActualGait { LocomotionState := { Speed := 100 } }
      EAlsGait.Sprinting { WalkSpeed := 175, RunSpeed := 375, SprintSpeed := 650 } ≤
    AAlsCharacter.CalculateActualGait { LocomotionState := { Speed := 500 } }
      EAlsGait.Sprinting { WalkSpeed := 175, RunSpeed := 375, SprintSpeed := 650 } :=
  C2_CalculateActualGait_monotone { LocomotionState := { Speed := 100 } }
    { LocomotionState := { Speed := 500 } } EAlsGait.Sprinting
    { WalkSpeed := 175, RunSpeed := 375, SprintSpeed := 650 } (by norm_num)

/-- C3, as stated, fails: with max allowed gait Walking, at speed 200 with WalkSpeed 175 the
gait returned is Running, which is greater than Walking. -/
theorem C3_saturation_counterexample :
    AAlsCharacter.CalculateActualGait { LocomotionState := { Speed := 200 } }
        EAlsGait.Walking { WalkSpeed := 175, RunSpeed := 375, SprintSpeed := 650 } =
      EAlsGait.Running ∧
    ¬ (AAlsCharacter.CalculateActualGait { LocomotionState := { Speed := 200 } }
        EAlsGait.Walking { WalkSpeed := 175, RunSpeed := 375, SprintSpeed := 650 } ≤
      EAlsGait.Walking) := by
  have h : AAlsCharacter.CalculateActualGait { LocomotionState := { Speed := 200 } }
        EAlsGait.Walking { WalkSpeed := 175, RunSpeed := 375, SprintSpeed := 650 } =
      EAlsGait.Running := by
    norm_num [CalculateActualGait, Binary32.Add, Binary32.Round_ofNat]
  refine ⟨h, ?_⟩
  rw [h]
  decide

/-- C3, amended: the gait returned by `CalculateActualGait` is never greater than the max
allowed gait when that is Running or Sprinting; when the max allowed gait is Walking the
result is at most Running, and it is Running exactly when the binary32 value of the speed
is at least the `float` sum WalkSpeed + 10 (or above the `float` sum RunSpeed + 10);
Sprinting is returned only when the max allowed gait is Sprinting. -/
theorem C3_CalculateActualGait_saturation (Character : AAlsCharacter)
    (MaxAllowedGait : EAlsGait) (GaitSettings : FAlsMovementGaitSettings) :
    (EAlsGait.Running ≤ MaxAllowedGait →
        Character.CalculateActualGait MaxAllowedGait GaitSettings ≤ MaxAllowedGait) ∧
    (MaxAllowedGait = EAlsGait.Walking →
        Character.CalculateActualGait MaxAllowedGait GaitSettings ≤ EAlsGait.Running ∧
        (Character.CalculateActualGait MaxAllowedGait GaitSettings = EAlsGait.Running ↔
          Binary32.Round Character.LocomotionState.Speed >
              Binary32.Add GaitSettings.RunSpeed 10 ∨
            Binary32.Round Character.LocomotionState.Speed ≥
              Binary32.Add GaitSettings.WalkSpeed 10)) ∧
    (Character.CalculateActualGait MaxAllowedGait GaitSettings = EAlsGait.Sprinting →
        MaxAllowedGait = EAlsGait.Sprinting) := by
  refine ⟨?_, ?_, ?_⟩
  · intro hMax
    unfold CalculateActualGait
    cases MaxAllowedGait
    · exact absurd hMax (by decide)
    · split
      · decide
      · split <;> decide
    · split
      · decide
      · split <;> decide
  · intro hMax
    subst hMax
    unfold CalculateActualGait
    by_cases h1 : Binary32.Round Character.LocomotionState.Speed >
        Binary32.Add GaitSettings.RunSpeed 10
    · simp [h1]
      decide
    · by_cases h2 : Binary32.Round Character.LocomotionState.Speed ≥
          Binary32.Add GaitSettings.WalkSpeed 10
      · simp only [if_neg h1, if_pos h2, h2, or_true, true_iff, and_true]
        decide
      · simp only [if_neg h1, if_neg h2, h1, h2, or_self, iff_false]
        exact ⟨by decide, by decide⟩
  · unfold CalculateActualGait
    intro h
    by_cases h1 : Binary32.Round Character.LocomotionState.Speed >
        Binary32.Add GaitSettings.RunSpeed 10
    · rw [if_pos h1] at h
      by_contra hne
      rw [if_neg hne] at h
      exact absurd h (by decide)
    · rw [if_neg h1] at h
      split at h <;> exact absurd h (by decide)

/-- C3 amended, at a concrete input: with max allowed gait Running the gait at speed 500 does
not exceed Running. -/
theorem C3_CalculateActualGait_saturation_witness :
    AAlsCharacter.CalculateActualGait { LocomotionState := { Speed := 500 } }
      EAlsGait.Running { WalkSpeed := 175, RunSpeed := 375, SprintSpeed := 650 } ≤
      EAlsGait.Running :=
  (C3_CalculateActualGait_saturation { LocomotionState := { Speed := 500 } } EAlsGait.Running
    { WalkSpeed := 175, RunSpeed := 375, SprintSpeed := 650 }).1 (by decide)

/-- C4: with WalkSpeed + 10 ≤ RunSpeed, every speed in the band from RunSpeed (included) to
RunSpeed + 10 (excluded) yields Running, whatever the max allowed gait; hence a sequence of
ticks whose speeds all lie in the band yields the constant gait Running. -/
theorem C4_band_is_Running (MaxAllowedGait : EAlsGait)
    (GaitSettings : FAlsMovementGaitSettings)
    (hSettings : GaitSettings.WalkSpeed + 10 ≤ GaitSettings.RunSpeed) :
    (∀ Character : AAlsCharacter,
        GaitSettings.RunSpeed ≤ Character.LocomotionState.Speed →
        Character.LocomotionState.Speed < GaitSettings.RunSpeed + 10 →
        Character.CalculateActualGait MaxAllowedGait GaitSettings = EAlsGait.Running) ∧
    (∀ Ticks : List AAlsCharacter,
        (∀ Character ∈ Ticks, GaitSettings.RunSpeed ≤ Character.LocomotionState.Speed ∧
          Character.LocomotionState.Speed < GaitSettings.RunSpeed + 10) →
        Ticks.map (fun Character => Character.CalculateActualGait MaxAllowedGait GaitSettings) =
          List.replicate Ticks.length EAlsGait.Running) := by
  have hPoint : ∀ Character : AAlsCharacter,
      GaitSettings.RunSpeed ≤ Character.LocomotionState.Speed →
      Character.LocomotionState.Speed < GaitSettings.RunSpeed + 10 →
      Character.CalculateActualGait MaxAllowedGait GaitSettings = EAlsGait.Running := by
    intro Character hLow hHigh
    unfold CalculateActualGait Binary32.Add
    rw [if_neg (not_lt.mpr (Binary32.Round_mono (le_of_lt hHigh))),
      if_pos (Binary32.Round_mono (le_trans hSettings hLow))]
  refine ⟨hPoint, ?_⟩
  intro Ticks
  induction Ticks with
  | nil => intro _; rfl
  | cons Head Tail ih =>
    intro hBand
    have hHead := hBand Head (List.mem_cons_self _ _)
    have hTail := ih (fun Character hMem => hBand Character (List.mem_cons_of_mem _ hMem))
    simp only [List.map_cons, List.length_cons, List.replicate_succ]
    rw [hPoint Head hHead.1 hHead.2, hTail]

/-- C4 at a concrete input: speed 380 with WalkSpeed 175 and RunSpeed 375, max allowed gait
Sprinting. -/
theorem C4_band_is_Running_witness :
    AAlsCharacter.CalculateActualGait { LocomotionState := { Speed := 380 } }
      EAlsGait.Sprinting { WalkSpeed := 175, RunSpeed := 375, SprintSpeed := 650 } =
      EAlsGait.Running :=
  (C4_band_is_Running EAlsGait.Sprinting { WalkSpeed := 175, RunSpeed := 375, SprintSpeed := 650 }
    (by norm_num)).1 { LocomotionState := { Speed := 380 } } (by norm_num) (by norm_num)

/-! ### The speed ramp scenario -/

/-- In the speed ramp scenario sprinting is allowed on every tick. -/
theorem SpeedRampScenario_maxAllowedGait {GaitSettings : FAlsMovementGaitSettings}
    {Ticks : List AAlsCharacter} (hScenario : SpeedRampScenario GaitSettings Ticks)
    {Character : AAlsCharacter} (hMem : Character ∈ Ticks) :
    Character.CalculateMaxAllowedGait = EAlsGait.Sprinting := by
  obtain ⟨hStance, hDesired, hMode, hInput, hAmount⟩ := hScenario.2.2.1 Character hMem
  simp [CalculateMaxAllowedGait, CanSprint, hStance, hDesired, hMode, hInput, hAmount]
  norm_num

/-- In the speed ramp scenario the gait of a tick is the actual gait under Sprinting. -/
theorem SpeedRampScenario_tickGait {GaitSettings : FAlsMovementGaitSettings}
    {Ticks : List AAlsCharacter} (hScenario : SpeedRampScenario GaitSettings Ticks)
    {Character : AAlsCharacter} (hMem : Character ∈ Ticks) :
    Character.TickGait GaitSettings =
      Character.CalculateActualGait EAlsGait.Sprinting GaitSettings := by
  unfold TickGait
  rw [SpeedRampScenario_maxAllowedGait hScenario hMem]

/-- C5, as stated, fails: the two tick ramp with speeds 0 and 700 (WalkSpeed 175) satisfies
the scenario, yet its gaits are Walking then Sprinting, and no tick yields Running. -/
theorem C5_speed_ramp_counterexample :
    AAlsCharacter.SpeedRampScenario { WalkSpeed := 175, RunSpeed := 375, SprintSpeed := 700 }
      [{ DesiredGait := EAlsGait.Sprinting, RotationMode := EAlsRotationMode.VelocityDirection,
         LocomotionState :=
           { bHasInputAcceleration := true, InputAccelerationAmount := 1, Speed := 0 } },
       { DesiredGait := EAlsGait.Sprinting, RotationMode := EAlsRotationMode.VelocityDirection,
         LocomotionState :=
           { bHasInputAcceleration := true, InputAccelerationAmount := 1, Speed := 700 } }] ∧
    List.map
      (fun Character : AAlsCharacter =>
        Character.TickGait { WalkSpeed := 175, RunSpeed := 375, SprintSpeed := 700 })
      [{ DesiredGait := EAlsGait.Sprinting, RotationMode := EAlsRotationMode.VelocityDirection,
         LocomotionState :=
           { bHasInputAcceleration := true, InputAccelerationAmount := 1, Speed := 0 } },
       { DesiredGait := EAlsGait.Sprinting, RotationMode := EAlsRotationMode.VelocityDirection,
         LocomotionState :=
           { bHasInputAcceleration := true, InputAccelerationAmount := 1, Speed := 700 } }] =
      [EAlsGait.Walking, EAlsGait.Sprinting] ∧
    EAlsGait.Running ∉ [EAlsGait.Walking, EAlsGait.Sprinting] := by
  refine ⟨?_, ?_, by decide⟩
  · norm_num [SpeedRampScenario]
  · norm_num [TickGait, CalculateActualGait, CalculateMaxAllowedGait, CanSprint, Binary32.Add,
      Binary32.Round_ofNat, Binary32.Round_zero]
    decide

/-- C5, amended: in the speed ramp scenario with a positive `float` sum WalkSpeed + 10, the
gaits of the ticks are non-decreasing (Walking ticks, then Running ticks, then Sprinting
ticks), the first tick yields Walking and the last yields Sprinting; some tick yields Running
exactly when the binary32 value of the speed of some tick lies from the `float` sum
WalkSpeed + 10 up to 385. -/
theorem C5_speed_ramp (GaitSettings : FAlsMovementGaitSettings) (Ticks : List AAlsCharacter)
    (hScenario : SpeedRampScenario GaitSettings Ticks)
    (hWalk : 0 < Binary32.Add GaitSettings.WalkSpeed 10) :
    (Ticks.map (fun Character => Character.TickGait GaitSettings)).Pairwise
      (fun Earlier Later => Earlier ≤ Later) ∧
    (Ticks.map (fun Character => Character.TickGait GaitSettings)).head? =
      some EAlsGait.Walking ∧
    (Ticks.map (fun Character => Character.TickGait GaitSettings)).getLast? =
      some EAlsGait.Sprinting ∧
    (EAlsGait.Running ∈ Ticks.map (fun Character => Character.TickGait GaitSettings) ↔
      ∃ Character ∈ Ticks,
        Binary32.Add GaitSettings.WalkSpeed 10 ≤
          Binary32.Round Character.LocomotionState.Speed ∧
        Binary32.Round Character.LocomotionState.Speed ≤ 385) := by
  have hRun : GaitSettings.RunSpeed = 375 := hScenario.1
  have hSum : Binary32.Add 375 10 = 385 := by
    norm_num [Binary32.Add, Binary32.Round_ofNat]
  have hMono := hScenario.2.2.2.1
  have hHead := hScenario.2.2.2.2.1
  have hLast := hScenario.2.2.2.2.2
  refine ⟨?_, ?_, ?_, ?_⟩
  · rw [List.pairwise_map]
    refine List.Pairwise.imp_of_mem ?_ hMono
    intro Earlier Later hEarlier hLater hSpeed
    show Earlier.TickGait GaitSettings ≤ Later.TickGait GaitSettings
    rw [SpeedRampScenario_tickGait hScenario hEarlier,
      SpeedRampScenario_tickGait hScenario hLater]
    exact CalculateActualGait_mono Earlier Later _ _ hSpeed
  · rw [List.head?_map]
    cases hTicks : Ticks.head? with
    | none => rw [hTicks] at hHead; simp at hHead
    | some First =>
      rw [hTicks] at hHead
      have hSpeed : First.LocomotionState.Speed = 0 := by simpa using hHead
      have hMem : First ∈ Ticks := List.mem_of_mem_head? hTicks
      simp only [Option.map_some']
      rw [SpeedRampScenario_tickGait hScenario hMem]
      unfold CalculateActualGait
      rw [hSpeed, hRun, hSum, Binary32.Round_zero, if_neg (by norm_num),
        if_neg (not_le.mpr hWalk)]
  · rw [List.getLast?_map]
    cases hTicks : Ticks.getLast? with
    | none => rw [hTicks] at hLast; simp at hLast
    | some Final =>
      rw [hTicks] at hLast
      have hSpeed : Final.LocomotionState.Speed = 700 := by simpa using hLast
      have hMem : Final ∈ Ticks := List.mem_of_getLast?_eq_some hTicks
      have hRound : Binary32.Round 700 = 700 := by simp [Binary32.Round_ofNat]
      simp only [Option.map_some']
      rw [SpeedRampScenario_tickGait hScenario hMem]
      unfold CalculateActualGait
      rw [hSpeed, hRun, hSum, hRound, if_pos (by norm_num), if_pos rfl]
  · rw [List.mem_map]
    constructor
    · rintro ⟨Character, hMem, hGait⟩
      refine ⟨Character, hMem, ?_⟩
      rw [SpeedRampScenario_tickGait hScenario hMem] at hGait
      unfold CalculateActualGait at hGait
      rw [hRun, hSum] at hGait
      by_cases h1 : Binary32.Round Character.LocomotionState.Speed > 385
      · rw [if_pos h1, if_pos rfl] at hGait
        exact absurd hGait (by decide)
      · rw [if_neg h1] at hGait
        by_cases h2 : Binary32.Round Character.LocomotionState.Speed ≥
            Binary32.Add GaitSettings.WalkSpeed 10
        · exact ⟨h2, not_lt.mp h1⟩
        · rw [if_neg h2] at hGait
          exact absurd hGait (by decide)
    · rintro ⟨Character, hMem, hLow, hHigh⟩
      refine ⟨Character, hMem, ?_⟩
      show Character.TickGait GaitSettings = EAlsGait.Running
      rw [SpeedRampScenario_tickGait hScenario hMem]
      unfold CalculateActualGait
      rw [hRun, hSum, if_neg (not_lt.mpr hHigh), if_pos hLow]

/-- C5 amended, at a concrete input: the ramp 0, 200, 380, 700 with WalkSpeed 175 yields
Walking, Running, Running, Sprinting, so Running is among its gaits. -/
theorem C5_speed_ramp_witness :
    EAlsGait.Running ∈ List.map
      (fun Character : AAlsCharacter =>
        Character.TickGait { WalkSpeed := 175, RunSpeed := 375, SprintSpeed := 700 })
      [{ DesiredGait := EAlsGait.Sprinting, RotationMode := EAlsRotationMode.VelocityDirection,
         LocomotionState :=
           { bHasInputAcceleration := true, InputAccelerationAmount := 1, Speed := 0 } },
       { DesiredGait := EAlsGait.Sprinting, RotationMode := EAlsRotationMode.VelocityDirection,
         LocomotionState :=
           { bHasInputAcceleration := true, InputAccelerationAmount := 1, Speed := 200 } },
       { DesiredGait := EAlsGait.Sprinting, RotationMode := EAlsRotationMode.VelocityDirection,
         LocomotionState :=
           { bHasInputAcceleration := true, InputAccelerationAmount := 1, Speed := 380 } },
       { DesiredGait := EAlsGait.Sprinting, RotationMode := EAlsRotationMode.VelocityDirection,
         LocomotionState :=
           { bHasInputAcceleration := true, InputAccelerationAmount := 1, Speed := 700 } }] :=
  (C5_speed_ramp { WalkSpeed := 175, RunSpeed := 375, SprintSpeed := 700 } _
    (by norm_num [SpeedRampScenario])
    (by norm_num [Binary32.Add, Binary32.Round_ofNat])).2.2.2.mpr
    ⟨{ DesiredGait := EAlsGait.Sprinting, RotationMode := EAlsRotationMode.VelocityDirection,
       LocomotionState :=
         { bHasInputAcceleration := true, InputAccelerationAmount := 1, Speed := 200 } },
      by simp, by norm_num [Binary32.Add, Binary32.Round_ofNat],
      by norm_num [Binary32.Round_ofNat]⟩

/-! ### Angle normalisation -/

/-- The wrapped angle lies from 0 (included) to 360 (excluded) and differs from the angle by
a whole number of turns. -/
theorem ClampAxis_spec (Angle : ℚ) :
    0 ≤ FRotator.ClampAxis Angle ∧ FRotator.ClampAxis Angle < 360 ∧
      ∃ Turns : ℤ, FRotator.ClampAxis Angle = Angle + 360 * (Turns : ℚ) := by
  unfold FRotator.ClampAxis FMath.Fmod
  by_cases hSign : 0 ≤ Angle / 360
  · have hFloor := Int.floor_le (Angle / 360)
    have hLt := Int.lt_floor_add_one (Angle / 360)
    simp only [if_pos hSign]
    have hNonneg : ¬ (Angle - 360 * ((⌊Angle / 360⌋ : ℤ) : ℚ) < 0) := by
      rw [not_lt]
      linarith
    rw [if_neg hNonneg]
    refine ⟨by linarith, by linarith, -⌊Angle / 360⌋, ?_⟩
    push_cast
    ring
  · have hCeil := Int.le_ceil (Angle / 360)
    have hLt := Int.ceil_lt_add_one (Angle / 360)
    simp only [if_neg hSign]
    by_cases hNeg : Angle - 360 * ((⌈Angle / 360⌉ : ℤ) : ℚ) < 0
    · rw [if_pos hNeg]
      refine ⟨by linarith, by linarith, 1 - ⌈Angle / 360⌉, ?_⟩
      push_cast
      ring
    · rw [if_neg hNeg]
      refine ⟨by linarith, by linarith, -⌈Angle / 360⌉, ?_⟩
      push_cast
      ring

/-- The normalised angle lies from -180 (excluded) to 180 (included) and differs from the
angle by a whole number of turns. -/
theorem NormalizeAxis_spec (Angle : ℚ) :
    -180 < FRotator.NormalizeAxis Angle ∧ FRotator.NormalizeAxis Angle ≤ 180 ∧
      ∃ Turns : ℤ, FRotator.NormalizeAxis Angle = Angle + 360 * (Turns : ℚ) := by
  obtain ⟨hLow, hHigh, Turns, hTurns⟩ := ClampAxis_spec Angle
  unfold FRotator.NormalizeAxis
  by_cases hHalf : FRotator.ClampAxis Angle > 180
  · simp only [if_pos hHalf]
    refine ⟨by linarith, by linarith, Turns - 1, ?_⟩
    rw [hTurns]
    push_cast
    ring
  · simp only [if_neg hHalf]
    exact ⟨by linarith, not_lt.mp hHalf, Turns, hTurns⟩

/-! ### CanSprint and CalculateMaxAllowedGait -/

/-- The value of `CanSprint` as one condition. -/
theorem CanSprint_eq_true_iff (Character : AAlsCharacter) :
    Character.CanSprint = true ↔
      Character.LocomotionState.bHasInputAcceleration = true ∧
      Character.RotationMode ≠ EAlsRotationMode.Aiming ∧
      Character.LocomotionState.InputAccelerationAmount > 9 / 10 ∧
      (Character.RotationMode = EAlsRotationMode.LookingDirection →
        |FRotator.NormalizeAxis (Binary32.Sub Character.LocomotionState.InputAccelerationYawAngle
          Character.AimingState.SmoothRotationYaw)| < 50) := by
  unfold CanSprint
  cases hInput : Character.LocomotionState.bHasInputAcceleration <;>
    cases hMode : Character.RotationMode <;> simp

/-- C6: `CanSprint` is false whenever the input acceleration amount is at most 0.9 or the
rotation mode is Aiming, whatever the other inputs. -/
theorem C6_CanSprint_false (Character : AAlsCharacter)
    (hBlocked : Character.LocomotionState.InputAccelerationAmount ≤ 9 / 10 ∨
      Character.RotationMode = EAlsRotationMode.Aiming) :
    Character.CanSprint = false := by
  rw [← Bool.not_eq_true, CanSprint_eq_true_iff]
  rintro ⟨_, hMode, hAmount, _⟩
  rcases hBlocked with hLow | hAiming
  · exact absurd hAmount (not_lt.mpr hLow)
  · exact hMode hAiming

/-- C6 at a concrete input: input present and faced forward in the velocity direction mode,
but an input acceleration amount of exactly 0.9. -/
theorem C6_CanSprint_false_witness :
    AAlsCharacter.CanSprint
      { RotationMode := EAlsRotationMode.VelocityDirection,
        LocomotionState := { bHasInputAcceleration := true, InputAccelerationAmount := 9 / 10 } } =
      false :=
  C6_CanSprint_false _ (Or.inl (by norm_num))

/-- C7, as stated, fails: in the looking direction mode with full input, for the input yaw
25 - 2^-19 and the aim yaw -25 (both binary32 values) the difference is 50 - 2^-19, less than
50 in absolute value after normalisation, yet the `float` difference is 50 and `CanSprint`
returns false. -/
theorem C7_float_difference_counterexample :
    Binary32.Round (25 - 1 / 2 ^ 19) = 25 - 1 / 2 ^ 19 ∧
    Binary32.Round (-25) = -25 ∧
    |FRotator.NormalizeAxis ((25 - 1 / 2 ^ 19) - (-25))| < 50 ∧
    Binary32.Sub (25 - 1 / 2 ^ 19) (-25) = 50 ∧
    AAlsCharacter.CanSprint
      { RotationMode := EAlsRotationMode.LookingDirection,
        LocomotionState := { bHasInputAcceleration := true, InputAccelerationAmount := 1,
                             InputAccelerationYawAngle := 25 - 1 / 2 ^ 19 },
        AimingState := { SmoothRotationYaw := -25 } } = false := by
  have hInput : Binary32.Round (25 - 1 / 2 ^ 19) = 25 - 1 / 2 ^ 19 := by
    have h := @Binary32.Round_of_representable 13107199 (-19) (by norm_num) (by norm_num)
    norm_num at h
    norm_num
    exact h
  have hAim : Binary32.Round (-25) = -25 := by
    rw [Binary32.Round_neg, Binary32.Round_ofNat 25 (by norm_num)]
  have hSub : Binary32.Sub (25 - 1 / 2 ^ 19) (-25) = 50 := by
    unfold Binary32.Sub
    have hExact : ((25 : ℚ) - 1 / 2 ^ 19) - (-25) = 50 - 1 / 2 ^ 19 := by norm_num
    rw [hExact, Binary32.Round_eq_of_binade 5 13107200 (by norm_num) (by norm_num)
      (by norm_num) (Or.inr ⟨by norm_num [abs_of_neg], by norm_num⟩)]
    norm_num
  refine ⟨hInput, hAim, ?_, hSub, ?_⟩
  · norm_num [FRotator.NormalizeAxis, FRotator.ClampAxis, FMath.Fmod, abs_of_pos]
  · simp only [CanSprint, hSub]
    norm_num [FRotator.NormalizeAxis, FRotator.ClampAxis, FMath.Fmod]
    decide

/-- C7, amended: `CanSprint` is true exactly when the character has input acceleration, the
rotation mode is not Aiming, the input acceleration amount is greater than 0.9 and, in the
looking direction mode, the normalised `float` difference between the input yaw and the
smoothed aim yaw is less than 50 degrees in absolute value; the normalised difference lies
from -180 (excluded) to 180 (included) and is the `float` difference up to whole turns; in
the velocity direction mode the yaw difference plays no part. -/
theorem C7_CanSprint_iff (Character : AAlsCharacter) :
    (Character.CanSprint = true ↔
      Character.LocomotionState.bHasInputAcceleration = true ∧
      Character.RotationMode ≠ EAlsRotationMode.Aiming ∧
      Character.LocomotionState.InputAccelerationAmount > 9 / 10 ∧
      (Character.RotationMode = EAlsRotationMode.LookingDirection →
        |FRotator.NormalizeAxis (Binary32.Sub Character.LocomotionState.InputAccelerationYawAngle
          Character.AimingState.SmoothRotationYaw)| < 50)) ∧
    (-180 < FRotator.NormalizeAxis (Binary32.Sub
        Character.LocomotionState.InputAccelerationYawAngle
        Character.AimingState.SmoothRotationYaw) ∧
      FRotator.NormalizeAxis (Binary32.Sub Character.LocomotionState.InputAccelerationYawAngle
        Character.AimingState.SmoothRotationYaw) ≤ 180 ∧
      ∃ Turns : ℤ,
        FRotator.NormalizeAxis (Binary32.Sub Character.LocomotionState.InputAccelerationYawAngle
          Character.AimingState.SmoothRotationYaw) =
        Binary32.Sub Character.LocomotionState.InputAccelerationYawAngle
          Character.AimingState.SmoothRotationYaw + 360 * (Turns : ℚ)) ∧
    (Character.RotationMode = EAlsRotationMode.VelocityDirection →
      (Character.CanSprint = true ↔
        Character.LocomotionState.bHasInputAcceleration = true ∧
        Character.LocomotionState.InputAccelerationAmount > 9 / 10)) := by
  refine ⟨CanSprint_eq_true_iff Character, NormalizeAxis_spec _, ?_⟩
  intro hMode
  rw [CanSprint_eq_true_iff, hMode]
  simp

/-- C7 amended, at a concrete input: in the looking direction mode with full input, an input
yaw of 170 against an aim yaw of -170 is 20 degrees away after normalisation, so sprinting is
possible. -/
theorem C7_CanSprint_iff_witness :
    AAlsCharacter.CanSprint
      { RotationMode := EAlsRotationMode.LookingDirection,
        LocomotionState := { bHasInputAcceleration := true, InputAccelerationAmount := 1,
                             InputAccelerationYawAngle := 170 },
        AimingState := { SmoothRotationYaw := -170 } } = true :=
  (C7_CanSprint_iff _).1.mpr
    ⟨rfl, by decide, by norm_num, fun _ => by
      norm_num [FRotator.NormalizeAxis, FRotator.ClampAxis, FMath.Fmod, Binary32.Sub,
        Binary32.Round_ofNat]⟩

/-- C8: `CalculateMaxAllowedGait` returns the desired gait unchanged when it is Walking or
Running; for the desired gait Sprinting it returns Sprinting exactly when the stance is
Standing, the rotation mode is not Aiming and `CanSprint` holds, and Running in every other
case; the result is never greater than the desired gait. -/
theorem C8_CalculateMaxAllowedGait (Character : AAlsCharacter) :
    (Character.DesiredGait = EAlsGait.Walking →
      Character.CalculateMaxAllowedGait = EAlsGait.Walking) ∧
    (Character.DesiredGait = EAlsGait.Running →
      Character.CalculateMaxAllowedGait = EAlsGait.Running) ∧
    (Character.DesiredGait = EAlsGait.Sprinting →
      (Character.CalculateMaxAllowedGait = EAlsGait.Sprinting ↔
        Character.Stance = EAlsStance.Standing ∧
        Character.RotationMode ≠ EAlsRotationMode.Aiming ∧
        Character.CanSprint = true) ∧
      (¬ (Character.Stance = EAlsStance.Standing ∧
          Character.RotationMode ≠ EAlsRotationMode.Aiming ∧
          Character.CanSprint = true) →
        Character.CalculateMaxAllowedGait = EAlsGait.Running)) ∧
    Character.CalculateMaxAllowedGait ≤ Character.DesiredGait := by
  unfold CalculateMaxAllowedGait
  cases hDesired : Character.DesiredGait <;> cases hStance : Character.Stance <;>
    cases hMode : Character.RotationMode <;> cases hSprint : Character.CanSprint <;>
    simp <;> decide

/-- C8 at a concrete input: a crouching character that desires Sprinting and could sprint is
capped to Running. -/
theorem C8_CalculateMaxAllowedGait_witness :
    AAlsCharacter.CalculateMaxAllowedGait
      { DesiredGait := EAlsGait.Sprinting, Stance := EAlsStance.Crouching,
        RotationMode := EAlsRotationMode.VelocityDirection,
        LocomotionState := { bHasInputAcceleration := true, InputAccelerationAmount := 1 } } =
      EAlsGait.Running :=
  ((C8_CalculateMaxAllowedGait _).2.2.1 rfl).2 (fun h => absurd h.1 (by decide))

/-! ### CalculateGaitAmount -/

/-- Inside a proper input range the clamped remap is the linear map. -/
theorem GetMappedRangeValueClamped_inside (InMin InMax OutMin OutMax Value : ℚ)
    (hRange : InMin < InMax) (hLow : InMin ≤ Value) (hHigh : Value ≤ InMax) :
    FMath.GetMappedRangeValueClamped (InMin, InMax) (OutMin, OutMax) Value =
      OutMin + (Value - InMin) / (InMax - InMin) * (OutMax - OutMin) := by
  have hPos : 0 < InMax - InMin := by linarith
  have hNe : InMax - InMin ≠ 0 := ne_of_gt hPos
  have hPct0 : ¬ ((Value - InMin) / (InMax - InMin) < 0) :=
    not_lt.mpr (div_nonneg (by linarith) (le_of_lt hPos))
  have hPct1 : (Value - InMin) / (InMax - InMin) ≤ 1 := by
    rw [div_le_one hPos]
    linarith
  simp only [FMath.GetMappedRangeValueClamped, FMath.GetRangePct, FMath.Clamp, FMath.Lerp,
    if_neg hNe, if_neg hPct0]
  by_cases hLt : (Value - InMin) / (InMax - InMin) < 1
  · rw [if_pos hLt]
  · rw [if_neg hLt, le_antisymm hPct1 (not_lt.mp hLt)]

/-- At and above the upper end of a proper input range the clamped remap is the upper end of
the output range. -/
theorem GetMappedRangeValueClamped_above (InMin InMax OutMin OutMax Value : ℚ)
    (hRange : InMin < InMax) (hHigh : InMax ≤ Value) :
    FMath.GetMappedRangeValueClamped (InMin, InMax) (OutMin, OutMax) Value = OutMax := by
  have hPos : 0 < InMax - InMin := by linarith
  have hNe : InMax - InMin ≠ 0 := ne_of_gt hPos
  have hPct1 : 1 ≤ (Value - InMin) / (InMax - InMin) := by
    rw [one_le_div hPos]
    linarith
  have hPct0 : ¬ ((Value - InMin) / (InMax - InMin) < 0) := not_lt.mpr (by linarith)
  simp only [FMath.GetMappedRangeValueClamped, FMath.GetRangePct, FMath.Clamp, FMath.Lerp,
    if_neg hNe, if_neg hPct0, if_neg (not_lt.mpr hPct1)]
  ring

/-- C9: for settings with 0 < WalkSpeed < RunSpeed < SprintSpeed and a speed S ≥ 0,
`CalculateGaitAmount` is S / WalkSpeed up to WalkSpeed, 1 + (S - WalkSpeed) / (RunSpeed -
WalkSpeed) from WalkSpeed to RunSpeed, 2 + (S - RunSpeed) / (SprintSpeed - RunSpeed) from
RunSpeed to SprintSpeed, and 3 from SprintSpeed upward; it is 0, 1, 2, 3 at the speeds 0,
WalkSpeed, RunSpeed, SprintSpeed and always lies from 0 to 3. -/
theorem C9_CalculateGaitAmount (Character : AAlsCharacter)
    (GaitSettings : FAlsMovementGaitSettings)
    (hWalk : 0 < GaitSettings.WalkSpeed)
    (hRun : GaitSettings.WalkSpeed < GaitSettings.RunSpeed)
    (hSprint : GaitSettings.RunSpeed < GaitSettings.SprintSpeed)
    (hSpeed : 0 ≤ Character.LocomotionState.Speed) :
    (Character.LocomotionState.Speed ≤ GaitSettings.WalkSpeed →
      Character.CalculateGaitAmount GaitSettings =
        Character.LocomotionState.Speed / GaitSettings.WalkSpeed) ∧
    (GaitSettings.WalkSpeed ≤ Character.LocomotionState.Speed →
      Character.LocomotionState.Speed ≤ GaitSettings.RunSpeed →
      Character.CalculateGaitAmount GaitSettings =
        1 + (Character.LocomotionState.Speed - GaitSettings.WalkSpeed) /
          (GaitSettings.RunSpeed - GaitSettings.WalkSpeed)) ∧
    (GaitSettings.RunSpeed ≤ Character.LocomotionState.Speed →
      Character.LocomotionState.Speed ≤ GaitSettings.SprintSpeed →
      Character.CalculateGaitAmount GaitSettings =
        2 + (Character.LocomotionState.Speed - GaitSettings.RunSpeed) /
          (GaitSettings.SprintSpeed - GaitSettings.RunSpeed)) ∧
    (GaitSettings.SprintSpeed ≤ Character.LocomotionState.Speed →
      Character.CalculateGaitAmount GaitSettings = 3) ∧
    (Character.LocomotionState.Speed = 0 → Character.CalculateGaitAmount GaitSettings = 0) ∧
    (Character.LocomotionState.Speed = GaitSettings.WalkSpeed →
      Character.CalculateGaitAmount GaitSettings = 1) ∧
    (Character.LocomotionState.Speed = GaitSettings.RunSpeed →
      Character.CalculateGaitAmount GaitSettings = 2) ∧
    (Character.LocomotionState.Speed = GaitSettings.SprintSpeed →
      Character.CalculateGaitAmount GaitSettings = 3) ∧
    0 ≤ Character.CalculateGaitAmount GaitSettings ∧
    Character.CalculateGaitAmount GaitSettings ≤ 3 := by
  have hWalkNe : GaitSettings.WalkSpeed ≠ 0 := ne_of_gt hWalk
  have hRunPos : 0 < GaitSettings.RunSpeed - GaitSettings.WalkSpeed := by linarith
  have hSprintPos : 0 < GaitSettings.SprintSpeed - GaitSettings.RunSpeed := by linarith
  -- the three branches of the source, each with the value it returns
  have hFirst : Character.LocomotionState.Speed ≤ GaitSettings.WalkSpeed →
      Character.CalculateGaitAmount GaitSettings =
        Character.LocomotionState.Speed / GaitSettings.WalkSpeed := by
    intro h
    unfold CalculateGaitAmount
    rw [if_pos h, GetMappedRangeValueClamped_inside 0 _ 0 1 _ hWalk hSpeed h]
    ring
  have hSecond : GaitSettings.WalkSpeed ≤ Character.LocomotionState.Speed →
      Character.LocomotionState.Speed ≤ GaitSettings.RunSpeed →
      Character.CalculateGaitAmount GaitSettings =
        1 + (Character.LocomotionState.Speed - GaitSettings.WalkSpeed) /
          (GaitSettings.RunSpeed - GaitSettings.WalkSpeed) := by
    intro hLow hHigh
    rcases eq_or_lt_of_le hLow with hEq | hLt
    · rw [hFirst (le_of_eq hEq.symm), ← hEq, div_self hWalkNe]
      simp
    · unfold CalculateGaitAmount
      rw [if_neg (not_le.mpr hLt), if_pos hHigh,
        GetMappedRangeValueClamped_inside _ _ 1 2 _ hRun hLow hHigh]
      ring
  have hThird : GaitSettings.RunSpeed ≤ Character.LocomotionState.Speed →
      Character.LocomotionState.Speed ≤ GaitSettings.SprintSpeed →
      Character.CalculateGaitAmount GaitSettings =
        2 + (Character.LocomotionState.Speed - GaitSettings.RunSpeed) /
          (GaitSettings.SprintSpeed - GaitSettings.RunSpeed) := by
    intro hLow hHigh
    rcases eq_or_lt_of_le hLow with hEq | hLt
    · rw [hSecond (by linarith) (le_of_eq hEq.symm), ← hEq, div_self (ne_of_gt hRunPos)]
      norm_num
    · unfold CalculateGaitAmount
      rw [if_neg (not_le.mpr (by linarith)), if_neg (not_le.mpr hLt),
        GetMappedRangeValueClamped_inside _ _ 2 3 _ hSprint hLow hHigh]
      ring
  have hFourth : GaitSettings.SprintSpeed ≤ Character.LocomotionState.Speed →
      Character.CalculateGaitAmount GaitSettings = 3 := by
    intro h
    unfold CalculateGaitAmount
    rw [if_neg (not_le.mpr (by linarith)), if_neg (not_le.mpr (by linarith)),
      GetMappedRangeValueClamped_above _ _ 2 3 _ hSprint h]
  refine ⟨hFirst, hSecond, hThird, hFourth, ?_, ?_, ?_, ?_, ?_, ?_⟩
  · intro h
    rw [hFirst (by linarith), h, zero_div]
  · intro h
    rw [hFirst (le_of_eq h), h, div_self hWalkNe]
  · intro h
    rw [hSecond (by linarith) (le_of_eq h), h, div_self (ne_of_gt hRunPos)]
    norm_num
  · intro h
    exact hFourth (le_of_eq h.symm)
  · rcases le_total Character.LocomotionState.Speed GaitSettings.WalkSpeed with h1 | h1
    · rw [hFirst h1]
      exact div_nonneg hSpeed (le_of_lt hWalk)
    · rcases le_total Character.LocomotionState.Speed GaitSettings.RunSpeed with h2 | h2
      · rw [hSecond h1 h2]
        have := div_nonneg (sub_nonneg.mpr h1) (le_of_lt hRunPos)
        linarith
      · rcases le_total Character.LocomotionState.Speed GaitSettings.SprintSpeed with h3 | h3
        · rw [hThird h2 h3]
          have := div_nonneg (sub_nonneg.mpr h2) (le_of_lt hSprintPos)
          linarith
        · rw [hFourth h3]
          norm_num
  · rcases le_total Character.LocomotionState.Speed GaitSettings.WalkSpeed with h1 | h1
    · rw [hFirst h1]
      have : Character.LocomotionState.Speed / GaitSettings.WalkSpeed ≤ 1 :=
        (div_le_one hWalk).mpr h1
      linarith
    · rcases le_total Character.LocomotionState.Speed GaitSettings.RunSpeed with h2 | h2
      · rw [hSecond h1 h2]
        have : (Character.LocomotionState.Speed - GaitSettings.WalkSpeed) /
            (GaitSettings.RunSpeed - GaitSettings.WalkSpeed) ≤ 1 :=
          (div_le_one hRunPos).mpr (by linarith)
        linarith
      · rcases le_total Character.LocomotionState.Speed GaitSettings.SprintSpeed with h3 | h3
        · rw [hThird h2 h3]
          have : (Character.LocomotionState.Speed - GaitSettings.RunSpeed) /
              (GaitSettings.SprintSpeed - GaitSettings.RunSpeed) ≤ 1 :=
            (div_le_one hSprintPos).mpr (by linarith)
          linarith
        · rw [hFourth h3]

/-- C9 at a concrete input: with speeds 175, 375 and 650 configured, the speed 275 (halfway
from walking to running) maps to the gait amount 1.5. -/
theorem C9_CalculateGaitAmount_witness :
    AAlsCharacter.CalculateGaitAmount { LocomotionState := { Speed := 275 } }
      { WalkSpeed := 175, RunSpeed := 375, SprintSpeed := 650 } = 3 / 2 := by
  have h := (C9_CalculateGaitAmount { LocomotionState := { Speed := 275 } }
    { WalkSpeed := 175, RunSpeed := 375, SprintSpeed := 650 }
    (by norm_num) (by norm_num) (by norm_num) (by norm_num)).2.1 (by norm_num) (by norm_num)
  rw [h]
  norm_num

/-! ### SetLocomotionMode and SetLocomotionAction -/

/-- Recording a call does not touch the locomotion mode. -/
theorem Invoke_LocomotionMode (Character : AAlsCharacter) (Call : EngineCall) :
    (Character.Invoke Call).LocomotionMode = Character.LocomotionMode := rfl

/-- Re-applying the desired stance does not touch the locomotion mode. -/
theorem RefreshDesiredStance_LocomotionMode (Character : AAlsCharacter) :
    Character.RefreshDesiredStance.LocomotionMode = Character.LocomotionMode := by
  unfold RefreshDesiredStance
  split
  · split <;> rfl
  · rfl

/-- Re-applying the desired stance does not touch the locomotion action. -/
theorem RefreshDesiredStance_LocomotionAction (Character : AAlsCharacter) :
    Character.RefreshDesiredStance.LocomotionAction = Character.LocomotionAction := by
  unfold RefreshDesiredStance
  split
  · split <;> rfl
  · rfl

/-- Setting the mode the character is already in changes nothing. -/
theorem SetLocomotionMode_same (NewMode : EAlsLocomotionMode) (Character : AAlsCharacter)
    (hSame : Character.LocomotionMode = NewMode) :
    SetLocomotionMode NewMode Character = Character := by
  rw [SetLocomotionMode, if_pos hSame]

/-- Setting the action the character is already in changes nothing. -/
theorem SetLocomotionAction_same (NewAction : EAlsLocomotionAction) (Character : AAlsCharacter)
    (hSame : Character.LocomotionAction = NewAction) :
    SetLocomotionAction NewAction Character = Character := by
  rw [SetLocomotionAction, if_pos hSame]

/-- After `SetLocomotionAction` the action is the new one. -/
theorem SetLocomotionAction_LocomotionAction (NewAction : EAlsLocomotionAction)
    (Character : AAlsCharacter) :
    (SetLocomotionAction NewAction Character).LocomotionAction = NewAction := by
  unfold SetLocomotionAction
  split
  · assumption
  · unfold NotifyLocomotionActionChanged
    simp only [Invoke_LocomotionMode]
    show (RefreshDesiredStance _).LocomotionAction = NewAction
    rw [RefreshDesiredStance_LocomotionAction]
    split <;> rfl

/-- After `SetLocomotionMode` the mode is the new one, except when InAir is entered from
another mode while rolling on the authority, where ragdolling starts at once. -/
theorem SetLocomotionMode_LocomotionMode (NewMode : EAlsLocomotionMode)
    (Character : AAlsCharacter)
    (hNoRagdoll : ¬ (NewMode = EAlsLocomotionMode.InAir ∧
      Character.LocomotionMode ≠ EAlsLocomotionMode.InAir ∧
      Character.LocomotionAction = EAlsLocomotionAction.Rolling ∧
      Character.HasAuthority = true)) :
    (SetLocomotionMode NewMode Character).LocomotionMode = NewMode := by
  rw [SetLocomotionMode]
  split
  · assumption
  · rename_i hNe
    rw [NotifyLocomotionModeChanged]
    cases NewMode <;> cases hAction : Character.LocomotionAction <;>
      simp [Invoke_LocomotionMode, RefreshDesiredStance_LocomotionMode, StartRagdolling]
    all_goals first
      | (split <;> rfl)
      | (have hRole : Character.LocalRole ≠ ENetRole.ROLE_Authority := by
          intro hRole
          exact hNoRagdoll ⟨rfl, hNe, hAction, by simp [HasAuthority, hRole]⟩
         simp [HasAuthority, hRole, Invoke])

/-- C10, as stated, fails in its last part: for a grounded, rolling character on the
authority, `SetLocomotionMode(InAir)` starts ragdolling, so the mode on return is Ragdolling
and not InAir; a second `SetLocomotionMode(InAir)` is then a real transition that runs the
side effects and the hook again (21 recorded calls instead of 11), so calling the setter twice
differs from calling it once. -/
theorem C10_idempotence_counterexample :
    (SetLocomotionMode EAlsLocomotionMode.InAir
      { LocomotionAction := EAlsLocomotionAction.Rolling }).LocomotionMode =
        EAlsLocomotionMode.Ragdolling ∧
    (SetLocomotionMode EAlsLocomotionMode.InAir
      { LocomotionAction := EAlsLocomotionAction.Rolling }).Calls.length = 11 ∧
    (SetLocomotionMode EAlsLocomotionMode.InAir
      (SetLocomotionMode EAlsLocomotionMode.InAir
        { LocomotionAction := EAlsLocomotionAction.Rolling })).Calls.length = 21 ∧
    SetLocomotionMode EAlsLocomotionMode.InAir
      (SetLocomotionMode EAlsLocomotionMode.InAir
        { LocomotionAction := EAlsLocomotionAction.Rolling }) ≠
    SetLocomotionMode EAlsLocomotionMode.InAir
      { LocomotionAction := EAlsLocomotionAction.Rolling } := by
  have hOnce : (SetLocomotionMode EAlsLocomotionMode.InAir
      { LocomotionAction := EAlsLocomotionAction.Rolling }).Calls.length = 11 := by
    simp [SetLocomotionMode, NotifyLocomotionModeChanged, StartRagdolling,
      StartRagdollingImplementation, HasAuthority, Invoke, SetMovementMode,
      OnMovementModeChanged, SetRagdollTargetLocation, ENetRole.rank]
  have hTwice : (SetLocomotionMode EAlsLocomotionMode.InAir
      (SetLocomotionMode EAlsLocomotionMode.InAir
        { LocomotionAction := EAlsLocomotionAction.Rolling })).Calls.length = 21 := by
    simp [SetLocomotionMode, NotifyLocomotionModeChanged, StartRagdolling,
      StartRagdollingImplementation, HasAuthority, Invoke, SetMovementMode,
      OnMovementModeChanged, SetRagdollTargetLocation, ENetRole.rank]
  refine ⟨?_, hOnce, hTwice, ?_⟩
  · simp [SetLocomotionMode, NotifyLocomotionModeChanged, StartRagdolling,
      StartRagdollingImplementation, HasAuthority, Invoke, SetMovementMode,
      OnMovementModeChanged, SetRagdollTargetLocation, ENetRole.rank]
  · intro hEq
    rw [hEq, hOnce] at hTwice
    exact absurd hTwice (by decide)

/-- C10, amended: `SetLocomotionMode` and `SetLocomotionAction` are no-ops when the argument
equals the current value: the whole character state, the log of recorded calls included, is
unchanged, so no side effect runs and no hook is invoked. Calling `SetLocomotionAction` twice
with the same value equals calling it once; calling `SetLocomotionMode` twice with the same
value equals calling it once unless InAir is entered from another mode while rolling on the
authority. -/
theorem C10_setters_noop (Character : AAlsCharacter) (NewMode : EAlsLocomotionMode)
    (NewAction : EAlsLocomotionAction) :
    (Character.LocomotionMode = NewMode → SetLocomotionMode NewMode Character = Character) ∧
    (Character.LocomotionAction = NewAction →
      SetLocomotionAction NewAction Character = Character) ∧
    SetLocomotionAction NewAction (SetLocomotionAction NewAction Character) =
      SetLocomotionAction NewAction Character ∧
    (¬ (NewMode = EAlsLocomotionMode.InAir ∧
        Character.LocomotionMode ≠ EAlsLocomotionMode.InAir ∧
        Character.LocomotionAction = EAlsLocomotionAction.Rolling ∧
        Character.HasAuthority = true) →
      SetLocomotionMode NewMode (SetLocomotionMode NewMode Character) =
        SetLocomotionMode NewMode Character) :=
  ⟨SetLocomotionMode_same NewMode Character,
    SetLocomotionAction_same NewAction Character,
    SetLocomotionAction_same NewAction _ (SetLocomotionAction_LocomotionAction NewAction Character),
    fun hNoRagdoll =>
      SetLocomotionMode_same NewMode _
        (SetLocomotionMode_LocomotionMode NewMode Character hNoRagdoll)⟩

/-- C10 amended, at a concrete input: setting Mantling on a character that is mantling, with
calls already recorded, returns the same state. -/
theorem C10_setters_noop_witness :
    SetLocomotionMode EAlsLocomotionMode.Mantling
      { LocomotionMode := EAlsLocomotionMode.Mantling, LocomotionAction := EAlsLocomotionAction.Rolling,
        Calls := [EngineCall.Crouch] } =
      { LocomotionMode := EAlsLocomotionMode.Mantling, LocomotionAction := EAlsLocomotionAction.Rolling,
        Calls := [EngineCall.Crouch] } :=
  (C10_setters_noop _ EAlsLocomotionMode.Mantling EAlsLocomotionAction.None).1 rfl

/-! ### Transitions of the locomotion mode and action -/

/-- Recording a call makes it the last recorded call. -/
theorem Invoke_Calls_getLast (Character : AAlsCharacter) (Call : EngineCall) :
    (Character.Invoke Call).Calls.getLast? = some Call := by
  simp [Invoke]

/-- A changing `SetLocomotionMode` assigns the new mode and hands over to
`NotifyLocomotionModeChanged` with the previous mode. -/
theorem SetLocomotionMode_changed (NewMode : EAlsLocomotionMode) (Character : AAlsCharacter)
    (hChanged : Character.LocomotionMode ≠ NewMode) :
    SetLocomotionMode NewMode Character =
      NotifyLocomotionModeChanged Character.LocomotionMode
        { Character with LocomotionMode := NewMode } := by
  rw [SetLocomotionMode, if_neg hChanged]

/-- The hook `OnLocomotionModeChanged` is the last thing `NotifyLocomotionModeChanged` does. -/
theorem NotifyLocomotionModeChanged_getLast (PreviousMode : EAlsLocomotionMode)
    (Character : AAlsCharacter) :
    (NotifyLocomotionModeChanged PreviousMode Character).Calls.getLast? =
      some (EngineCall.OnLocomotionModeChanged PreviousMode) := by
  rw [NotifyLocomotionModeChanged]
  repeat' split
  all_goals exact Invoke_Calls_getLast _ _

/-- The movement mode None raises no locomotion mode change. -/
theorem SetMovementMode_None_LocomotionMode (Character : AAlsCharacter) :
    (SetMovementMode EMovementMode.MOVE_None Character).LocomotionMode =
      Character.LocomotionMode := by
  rw [SetMovementMode]
  split
  · rfl
  · rw [OnMovementModeChanged]
    simp [Invoke]

/-- After `StartRagdollingImplementation` the locomotion mode is Ragdolling. -/
theorem StartRagdollingImplementation_LocomotionMode (Character : AAlsCharacter) :
    (StartRagdollingImplementation Character).LocomotionMode =
      EAlsLocomotionMode.Ragdolling := by
  rw [StartRagdollingImplementation]
  simp only [Invoke_LocomotionMode]
  exact SetLocomotionMode_LocomotionMode _ _ (fun h => absurd h.1 (by decide))

/-- On the authority `StartRagdolling` ends in Ragdolling. -/
theorem StartRagdolling_authority (Character : AAlsCharacter)
    (hMode : Character.LocomotionMode ≠ EAlsLocomotionMode.Ragdolling)
    (hAuthority : Character.HasAuthority = true) :
    (StartRagdolling Character).LocomotionMode = EAlsLocomotionMode.Ragdolling := by
  rw [StartRagdolling, if_neg hMode, if_pos hAuthority]
  exact StartRagdollingImplementation_LocomotionMode _

/-- Without authority `StartRagdolling` only requests the ragdoll from the server. -/
theorem StartRagdolling_no_authority (Character : AAlsCharacter)
    (hMode : Character.LocomotionMode ≠ EAlsLocomotionMode.Ragdolling)
    (hAuthority : Character.HasAuthority = false) :
    StartRagdolling Character = Character.Invoke EngineCall.ServerStartRagdolling := by
  rw [StartRagdolling, if_neg hMode, hAuthority]
  rfl

/-- Entering InAir while rolling starts ragdolling and then calls the hook. -/
theorem NotifyLocomotionModeChanged_InAir_rolling (PreviousMode : EAlsLocomotionMode)
    (Character : AAlsCharacter)
    (hMode : Character.LocomotionMode = EAlsLocomotionMode.InAir)
    (hAction : Character.LocomotionAction = EAlsLocomotionAction.Rolling) :
    NotifyLocomotionModeChanged PreviousMode Character =
      (StartRagdolling Character).Invoke (EngineCall.OnLocomotionModeChanged PreviousMode) := by
  rw [NotifyLocomotionModeChanged]
  simp [hMode, hAction]

/-- Entering InAir from another mode while rolling on the authority ends in Ragdolling. -/
theorem SetLocomotionMode_InAir_rolling_authority (Character : AAlsCharacter)
    (hMode : Character.LocomotionMode ≠ EAlsLocomotionMode.InAir)
    (hAction : Character.LocomotionAction = EAlsLocomotionAction.Rolling)
    (hAuthority : Character.HasAuthority = true) :
    (SetLocomotionMode EAlsLocomotionMode.InAir Character).LocomotionMode =
      EAlsLocomotionMode.Ragdolling := by
  rw [SetLocomotionMode_changed _ _ hMode,
    NotifyLocomotionModeChanged_InAir_rolling Character.LocomotionMode
      { Character with LocomotionMode := EAlsLocomotionMode.InAir } rfl hAction,
    Invoke_LocomotionMode]
  exact StartRagdolling_authority { Character with LocomotionMode := EAlsLocomotionMode.InAir }
    (by simp) hAuthority

/-- After a changing `SetLocomotionAction` the hook `OnLocomotionActionChanged` with the
previous action is the last recorded call. -/
theorem SetLocomotionAction_getLast (NewAction : EAlsLocomotionAction)
    (Character : AAlsCharacter) (hChanged : Character.LocomotionAction ≠ NewAction) :
    (SetLocomotionAction NewAction Character).Calls.getLast? =
      some (EngineCall.OnLocomotionActionChanged Character.LocomotionAction) := by
  rw [SetLocomotionAction, if_neg hChanged]
  exact Invoke_Calls_getLast _ _

/-- C11, as stated, fails in "on return LocomotionMode equals NewMode": for a grounded,
rolling character on the authority the new mode InAir differs from the current one, yet on
return from `SetLocomotionMode(InAir)` the mode is Ragdolling. -/
theorem C11_mode_on_return_counterexample :
    (({ LocomotionAction := EAlsLocomotionAction.Rolling } : AAlsCharacter).LocomotionMode ≠
      EAlsLocomotionMode.InAir) ∧
    (SetLocomotionMode EAlsLocomotionMode.InAir
      { LocomotionAction := EAlsLocomotionAction.Rolling }).LocomotionMode ≠
        EAlsLocomotionMode.InAir := by
  refine ⟨by decide, ?_⟩
  rw [SetLocomotionMode_InAir_rolling_authority
    { LocomotionAction := EAlsLocomotionAction.Rolling } (by decide) rfl (by decide)]
  decide

/-- C11, amended: for a new mode different from the current one, `SetLocomotionMode` assigns
the new mode and runs `NotifyLocomotionModeChanged` on the result, whose last step is the hook
`OnLocomotionModeChanged` with the mode that held before the call; on return the mode is the
new mode, except when InAir is entered while rolling on the authority, where it is Ragdolling.
For a new action different from the current one, `SetLocomotionAction` assigns it, runs
`NotifyLocomotionActionChanged`, whose last step is the hook `OnLocomotionActionChanged` with
the previous action, and on return the action is the new action. -/
theorem C11_setters_transition (Character : AAlsCharacter) (NewMode : EAlsLocomotionMode)
    (NewAction : EAlsLocomotionAction) :
    (Character.LocomotionMode ≠ NewMode →
      SetLocomotionMode NewMode Character =
        NotifyLocomotionModeChanged Character.LocomotionMode
          { Character with LocomotionMode := NewMode } ∧
      (SetLocomotionMode NewMode Character).Calls.getLast? =
        some (EngineCall.OnLocomotionModeChanged Character.LocomotionMode) ∧
      (¬ (NewMode = EAlsLocomotionMode.InAir ∧
          Character.LocomotionAction = EAlsLocomotionAction.Rolling ∧
          Character.HasAuthority = true) →
        (SetLocomotionMode NewMode Character).LocomotionMode = NewMode) ∧
      (NewMode = EAlsLocomotionMode.InAir →
        Character.LocomotionAction = EAlsLocomotionAction.Rolling →
        Character.HasAuthority = true →
        (SetLocomotionMode NewMode Character).LocomotionMode =
          EAlsLocomotionMode.Ragdolling)) ∧
    (Character.LocomotionAction ≠ NewAction →
      SetLocomotionAction NewAction Character =
        NotifyLocomotionActionChanged Character.LocomotionAction
          { Character with LocomotionAction := NewAction } ∧
      (SetLocomotionAction NewAction Character).Calls.getLast? =
        some (EngineCall.OnLocomotionActionChanged Character.LocomotionAction) ∧
      (SetLocomotionAction NewAction Character).LocomotionAction = NewAction) := by
  refine ⟨fun hChanged => ⟨SetLocomotionMode_changed _ _ hChanged, ?_, ?_, ?_⟩,
    fun hChanged => ⟨?_, SetLocomotionAction_getLast _ _ hChanged,
      SetLocomotionAction_LocomotionAction _ _⟩⟩
  · rw [SetLocomotionMode_changed _ _ hChanged]
    exact NotifyLocomotionModeChanged_getLast _ _
  · intro hNoRagdoll
    exact SetLocomotionMode_LocomotionMode _ _
      (fun h => hNoRagdoll ⟨h.1, h.2.2.1, h.2.2.2⟩)
  · intro hInAir hAction hAuthority
    subst hInAir
    exact SetLocomotionMode_InAir_rolling_authority _ hChanged hAction hAuthority
  · rw [SetLocomotionAction, if_neg hChanged]

/-- C11 amended, at a concrete input: a grounded character entering Mantling ends in Mantling
with the hook called last with the previous mode Grounded. -/
theorem C11_setters_transition_witness :
    (SetLocomotionMode EAlsLocomotionMode.Mantling {}).Calls.getLast? =
      some (EngineCall.OnLocomotionModeChanged EAlsLocomotionMode.Grounded) ∧
    (SetLocomotionMode EAlsLocomotionMode.Mantling {}).LocomotionMode =
      EAlsLocomotionMode.Mantling :=
  ⟨((C11_setters_transition {} EAlsLocomotionMode.Mantling EAlsLocomotionAction.None).1
      (by decide)).2.1,
   ((C11_setters_transition {} EAlsLocomotionMode.Mantling EAlsLocomotionAction.None).1
      (by decide)).2.2.1 (fun h => absurd h.1 (by decide))⟩

/-- C12, as stated, fails without authority: a grounded, rolling autonomous proxy that enters
InAir only requests the ragdoll from the server; on return the mode is InAir, not Ragdolling. -/
theorem C12_no_authority_counterexample :
    (SetLocomotionMode EAlsLocomotionMode.InAir
      { LocomotionAction := EAlsLocomotionAction.Rolling,
        LocalRole := ENetRole.ROLE_AutonomousProxy }).LocomotionMode =
        EAlsLocomotionMode.InAir ∧
    (SetLocomotionMode EAlsLocomotionMode.InAir
      { LocomotionAction := EAlsLocomotionAction.Rolling,
        LocalRole := ENetRole.ROLE_AutonomousProxy }).Calls =
        [EngineCall.ServerStartRagdolling,
         EngineCall.OnLocomotionModeChanged EAlsLocomotionMode.Grounded] := by
  constructor
  · exact SetLocomotionMode_LocomotionMode _ _ (fun h => absurd h.2.2.2 (by decide))
  · simp [SetLocomotionMode, NotifyLocomotionModeChanged, StartRagdolling, HasAuthority, Invoke]

/-- C12, amended: for a rolling character whose mode is neither InAir nor Ragdolling,
`SetLocomotionMode(InAir)` on an instance with authority returns with the mode Ragdolling
(and not InAir); on an instance without authority it returns with the mode InAir, the ragdoll
having only been requested from the server. -/
theorem C12_InAir_while_rolling (Character : AAlsCharacter)
    (hAction : Character.LocomotionAction = EAlsLocomotionAction.Rolling)
    (hNotInAir : Character.LocomotionMode ≠ EAlsLocomotionMode.InAir)
    (hNotRagdolling : Character.LocomotionMode ≠ EAlsLocomotionMode.Ragdolling) :
    (Character.HasAuthority = true →
      (SetLocomotionMode EAlsLocomotionMode.InAir Character).LocomotionMode =
        EAlsLocomotionMode.Ragdolling ∧
      (SetLocomotionMode EAlsLocomotionMode.InAir Character).LocomotionMode ≠
        EAlsLocomotionMode.InAir) ∧
    (Character.HasAuthority = false →
      (SetLocomotionMode EAlsLocomotionMode.InAir Character).LocomotionMode =
        EAlsLocomotionMode.InAir ∧
      SetLocomotionMode EAlsLocomotionMode.InAir Character =
        (({ Character with LocomotionMode := EAlsLocomotionMode.InAir } : AAlsCharacter).Invoke
          EngineCall.ServerStartRagdolling).Invoke
          (EngineCall.OnLocomotionModeChanged Character.LocomotionMode)) := by
  constructor
  · intro hAuthority
    have h := SetLocomotionMode_InAir_rolling_authority Character hNotInAir hAction hAuthority
    exact ⟨h, by rw [h]; decide⟩
  · intro hAuthority
    refine ⟨SetLocomotionMode_LocomotionMode _ _ (fun h => ?_), ?_⟩
    · rw [hAuthority] at h
      exact absurd h.2.2.2 (by decide)
    · rw [SetLocomotionMode_changed _ _ hNotInAir,
        NotifyLocomotionModeChanged_InAir_rolling Character.LocomotionMode
          { Character with LocomotionMode := EAlsLocomotionMode.InAir } rfl hAction,
        StartRagdolling_no_authority
          { Character with LocomotionMode := EAlsLocomotionMode.InAir } (by simp) hAuthority]

/-- C12 amended, at a concrete input: a rolling character that is mantling on the authority
and enters InAir ends in Ragdolling. -/
theorem C12_InAir_while_rolling_witness :
    (SetLocomotionMode EAlsLocomotionMode.InAir
      { LocomotionMode := EAlsLocomotionMode.Mantling,
        LocomotionAction := EAlsLocomotionAction.Rolling }).LocomotionMode =
      EAlsLocomotionMode.Ragdolling :=
  ((C12_InAir_while_rolling
    { LocomotionMode := EAlsLocomotionMode.Mantling,
      LocomotionAction := EAlsLocomotionAction.Rolling } rfl (by decide) (by decide)).1 rfl).1

/-! ### Landing -/

/-- Re-applying the desired stance starts no roll and leaves the rolling state and the braking
friction alone. -/
theorem RefreshDesiredStance_rolling (Character : AAlsCharacter) :
    Character.RefreshDesiredStance.Calls.filter IsStartRollingCall =
      Character.Calls.filter IsStartRollingCall ∧
    Character.RefreshDesiredStance.RollingState = Character.RollingState ∧
    Character.RefreshDesiredStance.BrakingFrictionFactor = Character.BrakingFrictionFactor := by
  unfold RefreshDesiredStance
  split
  · split <;> simp [Invoke, List.filter_append, IsStartRollingCall]
  · simp

/-- Storing the ragdoll target location starts no roll and leaves the rolling state and the
braking friction alone. -/
theorem SetRagdollTargetLocation_rolling (NewLocation : FVector) (Character : AAlsCharacter) :
    (SetRagdollTargetLocation NewLocation Character).Calls.filter IsStartRollingCall =
      Character.Calls.filter IsStartRollingCall ∧
    (SetRagdollTargetLocation NewLocation Character).RollingState = Character.RollingState ∧
    (SetRagdollTargetLocation NewLocation Character).BrakingFrictionFactor =
      Character.BrakingFrictionFactor := by
  unfold SetRagdollTargetLocation
  split
  · dsimp only
    split <;> simp [Invoke, List.filter_append, IsStartRollingCall]
  · simp

/-- Clearing the movement mode starts no roll and leaves the rolling state and the braking
friction alone. -/
theorem SetMovementMode_None_rolling (Character : AAlsCharacter) :
    (SetMovementMode EMovementMode.MOVE_None Character).Calls.filter IsStartRollingCall =
      Character.Calls.filter IsStartRollingCall ∧
    (SetMovementMode EMovementMode.MOVE_None Character).RollingState =
      Character.RollingState ∧
    (SetMovementMode EMovementMode.MOVE_None Character).BrakingFrictionFactor =
      Character.BrakingFrictionFactor := by
  rw [SetMovementMode]
  split
  · simp
  · rw [OnMovementModeChanged]
    simp [Invoke, List.filter_append, IsStartRollingCall]

/-- Entering Ragdolling starts no roll and leaves the rolling state and the braking friction
alone. -/
theorem SetLocomotionMode_Ragdolling_rolling (Character : AAlsCharacter) :
    (SetLocomotionMode EAlsLocomotionMode.Ragdolling Character).Calls.filter
        IsStartRollingCall = Character.Calls.filter IsStartRollingCall ∧
    (SetLocomotionMode EAlsLocomotionMode.Ragdolling Character).RollingState =
      Character.RollingState ∧
    (SetLocomotionMode EAlsLocomotionMode.Ragdolling Character).BrakingFrictionFactor =
      Character.BrakingFrictionFactor := by
  rw [SetLocomotionMode]
  split
  · simp
  · rw [NotifyLocomotionModeChanged]
    simp only [reduceCtorEq, if_false, true_and, dite_false]
    split <;> simp [Invoke, List.filter_append, IsStartRollingCall]

/-- Engaging the ragdoll starts no roll and leaves the rolling state and the braking friction
alone. -/
theorem StartRagdollingImplementation_rolling (Character : AAlsCharacter) :
    (StartRagdollingImplementation Character).Calls.filter IsStartRollingCall =
      Character.Calls.filter IsStartRollingCall ∧
    (StartRagdollingImplementation Character).RollingState = Character.RollingState ∧
    (StartRagdollingImplementation Character).BrakingFrictionFactor =
      Character.BrakingFrictionFactor := by
  rw [StartRagdollingImplementation]
  simp only [Invoke, List.filter_append, SetLocomotionMode_Ragdolling_rolling,
    SetMovementMode_None_rolling]
  split <;> split <;>
    simp [SetRagdollTargetLocation_rolling, List.filter_append, IsStartRollingCall]

/-- Starting the ragdoll starts no roll and leaves the rolling state and the braking friction
alone. -/
theorem StartRagdolling_rolling (Character : AAlsCharacter) :
    (StartRagdolling Character).Calls.filter IsStartRollingCall =
      Character.Calls.filter IsStartRollingCall ∧
    (StartRagdolling Character).RollingState = Character.RollingState ∧
    (StartRagdolling Character).BrakingFrictionFactor = Character.BrakingFrictionFactor := by
  rw [StartRagdolling]
  split
  · simp
  · split
    · simp [StartRagdollingImplementation_rolling, Invoke, List.filter_append,
        IsStartRollingCall]
    · simp [Invoke, List.filter_append, IsStartRollingCall]

/-- C13, as stated, fails when ragdolling on land is switched off: with
`bStartRagdollingOnLand` false, a landing at vertical speed 2000 above the ragdoll threshold
1000 starts a roll (rolling on land enabled, threshold 700) and no ragdoll: on the locally
controlled authority the roll montage is played at the rate `1.3f`, the roll is sent to the
server, broadcast, a net update is forced, and the mode stays Grounded. -/
theorem C13_ragdoll_on_land_disabled_counterexample :
    (|(-2000 : ℚ)| > 1000) ∧
    Binary32.Round (13 / 10) = 5452595 / 4194304 ∧
    (OnLandedNetworked {}
      { RagdollingSettings :=
          { bStartRagdollingOnLand := false, RagdollingOnLandSpeedThreshold := 1000 },
        RollingSettings := { bStartRollingOnLand := true, RollingOnLandSpeedThreshold := 700 },
        MovementVelocity := { Z := -2000 } }).Calls =
      [EngineCall.MontagePlay none (5452595 / 4194304) 0 true,
       EngineCall.ServerStartRolling none (5452595 / 4194304) 0,
       EngineCall.MulticastStartRolling none (5452595 / 4194304) 0,
       EngineCall.ForceNetUpdate] ∧
    (OnLandedNetworked {}
      { RagdollingSettings :=
          { bStartRagdollingOnLand := false, RagdollingOnLandSpeedThreshold := 1000 },
        RollingSettings := { bStartRollingOnLand := true, RollingOnLandSpeedThreshold := 700 },
        MovementVelocity := { Z := -2000 } }).LocomotionMode = EAlsLocomotionMode.Grounded := by
  have hRate : Binary32.Round (13 / 10) = 5452595 / 4194304 := by
    rw [Binary32.Round_eq_of_binade 0 10905190 (by norm_num) (by norm_num) (by norm_num)
      (Or.inl (by norm_num [abs_of_pos]))]
    norm_num
  refine ⟨by norm_num, hRate, ?_, ?_⟩
  · simp only [OnLandedNetworked, hRate]
    norm_num [StartRolling, ServerStartRolling, MulticastStartRolling_Implementation,
      HasAuthority, Invoke, abs_of_nonneg]
  · simp only [OnLandedNetworked, hRate]
    norm_num [StartRolling, ServerStartRolling, MulticastStartRolling_Implementation,
      HasAuthority, Invoke, abs_of_nonneg]

/-- C13, amended: when ragdolling on land is enabled and the landing vertical speed exceeds
the ragdoll threshold, `OnLandedNetworked` does exactly what `StartRagdolling` does: it starts
no roll (no roll montage, no roll sent to the server or broadcast, rolling state unchanged)
and leaves the braking friction factor alone, whatever the rolling settings. -/
theorem C13_OnLandedNetworked_ragdoll (Engine : FEngine) (Character : AAlsCharacter)
    (hEnabled : Character.RagdollingSettings.bStartRagdollingOnLand = true)
    (hSpeed : |Character.MovementVelocity.Z| >
      Character.RagdollingSettings.RagdollingOnLandSpeedThreshold) :
    OnLandedNetworked Engine Character = StartRagdolling Character ∧
    (OnLandedNetworked Engine Character).Calls.filter IsStartRollingCall =
      Character.Calls.filter IsStartRollingCall ∧
    (OnLandedNetworked Engine Character).RollingState = Character.RollingState ∧
    (OnLandedNetworked Engine Character).BrakingFrictionFactor =
      Character.BrakingFrictionFactor := by
  have hEq : OnLandedNetworked Engine Character = StartRagdolling Character := by
    unfold OnLandedNetworked
    simp only [if_pos (And.intro hEnabled hSpeed)]
  rw [hEq]
  exact ⟨rfl, StartRagdolling_rolling Character⟩

/-- C13 amended, at a concrete input: ragdolling and rolling on land both enabled, vertical
speed 2000 above both thresholds; the landing ends in Ragdolling on the authority. -/
theorem C13_OnLandedNetworked_ragdoll_witness :
    OnLandedNetworked {}
      { RagdollingSettings :=
          { bStartRagdollingOnLand := true, RagdollingOnLandSpeedThreshold := 1000 },
        RollingSettings := { bStartRollingOnLand := true, RollingOnLandSpeedThreshold := 700 },
        MovementVelocity := { Z := -2000 } } =
    StartRagdolling
      { RagdollingSettings :=
          { bStartRagdollingOnLand := true, RagdollingOnLandSpeedThreshold := 1000 },
        RollingSettings := { bStartRollingOnLand := true, RollingOnLandSpeedThreshold := 700 },
        MovementVelocity := { Z := -2000 } } :=
  (C13_OnLandedNetworked_ragdoll {}
    { RagdollingSettings :=
        { bStartRagdollingOnLand := true, RagdollingOnLandSpeedThreshold := 1000 },
      RollingSettings := { bStartRollingOnLand := true, RollingOnLandSpeedThreshold := 700 },
      MovementVelocity := { Z := -2000 } } rfl (by norm_num)).1

/-! ### Mantle detection -/

/-- At a weight of zero the blend is the first transform. -/
theorem TLerp_zero (Engine : FEngine) (A B : FTransform) :
    UKismetMathLibrary.TLerp Engine A B 0 = A := by
  unfold UKismetMathLibrary.TLerp
  rw [if_pos (by norm_num [ZERO_ANIMWEIGHT_THRESH])]

/-- At a weight of one the blend is the second transform. -/
theorem TLerp_one (Engine : FEngine) (A B : FTransform) :
    UKismetMathLibrary.TLerp Engine A B 1 = B := by
  unfold UKismetMathLibrary.TLerp
  rw [if_neg (by norm_num [ZERO_ANIMWEIGHT_THRESH]),
    if_pos (by norm_num [ZERO_ANIMWEIGHT_THRESH])]

/-- With valid references `OnMantlingTimelineUpdated` moves the actor to the blended transform
of the mantling state with the target transform resolved against the target primitive. -/
theorem OnMantlingTimelineUpdated_applied (Engine : FEngine) (BlendInTime : ℚ)
    (Character : AAlsCharacter) (Primitive : UPrimitiveComponent) (Curve : UCurveVector)
    (hPrimitive : Engine.ResolvePrimitive Character.MantlingState.Primitive = some Primitive)
    (hCurve : Engine.ResolveVectorCurve
      Character.MantlingState.InterpolationAndCorrectionCurve = some Curve) :
    ∃ Updated : AAlsCharacter,
      OnMantlingTimelineUpdated Engine BlendInTime Character = some Updated ∧
      Updated.GetActorTransform.Location =
        (MantlingResultTransform Engine
          { Character.MantlingState with
            TargetTransform :=
              Engine.TransformMultiply Character.MantlingState.RelativeTransform
                Primitive.ComponentTransform }
          (Curve.GetVectorValue (Character.MantlingState.StartTime +
            Character.MantlingTimelinePlaybackPosition)) BlendInTime).Location ∧
      Updated.GetActorTransform.Rotation =
        (MantlingResultTransform Engine
          { Character.MantlingState with
            TargetTransform :=
              Engine.TransformMultiply Character.MantlingState.RelativeTransform
                Primitive.ComponentTransform }
          (Curve.GetVectorValue (Character.MantlingState.StartTime +
            Character.MantlingTimelinePlaybackPosition)) BlendInTime).Rotation := by
  unfold OnMantlingTimelineUpdated
  simp only [hPrimitive, hCurve]
  exact ⟨_, rfl, rfl, rfl⟩

/-- The blended transform at the blend-in factor 0 and at the blend-in factor 1 with the
interpolation amount 1. -/
theorem MantlingResultTransform_endpoints (Engine : FEngine)
    (MantlingState : FAlsMantlingState) (Amounts : FVector) :
    MantlingResultTransform Engine MantlingState Amounts 0 =
      UAlsMath.AddTransforms MantlingState.TargetTransform MantlingState.ActorOffset ∧
    (Amounts.X = 1 →
      MantlingResultTransform Engine MantlingState Amounts 1 =
        MantlingState.TargetTransform) := by
  constructor
  · unfold MantlingResultTransform
    exact TLerp_zero _ _ _
  · intro hAmount
    unfold MantlingResultTransform
    simp only [hAmount, TLerp_one]

/-- C17, as stated, fails because the applied transform also depends on the blend-in factor
the timeline passes: in the sample world, at elapsed 0 with blend-in factor 1 (interpolation
amount 1) the actor is moved to the pure target location (100, 0, 0) although the stored
actor offset is (10, 0, 0); and at the end of the curve (elapsed 1, interpolation amount 1)
with blend-in factor 0 the actor is moved to target plus offset (110, 0, 0), not to the pure
target. -/
theorem C17_blend_in_factor_counterexample :
    (OnMantlingTimelineUpdated SampleLedgeEngine 1
      { MantlingState :=
          { Primitive := some 1, InterpolationAndCorrectionCurve := some 2,
            RelativeTransform := { Location := { X := 100 } },
            ActorOffset := { Location := { X := 10 } } },
        MantlingTimelinePlaybackPosition := 0 }).map
        (fun Updated => Updated.ActorLocation) = some { X := 100 } ∧
    (OnMantlingTimelineUpdated SampleLedgeEngine 0
      { MantlingState :=
          { Primitive := some 1, InterpolationAndCorrectionCurve := some 2,
            RelativeTransform := { Location := { X := 100 } },
            ActorOffset := { Location := { X := 10 } } },
        MantlingTimelinePlaybackPosition := 1 }).map
        (fun Updated => Updated.ActorLocation) = some { X := 110 } := by
  constructor
  · norm_num [OnMantlingTimelineUpdated, SampleLedgeEngine, FEngine.ResolvePrimitive,
      FEngine.ResolveVectorCurve, MantlingResultTransform, UKismetMathLibrary.TLerp,
      ZERO_ANIMWEIGHT_THRESH, FVector.OneVector, SetActorLocationAndRotation]
  · norm_num [OnMantlingTimelineUpdated, SampleLedgeEngine, FEngine.ResolvePrimitive,
      FEngine.ResolveVectorCurve, MantlingResultTransform, UKismetMathLibrary.TLerp,
      ZERO_ANIMWEIGHT_THRESH, FVector.OneVector, SetActorLocationAndRotation,
      UAlsMath.AddTransforms, FVector.Add]

/-- C17, amended: with a valid target primitive and correction curve, for every mantling
state and every elapsed time, (a) when the blend-in factor passed by the timeline is 0, the
transform `OnMantlingTimelineUpdated` applies to the actor is the resolved target transform
plus the stored actor offset; (b) when the blend-in factor is 1 and the interpolation amount
sampled from the correction curve is 1, the applied transform is the pure resolved target
transform, whatever the horizontal and vertical correction amounts. -/
theorem C17_blend_endpoints (Engine : FEngine) (Character : AAlsCharacter)
    (Primitive : UPrimitiveComponent) (Curve : UCurveVector)
    (hPrimitive : Engine.ResolvePrimitive Character.MantlingState.Primitive = some Primitive)
    (hCurve : Engine.ResolveVectorCurve
      Character.MantlingState.InterpolationAndCorrectionCurve = some Curve) :
    (∃ Updated : AAlsCharacter,
      OnMantlingTimelineUpdated Engine 0 Character = some Updated ∧
      Updated.GetActorTransform.Location =
        (UAlsMath.AddTransforms
          (Engine.TransformMultiply Character.MantlingState.RelativeTransform
            Primitive.ComponentTransform)
          Character.MantlingState.ActorOffset).Location ∧
      Updated.GetActorTransform.Rotation =
        (UAlsMath.AddTransforms
          (Engine.TransformMultiply Character.MantlingState.RelativeTransform
            Primitive.ComponentTransform)
          Character.MantlingState.ActorOffset).Rotation) ∧
    ((Curve.GetVectorValue (Character.MantlingState.StartTime +
        Character.MantlingTimelinePlaybackPosition)).X = 1 →
      ∃ Updated : AAlsCharacter,
        OnMantlingTimelineUpdated Engine 1 Character = some Updated ∧
        Updated.GetActorTransform.Location =
          (Engine.TransformMultiply Character.MantlingState.RelativeTransform
            Primitive.ComponentTransform).Location ∧
        Updated.GetActorTransform.Rotation =
          (Engine.TransformMultiply Character.MantlingState.RelativeTransform
            Primitive.ComponentTransform).Rotation) := by
  constructor
  · obtain ⟨Updated, hUpdated, hLocation, hRotation⟩ :=
      OnMantlingTimelineUpdated_applied Engine 0 Character Primitive Curve hPrimitive hCurve
    rw [(MantlingResultTransform_endpoints _ _ _).1] at hLocation hRotation
    exact ⟨Updated, hUpdated, hLocation, hRotation⟩
  · intro hAmount
    obtain ⟨Updated, hUpdated, hLocation, hRotation⟩ :=
      OnMantlingTimelineUpdated_applied Engine 1 Character Primitive Curve hPrimitive hCurve
    rw [(MantlingResultTransform_endpoints _ _ _).2 hAmount] at hLocation hRotation
    exact ⟨Updated, hUpdated, hLocation, hRotation⟩

/-- C17 amended, at a concrete input: in the sample world with blend-in factor 0 the actor is
moved to the target location (100, 0, 0) plus the actor offset (10, 0, 0). -/
theorem C17_blend_endpoints_witness :
    ∃ Updated : AAlsCharacter,
      OnMantlingTimelineUpdated SampleLedgeEngine 0
        { MantlingState :=
            { Primitive := some 1, InterpolationAndCorrectionCurve := some 2,
              RelativeTransform := { Location := { X := 100 } },
              ActorOffset := { Location := { X := 10 } } } } = some Updated ∧
      Updated.ActorLocation = { X := 110 } := by
  obtain ⟨Updated, hUpdated, hLocation, _⟩ :=
    (C17_blend_endpoints SampleLedgeEngine
      { MantlingState :=
          { Primitive := some 1, InterpolationAndCorrectionCurve := some 2,
            RelativeTransform := { Location := { X := 100 } },
            ActorOffset := { Location := { X := 10 } } } }
      {} { GetVectorValue := fun _ => FVector.OneVector, MaxTime := 1 } rfl rfl).1
  refine ⟨Updated, hUpdated, ?_⟩
  rw [show Updated.ActorLocation = Updated.GetActorTransform.Location from rfl, hLocation]
  norm_num [SampleLedgeEngine, UAlsMath.AddTransforms, FVector.Add]

/-! ### The reference to the mantle target -/

/-- A target primitive that is not valid is dereferenced by `OnMantlingTimelineUpdated`. -/
theorem OnMantlingTimelineUpdated_invalid_primitive (Engine : FEngine) (BlendInTime : ℚ)
    (Character : AAlsCharacter)
    (hInvalid : Engine.ResolvePrimitive Character.MantlingState.Primitive = none) :
    OnMantlingTimelineUpdated Engine BlendInTime Character = none := by
  unfold OnMantlingTimelineUpdated
  simp only [hInvalid]

/-- A target primitive that is not valid is dereferenced by `StartMantling`. -/
theorem StartMantling_invalid_primitive (Engine : FEngine) (TargetPrimitive : FObjectPtr)
    (TargetLocation : FVector) (TargetRotation : FRotator) (MantlingHeight : ℚ)
    (MantlingType : EAlsMantlingType) (Character : AAlsCharacter)
    (hInvalid : Engine.ResolvePrimitive TargetPrimitive = none) :
    StartMantling Engine TargetPrimitive TargetLocation TargetRotation MantlingHeight
      MantlingType Character = none := by
  unfold StartMantling
  simp only [hInvalid]

/-- The component of a valid blocking, not walkable forward hit is dereferenced by
`TryStartMantling` before its validity is tested. -/
theorem TryStartMantling_invalid_component (Engine : FEngine)
    (TraceSettings : FAlsMantlingTraceSettings) (Character : AAlsCharacter)
    (hValid :
      (Character.MantlingForwardTraceHit Engine TraceSettings).IsValidBlockingHit = true)
    (hNotWalkable :
      Engine.IsWalkable (Character.MantlingForwardTraceHit Engine TraceSettings) = false)
    (hInvalid : Engine.ResolvePrimitive
      (Character.MantlingForwardTraceHit Engine TraceSettings).Component = none) :
    TryStartMantling Engine TraceSettings Character = none := by
  unfold TryStartMantling
  simp [hValid, hNotWalkable, hInvalid]

/-- C20, the code at the failing inputs: a character in the Mantling mode whose target
primitive (handle 1) has been destroyed, so that no component is alive in the world: the
timeline update dereferences the dead reference instead of ending the mantle; `StartMantling`
applied to a null target primitive, as a broadcast can deliver it, dereferences it; and
`TryStartMantling` dereferences the component of a blocking forward hit before testing its
validity. In each case the embedding yields `none`, the dereference of an invalid
reference. -/
theorem C20_invalid_reference_dereferenced :
    OnMantlingTimelineUpdated {} 0
      { LocomotionMode := EAlsLocomotionMode.Mantling,
        MovementMode := EMovementMode.MOVE_None,
        MantlingState := { Primitive := some 1, InterpolationAndCorrectionCurve := some 2 } } =
        none ∧
    StartMantling SampleLedgeEngine none { X := 65, Z := 125 } {} 125 EAlsMantlingType.Low {} =
      none ∧
    TryStartMantling { SweepSingleByChannel := fun _ _ _ => { bBlockingHit := true } } {} {} =
      none :=
  ⟨OnMantlingTimelineUpdated_invalid_primitive _ _ _ rfl,
    StartMantling_invalid_primitive _ _ _ _ _ _ _ rfl,
    TryStartMantling_invalid_component _ _ _ rfl rfl rfl⟩

/-! ### The ragdoll pull force -/

/-- One interpolation step toward 750 from a pull force between 0 and 750 stays between the
pull force and 750. -/
theorem FInterpTo_750_bounds (Current DeltaTime : ℚ)
    (hHigh : Current ≤ 750) :
    Current ≤ FMath.FInterpTo Current 750 DeltaTime (6 / 10) ∧
    FMath.FInterpTo Current 750 DeltaTime (6 / 10) ≤ 750 := by
  unfold FMath.FInterpTo
  rw [if_neg (by norm_num)]
  dsimp only
  split
  · exact ⟨hHigh, le_refl _⟩
  · have hClamp0 : 0 ≤ FMath.Clamp (DeltaTime * (6 / 10)) 0 1 := by
      unfold FMath.Clamp
      split
      · exact le_refl _
      · split
        · linarith
        · norm_num
    have hClamp1 : FMath.Clamp (DeltaTime * (6 / 10)) 0 1 ≤ 1 := by
      unfold FMath.Clamp
      split
      · norm_num
      · split
        · linarith
        · exact le_refl _
    have hDist : 0 ≤ 750 - Current := by linarith
    constructor
    · nlinarith [mul_nonneg hDist hClamp0]
    · nlinarith [mul_le_mul_of_nonneg_left hClamp1 hDist]

/-- Storing the ragdoll target location leaves the ragdolling state and the control of the
instance alone. -/
theorem SetRagdollTargetLocation_frame (NewLocation : FVector) (Character : AAlsCharacter) :
    (SetRagdollTargetLocation NewLocation Character).RagdollingState =
      Character.RagdollingState ∧
    (SetRagdollTargetLocation NewLocation Character).bLocallyControlled =
      Character.bLocallyControlled := by
  unfold SetRagdollTargetLocation
  split
  · dsimp only
    split <;> exact ⟨rfl, rfl⟩
  · exact ⟨rfl, rfl⟩

/-- The pull force after one `RefreshRagdollingActorTransform`, and the control of the
instance, which the refresh leaves alone. -/
theorem RefreshRagdollingActorTransform_PullForce (Engine : FEngine) (DeltaTime : ℚ)
    (Character : AAlsCharacter) :
    (RefreshRagdollingActorTransform Engine DeltaTime Character).RagdollingState.PullForce =
      (if Character.bLocallyControlled then Character.RagdollingState.PullForce
      else FMath.FInterpTo Character.RagdollingState.PullForce 750 DeltaTime (6 / 10)) ∧
    (RefreshRagdollingActorTransform Engine DeltaTime Character).bLocallyControlled =
      Character.bLocallyControlled := by
  unfold RefreshRagdollingActorTransform
  cases hLocal : Character.bLocallyControlled
  · simp [SetActorLocationAndRotation, Invoke, hLocal]
    constructor <;> split <;> rfl
  · simp [SetActorLocationAndRotation, Invoke, hLocal, SetRagdollTargetLocation_frame]

/-- Clearing the movement mode leaves the ragdolling state alone. -/
theorem SetMovementMode_None_RagdollingState (Character : AAlsCharacter) :
    (SetMovementMode EMovementMode.MOVE_None Character).RagdollingState =
      Character.RagdollingState := by
  rw [SetMovementMode]
  split
  · rfl
  · rw [OnMovementModeChanged]
    rfl

/-- Entering Ragdolling leaves the ragdolling state alone. -/
theorem SetLocomotionMode_Ragdolling_RagdollingState (Character : AAlsCharacter) :
    (SetLocomotionMode EAlsLocomotionMode.Ragdolling Character).RagdollingState =
      Character.RagdollingState := by
  rw [SetLocomotionMode]
  split
  · rfl
  · rw [NotifyLocomotionModeChanged]
    simp only [reduceCtorEq, if_false, true_and, dite_false]
    split <;> rfl

/-- Engaging the ragdoll resets the pull force. -/
theorem StartRagdollingImplementation_PullForce (Character : AAlsCharacter) :
    (StartRagdollingImplementation Character).RagdollingState.PullForce = 0 := by
  rw [StartRagdollingImplementation]
  simp only [Invoke, SetLocomotionMode_Ragdolling_RagdollingState,
    SetMovementMode_None_RagdollingState]
  repeat' split
  all_goals rfl

/-- Along a run of ragdoll refreshes on an instance that is not locally controlled, every pull
force lies between the initial one and 750, and the pull forces never decrease. -/
theorem RagdollingPullForces_monotone (Ticks : List (FEngine × ℚ)) :
    ∀ Character : AAlsCharacter, Character.bLocallyControlled = false →
      Character.RagdollingState.PullForce ≤ 750 →
      (∀ Force ∈ RagdollingPullForces Ticks Character,
        Character.RagdollingState.PullForce ≤ Force ∧ Force ≤ 750) ∧
      (RagdollingPullForces Ticks Character).Pairwise (fun Earlier Later => Earlier ≤ Later) := by
  induction Ticks with
  | nil =>
    intro Character _ hHigh
    simp [RagdollingPullForces, hHigh]
  | cons Tick Ticks ih =>
    intro Character hRemote hHigh
    obtain ⟨Engine, DeltaTime⟩ := Tick
    have hStep := RefreshRagdollingActorTransform_PullForce Engine DeltaTime Character
    rw [hRemote] at hStep
    simp only [Bool.false_eq_true, if_false] at hStep
    have hBounds := FInterpTo_750_bounds Character.RagdollingState.PullForce DeltaTime hHigh
    rw [← hStep.1] at hBounds
    obtain ⟨hAll, hSorted⟩ := ih _ hStep.2 hBounds.2
    simp only [RagdollingPullForces, List.mem_cons, List.pairwise_cons]
    refine ⟨?_, ?_, hSorted⟩
    · rintro Force (rfl | hMem)
      · exact ⟨le_refl _, hHigh⟩
      · exact ⟨le_trans hBounds.1 (hAll Force hMem).1, (hAll Force hMem).2⟩
    · intro Force hMem
      exact le_trans hBounds.1 (hAll Force hMem).1

/-- C18: ragdoll engagement sets the pull force to 0; one `RefreshRagdollingActorTransform` on
an instance that is not locally controlled takes a pull force p of at most 750 to a pull
force between p and 750, namely 750 once the squared distance to 750 is below the snap
tolerance and p + (750 - p) * clamp(0.6 * DeltaTime, 0, 1) otherwise; hence along every run of
such refreshes the pull forces never decrease and never exceed 750; on a locally controlled
instance the refresh leaves the pull force unchanged. -/
theorem C18_pull_force (Engine : FEngine) (DeltaTime : ℚ) (Character : AAlsCharacter)
    (Ticks : List (FEngine × ℚ))
    (hHigh : Character.RagdollingState.PullForce ≤ 750) :
    (StartRagdollingImplementation Character).RagdollingState.PullForce = 0 ∧
    (Character.bLocallyControlled = false →
      Character.RagdollingState.PullForce ≤
        (RefreshRagdollingActorTransform Engine DeltaTime Character).RagdollingState.PullForce ∧
      (RefreshRagdollingActorTransform Engine DeltaTime Character).RagdollingState.PullForce ≤
        750 ∧
      (RefreshRagdollingActorTransform Engine DeltaTime Character).RagdollingState.PullForce =
        (if (750 - Character.RagdollingState.PullForce) *
            (750 - Character.RagdollingState.PullForce) < SMALL_NUMBER then 750
         else Character.RagdollingState.PullForce +
          (750 - Character.RagdollingState.PullForce) *
            FMath.Clamp (DeltaTime * (6 / 10)) 0 1) ∧
      (∀ Force ∈ RagdollingPullForces Ticks Character,
        Character.RagdollingState.PullForce ≤ Force ∧ Force ≤ 750) ∧
      (RagdollingPullForces Ticks Character).Pairwise (fun Earlier Later => Earlier ≤ Later)) ∧
    (Character.bLocallyControlled = true →
      (RefreshRagdollingActorTransform Engine DeltaTime Character).RagdollingState.PullForce =
        Character.RagdollingState.PullForce) := by
  refine ⟨StartRagdollingImplementation_PullForce Character, ?_, ?_⟩
  · intro hRemote
    have hStep := (RefreshRagdollingActorTransform_PullForce Engine DeltaTime Character).1
    rw [hRemote] at hStep
    simp only [Bool.false_eq_true, if_false] at hStep
    have hBounds := FInterpTo_750_bounds Character.RagdollingState.PullForce DeltaTime hHigh
    rw [hStep]
    refine ⟨hBounds.1, hBounds.2, ?_, RagdollingPullForces_monotone Ticks Character hRemote hHigh⟩
    unfold FMath.FInterpTo
    rw [if_neg (by norm_num)]
  · intro hLocal
    have hStep := (RefreshRagdollingActorTransform_PullForce Engine DeltaTime Character).1
    rw [hLocal] at hStep
    simpa using hStep

/-- C18 at a concrete input: from the pull force 0 after engagement, one refresh of one second
on an instance that is not locally controlled gives the pull force 450, and a second one
630. -/
theorem C18_pull_force_witness :
    RagdollingPullForces [({}, 1), ({}, 1)] { bLocallyControlled := false } = [0, 450, 630] ∧
    (RagdollingPullForces [({}, 1), ({}, 1)] { bLocallyControlled := false }).Pairwise
      (fun Earlier Later => Earlier ≤ Later) :=
  ⟨by
    norm_num [RagdollingPullForces, RefreshRagdollingActorTransform, FMath.FInterpTo,
      FMath.Clamp, SMALL_NUMBER, SetActorLocationAndRotation, Invoke, FVector2D.SizeSquared,
      FHitResult.IsValidBlockingHit, Binary32.Add, Binary32.Mul, Binary32.Round_zero],
   ((C18_pull_force {} 1 { bLocallyControlled := false } [({}, 1), ({}, 1)]
      (by norm_num)).2.1 rfl).2.2.2.2⟩

/-! ### Mantle detection in the tick -/

/-- Recording a call that is no mantling call leaves the mantling calls, the mantling state,
the locomotion mode and the mantling settings alone. -/
theorem Invoke_mantling_frame (Character : AAlsCharacter) (Call : EngineCall)
    (hCall : IsMantlingCall Call = false) :
    (Character.Invoke Call).Calls.filter IsMantlingCall =
        Character.Calls.filter IsMantlingCall ∧
      (Character.Invoke Call).MantlingState = Character.MantlingState ∧
      (Character.Invoke Call).LocomotionMode = Character.LocomotionMode ∧
      (Character.Invoke Call).GeneralMantlingSettings = Character.GeneralMantlingSettings := by
  simp [Invoke, List.filter_append, hCall]

/-- Refreshing the rotation mode makes no mantle attempt. -/
theorem RefreshRotationMode_mantling_frame (Character : AAlsCharacter) :
    (RefreshRotationMode Character).Calls.filter IsMantlingCall =
        Character.Calls.filter IsMantlingCall ∧
      (RefreshRotationMode Character).MantlingState = Character.MantlingState ∧
      (RefreshRotationMode Character).LocomotionMode = Character.LocomotionMode ∧
      (RefreshRotationMode Character).GeneralMantlingSettings =
        Character.GeneralMantlingSettings := by
  simp only [RefreshRotationMode, SetRotationMode, apply_ite AAlsCharacter.Calls, apply_ite AAlsCharacter.MantlingState,
    apply_ite AAlsCharacter.LocomotionMode, apply_ite AAlsCharacter.GeneralMantlingSettings,
    Invoke, ite_self]
  refine ⟨?_, trivial, trivial, trivial⟩
  split_ifs <;> simp [IsMantlingCall]

/-- Refreshing the locomotion kinematics makes no mantle attempt. -/
theorem RefreshLocomotion_mantling_frame (Engine : FEngine) (DeltaTime : ℚ)
    (Character : AAlsCharacter) :
    (RefreshLocomotion Engine DeltaTime Character).Calls.filter IsMantlingCall =
        Character.Calls.filter IsMantlingCall ∧
      (RefreshLocomotion Engine DeltaTime Character).MantlingState = Character.MantlingState ∧
      (RefreshLocomotion Engine DeltaTime Character).LocomotionMode = Character.LocomotionMode ∧
      (RefreshLocomotion Engine DeltaTime Character).GeneralMantlingSettings =
        Character.GeneralMantlingSettings := by
  simp only [RefreshLocomotion, SetInputAcceleration, apply_ite AAlsCharacter.Calls, apply_ite AAlsCharacter.MantlingState,
    apply_ite AAlsCharacter.LocomotionMode, apply_ite AAlsCharacter.GeneralMantlingSettings,
    Invoke, ite_self]
  refine ⟨?_, trivial, trivial, trivial⟩
  split_ifs <;> simp [IsMantlingCall]

/-- Refreshing the aiming makes no mantle attempt. -/
theorem RefreshAiming_mantling_frame (Engine : FEngine) (DeltaTime : ℚ)
    (Character : AAlsCharacter) :
    (RefreshAiming Engine DeltaTime Character).Calls.filter IsMantlingCall =
        Character.Calls.filter IsMantlingCall ∧
      (RefreshAiming Engine DeltaTime Character).MantlingState = Character.MantlingState ∧
      (RefreshAiming Engine DeltaTime Character).LocomotionMode = Character.LocomotionMode ∧
      (RefreshAiming Engine DeltaTime Character).GeneralMantlingSettings =
        Character.GeneralMantlingSettings := by
  simp only [RefreshAiming, SetAimingRotation, apply_ite AAlsCharacter.Calls, apply_ite AAlsCharacter.MantlingState,
    apply_ite AAlsCharacter.LocomotionMode, apply_ite AAlsCharacter.GeneralMantlingSettings,
    Invoke, ite_self]
  refine ⟨?_, trivial, trivial, trivial⟩
  split_ifs <;> simp [IsMantlingCall]

/-- Turning the actor records no call and leaves the mantling state, the locomotion mode and
the mantling settings alone. -/
theorem RefreshActorRotation_mantling_frame (Engine : FEngine)
    (TargetYawAngle DeltaTime RotationSpeed : ℚ) (Character : AAlsCharacter) :
    (RefreshActorRotation Engine TargetYawAngle DeltaTime RotationSpeed Character).Calls =
        Character.Calls ∧
      (RefreshActorRotation Engine TargetYawAngle DeltaTime RotationSpeed
        Character).MantlingState = Character.MantlingState ∧
      (RefreshActorRotation Engine TargetYawAngle DeltaTime RotationSpeed
        Character).LocomotionMode = Character.LocomotionMode ∧
      (RefreshActorRotation Engine TargetYawAngle DeltaTime RotationSpeed
        Character).GeneralMantlingSettings = Character.GeneralMantlingSettings :=
  ⟨rfl, rfl, rfl, rfl⟩

/-- Turning the actor extra smoothly records no call and leaves the mantling state, the
locomotion mode and the mantling settings alone. -/
theorem RefreshActorRotationExtraSmooth_mantling_frame (Engine : FEngine)
    (TargetYawAngle DeltaTime TargetRotationSpeed ActorRotationSpeed : ℚ)
    (Character : AAlsCharacter) :
    (RefreshActorRotationExtraSmooth Engine TargetYawAngle DeltaTime TargetRotationSpeed
        ActorRotationSpeed Character).Calls = Character.Calls ∧
      (RefreshActorRotationExtraSmooth Engine TargetYawAngle DeltaTime TargetRotationSpeed
        ActorRotationSpeed Character).MantlingState = Character.MantlingState ∧
      (RefreshActorRotationExtraSmooth Engine TargetYawAngle DeltaTime TargetRotationSpeed
        ActorRotationSpeed Character).LocomotionMode = Character.LocomotionMode ∧
      (RefreshActorRotationExtraSmooth Engine TargetYawAngle DeltaTime TargetRotationSpeed
        ActorRotationSpeed Character).GeneralMantlingSettings =
        Character.GeneralMantlingSettings :=
  ⟨rfl, rfl, rfl, rfl⟩

/-- Keeping the actor near the aim records no call and leaves the mantling state, the
locomotion mode and the mantling settings alone. -/
theorem RefreshAimingActorRotation_mantling_frame (Engine : FEngine) (DeltaTime : ℚ)
    (Character : AAlsCharacter) :
    (RefreshAimingActorRotation Engine DeltaTime Character).Calls = Character.Calls ∧
      (RefreshAimingActorRotation Engine DeltaTime Character).MantlingState =
        Character.MantlingState ∧
      (RefreshAimingActorRotation Engine DeltaTime Character).LocomotionMode =
        Character.LocomotionMode ∧
      (RefreshAimingActorRotation Engine DeltaTime Character).GeneralMantlingSettings =
        Character.GeneralMantlingSettings := by
  unfold RefreshAimingActorRotation
  dsimp only
  split
  · exact RefreshActorRotation_mantling_frame _ _ _ _ _
  · exact ⟨rfl, rfl, rfl, rfl⟩

/-- Refreshing the actor rotation in the air records no call and leaves the mantling state,
the locomotion mode and the mantling settings alone. -/
theorem RefreshInAirActorRotation_mantling_frame (Engine : FEngine) (DeltaTime : ℚ)
    (Character : AAlsCharacter) :
    (RefreshInAirActorRotation Engine DeltaTime Character).Calls = Character.Calls ∧
      (RefreshInAirActorRotation Engine DeltaTime Character).MantlingState =
        Character.MantlingState ∧
      (RefreshInAirActorRotation Engine DeltaTime Character).LocomotionMode =
        Character.LocomotionMode ∧
      (RefreshInAirActorRotation Engine DeltaTime Character).GeneralMantlingSettings =
        Character.GeneralMantlingSettings := by
  unfold RefreshInAirActorRotation
  split
  · exact RefreshActorRotation_mantling_frame _ _ _ _ _
  · split
    · exact RefreshActorRotation_mantling_frame _ _ _ _ _
    · exact RefreshActorRotation_mantling_frame _ _ _ _ _
    · exact ⟨rfl, rfl, rfl, rfl⟩

/-- Refreshing the actor rotation on the ground records no call and leaves the mantling
state, the locomotion mode and the mantling settings alone. -/
theorem RefreshGroundedActorRotation_mantling_frame (Engine : FEngine) (DeltaTime : ℚ)
    (GaitSettings : FAlsMovementGaitSettings) (Character Refreshed : AAlsCharacter)
    (hRefreshed :
      RefreshGroundedActorRotation Engine DeltaTime GaitSettings Character = some Refreshed) :
    Refreshed.Calls = Character.Calls ∧
      Refreshed.MantlingState = Character.MantlingState ∧
      Refreshed.LocomotionMode = Character.LocomotionMode ∧
      Refreshed.GeneralMantlingSettings = Character.GeneralMantlingSettings := by
  unfold RefreshGroundedActorRotation at hRefreshed
  split at hRefreshed
  · cases hRefreshed
    split
    · exact RefreshActorRotation_mantling_frame _ _ _ _ _
    · exact RefreshActorRotation_mantling_frame _ _ _ _ _
  · split at hRefreshed
    · cases hRefreshed
      exact ⟨rfl, rfl, rfl, rfl⟩
    · split at hRefreshed
      · split at hRefreshed
        · split at hRefreshed
          · exact absurd hRefreshed (by simp)
          · cases hRefreshed
            exact RefreshActorRotationExtraSmooth_mantling_frame _ _ _ _ _ _
        · dsimp only at hRefreshed
          split at hRefreshed
          · exact absurd hRefreshed (by simp)
          · cases hRefreshed
            exact RefreshActorRotationExtraSmooth_mantling_frame _ _ _ _ _ _
        · cases hRefreshed
          exact RefreshActorRotationExtraSmooth_mantling_frame _ _ _ _ _ _
      · dsimp only at hRefreshed
        generalize hAimedEq :
          (if Character.RotationMode = EAlsRotationMode.Aiming then
            if Character.LocomotionState.bHasInputAcceleration then
              RefreshActorRotationExtraSmooth Engine Character.AimingState.SmoothRotationYaw
                DeltaTime 1000 20 Character
            else
              RefreshAimingActorRotation Engine DeltaTime Character
          else
            Character) = Aimed at hRefreshed
        have hAimed : Aimed.Calls = Character.Calls ∧
            Aimed.MantlingState = Character.MantlingState ∧
            Aimed.LocomotionMode = Character.LocomotionMode ∧
            Aimed.GeneralMantlingSettings = Character.GeneralMantlingSettings := by
          subst hAimedEq
          split
          · split
            · exact RefreshActorRotationExtraSmooth_mantling_frame _ _ _ _ _ _
            · exact RefreshAimingActorRotation_mantling_frame _ _ _
          · exact ⟨rfl, rfl, rfl, rfl⟩
        obtain ⟨hCalls, hState, hMode, hSettings⟩ := hAimed
        split at hRefreshed
        · cases hRefreshed
          exact ⟨hCalls, hState, hMode, hSettings⟩
        · cases hRefreshed
          split
          · exact ⟨hCalls, hState, hMode, hSettings⟩
          · exact ⟨hCalls, hState, hMode, hSettings⟩

/-- Switching the gait makes no mantle attempt. -/
theorem SetGait_mantling_frame (NewGait : EAlsGait) (Character : AAlsCharacter) :
    (SetGait NewGait Character).Calls.filter IsMantlingCall =
        Character.Calls.filter IsMantlingCall ∧
      (SetGait NewGait Character).MantlingState = Character.MantlingState ∧
      (SetGait NewGait Character).LocomotionMode = Character.LocomotionMode ∧
      (SetGait NewGait Character).GeneralMantlingSettings =
        Character.GeneralMantlingSettings := by
  unfold SetGait
  split
  · exact Invoke_mantling_frame _ _ rfl
  · exact ⟨rfl, rfl, rfl, rfl⟩

/-- Pushing the top speed makes no mantle attempt. -/
theorem SetCustomMaxWalkSpeed_mantling_frame (NewMaxWalkSpeed : ℚ)
    (Character : AAlsCharacter) :
    (SetCustomMaxWalkSpeed NewMaxWalkSpeed Character).Calls.filter IsMantlingCall =
        Character.Calls.filter IsMantlingCall ∧
      (SetCustomMaxWalkSpeed NewMaxWalkSpeed Character).MantlingState =
        Character.MantlingState ∧
      (SetCustomMaxWalkSpeed NewMaxWalkSpeed Character).LocomotionMode =
        Character.LocomotionMode ∧
      (SetCustomMaxWalkSpeed NewMaxWalkSpeed Character).GeneralMantlingSettings =
        Character.GeneralMantlingSettings :=
  Invoke_mantling_frame _ _ rfl

/-- Refreshing the gait makes no mantle attempt. -/
theorem RefreshGait_mantling_frame (Engine : FEngine) (GaitSettings : FAlsMovementGaitSettings)
    (Character Refreshed : AAlsCharacter)
    (hRefreshed : RefreshGait Engine GaitSettings Character = some Refreshed) :
    Refreshed.Calls.filter IsMantlingCall = Character.Calls.filter IsMantlingCall ∧
      Refreshed.MantlingState = Character.MantlingState ∧
      Refreshed.LocomotionMode = Character.LocomotionMode ∧
      Refreshed.GeneralMantlingSettings = Character.GeneralMantlingSettings := by
  obtain ⟨hCalls, hState, hMode, hSettings⟩ :=
    SetGait_mantling_frame
      (Character.CalculateActualGait Character.CalculateMaxAllowedGait GaitSettings) Character
  unfold RefreshGait at hRefreshed
  dsimp only at hRefreshed
  split at hRefreshed
  · cases hRefreshed
    unfold RefreshGaitSettingsNetworked
    dsimp only
    split
    · split
      · obtain ⟨hCalls2, hState2, hMode2, hSettings2⟩ :=
          SetCustomMaxWalkSpeed_mantling_frame
            (GaitSettings.GetSpeedForGait Character.CalculateMaxAllowedGait)
            (SetGait
              (Character.CalculateActualGait Character.CalculateMaxAllowedGait GaitSettings)
              Character)
        exact ⟨hCalls2.trans hCalls, hState2.trans hState, hMode2.trans hMode,
          hSettings2.trans hSettings⟩
      · exact ⟨hCalls, hState, hMode, hSettings⟩
    · exact ⟨hCalls, hState, hMode, hSettings⟩
  · unfold RefreshGaitSettingsStandalone at hRefreshed
    dsimp only at hRefreshed
    split at hRefreshed
    · exact absurd hRefreshed (by simp)
    · cases hRefreshed
      obtain ⟨hCalls2, hState2, hMode2, hSettings2⟩ :=
        SetCustomMaxWalkSpeed_mantling_frame
          (GaitSettings.GetSpeedForGait Character.CalculateMaxAllowedGait)
          (SetGait
            (Character.CalculateActualGait Character.CalculateMaxAllowedGait GaitSettings)
            Character)
      exact ⟨hCalls2.trans hCalls, hState2.trans hState, hMode2.trans hMode,
        hSettings2.trans hSettings⟩

/-- Storing the ragdoll target location makes no mantle attempt. -/
theorem SetRagdollTargetLocation_mantling_frame (NewLocation : FVector)
    (Character : AAlsCharacter) :
    (SetRagdollTargetLocation NewLocation Character).Calls.filter IsMantlingCall =
        Character.Calls.filter IsMantlingCall ∧
      (SetRagdollTargetLocation NewLocation Character).MantlingState =
        Character.MantlingState ∧
      (SetRagdollTargetLocation NewLocation Character).LocomotionMode =
        Character.LocomotionMode ∧
      (SetRagdollTargetLocation NewLocation Character).GeneralMantlingSettings =
        Character.GeneralMantlingSettings := by
  unfold SetRagdollTargetLocation
  split
  · dsimp only
    split <;> simp [Invoke, List.filter_append, IsMantlingCall]
  · exact ⟨rfl, rfl, rfl, rfl⟩

/-- Reconciling the actor with the ragdoll makes no mantle attempt. -/
theorem RefreshRagdollingActorTransform_mantling_frame (Engine : FEngine) (DeltaTime : ℚ)
    (Character : AAlsCharacter) :
    (RefreshRagdollingActorTransform Engine DeltaTime Character).Calls.filter IsMantlingCall =
        Character.Calls.filter IsMantlingCall ∧
      (RefreshRagdollingActorTransform Engine DeltaTime Character).MantlingState =
        Character.MantlingState ∧
      (RefreshRagdollingActorTransform Engine DeltaTime Character).LocomotionMode =
        Character.LocomotionMode ∧
      (RefreshRagdollingActorTransform Engine DeltaTime Character).GeneralMantlingSettings =
        Character.GeneralMantlingSettings := by
  unfold RefreshRagdollingActorTransform
  cases hLocal : Character.bLocallyControlled
  · simp only [SetActorLocationAndRotation, Invoke, hLocal, apply_ite AAlsCharacter.Calls,
      apply_ite AAlsCharacter.MantlingState, apply_ite AAlsCharacter.LocomotionMode,
      apply_ite AAlsCharacter.GeneralMantlingSettings, ite_self, Bool.false_eq_true, if_false,
      Bool.not_false, if_true]
    refine ⟨?_, trivial, trivial, trivial⟩
    split_ifs <;> simp [IsMantlingCall]
  · have hFrame := SetRagdollTargetLocation_frame Character.PelvisLocation Character
    simp only [SetActorLocationAndRotation, Invoke, hLocal, hFrame.2,
      apply_ite AAlsCharacter.Calls,
      apply_ite AAlsCharacter.MantlingState, apply_ite AAlsCharacter.LocomotionMode,
      apply_ite AAlsCharacter.GeneralMantlingSettings, ite_self, if_true,
      Bool.not_true, Bool.false_eq_true, if_false,
      SetRagdollTargetLocation_mantling_frame]
    simp [IsMantlingCall, SetRagdollTargetLocation_mantling_frame]

/-- Refreshing the ragdoll makes no mantle attempt. -/
theorem RefreshRagdolling_mantling_frame (Engine : FEngine) (DeltaTime : ℚ)
    (Character : AAlsCharacter) :
    (RefreshRagdolling Engine DeltaTime Character).Calls.filter IsMantlingCall =
        Character.Calls.filter IsMantlingCall ∧
      (RefreshRagdolling Engine DeltaTime Character).MantlingState = Character.MantlingState ∧
      (RefreshRagdolling Engine DeltaTime Character).LocomotionMode =
        Character.LocomotionMode ∧
      (RefreshRagdolling Engine DeltaTime Character).GeneralMantlingSettings =
        Character.GeneralMantlingSettings := by
  simp only [RefreshRagdolling, RefreshRagdollingActorTransform_mantling_frame]
  simp [Invoke, IsMantlingCall]

/-- The refreshes with which every tick begins make no mantle attempt. -/
theorem TickRefreshes_mantling_frame (Engine : FEngine) (DeltaTime : ℚ)
    (Character : AAlsCharacter) :
    (RefreshAiming Engine DeltaTime (RefreshLocomotion Engine DeltaTime
        (RefreshRotationMode (Character.Invoke (.SuperTick DeltaTime))))).Calls.filter
          IsMantlingCall = Character.Calls.filter IsMantlingCall ∧
      (RefreshAiming Engine DeltaTime (RefreshLocomotion Engine DeltaTime
        (RefreshRotationMode (Character.Invoke (.SuperTick DeltaTime))))).MantlingState =
          Character.MantlingState ∧
      (RefreshAiming Engine DeltaTime (RefreshLocomotion Engine DeltaTime
        (RefreshRotationMode (Character.Invoke (.SuperTick DeltaTime))))).LocomotionMode =
          Character.LocomotionMode ∧
      (RefreshAiming Engine DeltaTime (RefreshLocomotion Engine DeltaTime
        (RefreshRotationMode
          (Character.Invoke (.SuperTick DeltaTime))))).GeneralMantlingSettings =
          Character.GeneralMantlingSettings := by
  simp only [RefreshAiming_mantling_frame, RefreshLocomotion_mantling_frame,
    RefreshRotationMode_mantling_frame]
  exact Invoke_mantling_frame _ _ rfl

/-- One tick of a standing grounded character facing a ledge, with network optimisations on:
the tick returns and records the tick of the engine and nothing else. -/
theorem Tick_grounded_before_ledge :
    Tick SampleLedgeEngine 1
        { LocomotionMode := .Grounded, bEnableNetworkOptimizations := true,
          CapsuleHalfHeight := 90 } =
      some { LocomotionMode := .Grounded, bEnableNetworkOptimizations := true,
             CapsuleHalfHeight := 90, Calls := [EngineCall.SuperTick 1] } := by
  norm_num [Tick, RefreshRotationMode, SetRotationMode, RefreshLocomotion,
    SetInputAcceleration, RefreshAiming, SetAimingRotation, GetSmoothRotation,
    GetGaitSettings, RefreshGait, SetGait, RefreshGaitSettingsNetworked,
    RefreshGroundedActorRotation, Invoke, SampleLedgeEngine, CalculateMaxAllowedGait,
    CalculateActualGait, CanSprint, ENetRole.rank, HasAuthority,
    FAlsMovementGaitSettings.GetSpeedForGait, FVector.Sub, FVector.Div, FVector.SizeSquared,
    KINDA_SMALL_NUMBER, SMALL_NUMBER, Binary32.Add, Binary32.Sub, Binary32.Mul,
    Binary32.Round_ofNat, Binary32.Round_zero]
  simp

/-- C19, as stated, fails on the ground: in a world where a ledge stands in front of the
character, one tick of a grounded character with no action records the tick of the engine and
nothing else, so no probe of the mantle detection is made and the mode stays Grounded,
although a grounded mantle attempt on the state the tick leaves would have succeeded. -/
theorem C19_grounded_tick_counterexample :
    (Tick SampleLedgeEngine 1
        { LocomotionMode := .Grounded, bEnableNetworkOptimizations := true,
          CapsuleHalfHeight := 90 }).map (fun Ticked => (Ticked.Calls, Ticked.LocomotionMode)) =
      some ([EngineCall.SuperTick 1], EAlsLocomotionMode.Grounded) ∧
    ((Tick SampleLedgeEngine 1
        { LocomotionMode := .Grounded, bEnableNetworkOptimizations := true,
          CapsuleHalfHeight := 90 }).bind (TryStartMantlingGrounded SampleLedgeEngine)).map
        Prod.fst = some true := by
  have hLedge : (33 : ℚ) + 90 = 123 := by norm_num
  have hStand : (123 : ℚ) + 2 = 125 := by norm_num
  rw [Tick_grounded_before_ledge]
  refine ⟨rfl, ?_⟩
  rw [Option.some_bind]
  simp [TryStartMantlingGrounded, TryStartMantling, SampleLedgeEngine, MantlingForwardTraceHit,
    MantlingDownwardTraceHit, MantlingSweepTestLocation, MantlingForwardTraceShape,
    FHitResult.IsValidBlockingHit, FEngine.ResolvePrimitive, FEngine.ResolveVectorCurve,
    FVector.SizeSquared, FMath.Square, StartMantling, ServerStartMantling,
    MulticastStartMantling_Implementation, HasAuthority, Invoke, SetMovementMode,
    OnMovementModeChanged, SetLocomotionMode, NotifyLocomotionModeChanged,
    FEngine.IsValidMontage, Binary32.Add, Binary32.Sub, Binary32.Mul, Binary32.Round_ofNat,
    Binary32.Round_zero, hLedge, hStand]

/-- C19, amended: a tick attempts the mantle detection exactly in the InAir mode. When the
locomotion mode is InAir, one call of `Tick` is the refreshes of the rotation mode, the
locomotion and the aiming, the refresh of the in-air rotation, none of which makes a mantle
attempt or changes the mantling settings, then `TryStartMantling` with the in-air trace
settings of the character, then the bookkeeping of the previous velocity and yaw. When the
locomotion mode is Grounded, Mantling or Ragdolling, a tick that returns records no mantling
call (no detection probe, no start of a mantle) and leaves the mantling state and the
locomotion mode as they were; while Mantling or Ragdolling the tick always returns. -/
theorem C19_Tick_mantling_attempt (Engine : FEngine) (DeltaTime : ℚ)
    (Character : AAlsCharacter) :
    (Character.LocomotionMode = EAlsLocomotionMode.InAir →
      ∃ Refreshed : AAlsCharacter,
        Refreshed =
          RefreshInAirActorRotation Engine DeltaTime
            (RefreshAiming Engine DeltaTime (RefreshLocomotion Engine DeltaTime
              (RefreshRotationMode (Character.Invoke (.SuperTick DeltaTime))))) ∧
        Refreshed.Calls.filter IsMantlingCall = Character.Calls.filter IsMantlingCall ∧
        Refreshed.GeneralMantlingSettings = Character.GeneralMantlingSettings ∧
        Tick Engine DeltaTime Character =
          (TryStartMantling Engine Character.GeneralMantlingSettings.InAirTrace Refreshed).map
            (fun Result =>
              { Result.2 with
                LocomotionState :=
                  { Result.2.LocomotionState with
                    PreviousVelocity := Result.2.LocomotionState.Velocity }
                AimingState :=
                  { Result.2.AimingState with
                    PreviousSmoothYawAngle := Result.2.AimingState.SmoothRotationYaw } })) ∧
    (Character.LocomotionMode ≠ EAlsLocomotionMode.InAir →
      ∀ Ticked : AAlsCharacter, Tick Engine DeltaTime Character = some Ticked →
        Ticked.Calls.filter IsMantlingCall = Character.Calls.filter IsMantlingCall ∧
        Ticked.MantlingState = Character.MantlingState ∧
        Ticked.LocomotionMode = Character.LocomotionMode) ∧
    (Character.LocomotionMode = EAlsLocomotionMode.Mantling ∨
        Character.LocomotionMode = EAlsLocomotionMode.Ragdolling →
      (Tick Engine DeltaTime Character).isSome = true) := by
  obtain ⟨hCalls, hState, hMode, hSettings⟩ :=
    TickRefreshes_mantling_frame Engine DeltaTime Character
  unfold Tick
  dsimp only
  generalize RefreshAiming Engine DeltaTime (RefreshLocomotion Engine DeltaTime
    (RefreshRotationMode (Character.Invoke (.SuperTick DeltaTime)))) = Begun at *
  refine ⟨?_, ?_, ?_⟩
  · intro hInAir
    obtain ⟨hCalls2, -, -, hSettings2⟩ :=
      RefreshInAirActorRotation_mantling_frame Engine DeltaTime Begun
    refine ⟨_, rfl, by rw [hCalls2, hCalls], hSettings2.trans hSettings, ?_⟩
    rw [hMode, hInAir]
    dsimp only
    unfold TryStartMantlingInAir
    rw [hSettings2, hSettings]
    cases TryStartMantling Engine Character.GeneralMantlingSettings.InAirTrace
      (RefreshInAirActorRotation Engine DeltaTime Begun) <;> rfl
  · intro hNotInAir Ticked hTicked
    rw [hMode] at hTicked
    cases hLocomotionMode : Character.LocomotionMode
    · rw [hLocomotionMode] at hTicked
      dsimp only at hTicked
      cases hGait : RefreshGait Engine (Begun.GetGaitSettings Engine) Begun with
      | none => rw [hGait] at hTicked; exact absurd hTicked (by simp)
      | some Gaited =>
        rw [hGait] at hTicked
        dsimp only at hTicked
        cases hRotation : RefreshGroundedActorRotation Engine DeltaTime
            (Begun.GetGaitSettings Engine) Gaited with
        | none => rw [hRotation] at hTicked; exact absurd hTicked (by simp)
        | some Rotated =>
          rw [hRotation] at hTicked
          cases hTicked
          obtain ⟨hCalls2, hState2, hMode2, -⟩ := RefreshGait_mantling_frame _ _ _ _ hGait
          obtain ⟨hCalls3, hState3, hMode3, -⟩ :=
            RefreshGroundedActorRotation_mantling_frame _ _ _ _ _ hRotation
          refine ⟨?_, ?_, ?_⟩
          · show Rotated.Calls.filter IsMantlingCall = _
            rw [hCalls3, hCalls2, hCalls]
          · show Rotated.MantlingState = _
            rw [hState3, hState2, hState]
          · show Rotated.LocomotionMode = _
            rw [hMode3, hMode2, hMode, hLocomotionMode]
    · exact absurd hLocomotionMode hNotInAir
    · rw [hLocomotionMode] at hTicked
      cases hTicked
      exact ⟨hCalls, hState, hMode.trans hLocomotionMode⟩
    · rw [hLocomotionMode] at hTicked
      cases hTicked
      obtain ⟨hCalls2, hState2, hMode2, -⟩ :=
        RefreshRagdolling_mantling_frame Engine DeltaTime Begun
      refine ⟨?_, ?_, ?_⟩
      · show (RefreshRagdolling Engine DeltaTime Begun).Calls.filter IsMantlingCall = _
        rw [hCalls2, hCalls]
      · show (RefreshRagdolling Engine DeltaTime Begun).MantlingState = _
        rw [hState2, hState]
      · show (RefreshRagdolling Engine DeltaTime Begun).LocomotionMode = _
        rw [hMode2, hMode, hLocomotionMode]
  · intro hModes
    rw [hMode]
    rcases hModes with hModes | hModes <;> rw [hModes] <;> rfl

/-- C19, amended, at work: in the air before the ledge the tick is the mantle attempt with the
in-air trace settings on the refreshed state; on the ground before the ledge the tick returns
with no mantling call recorded; while mantling the tick returns. -/
theorem C19_Tick_mantling_attempt_witness :
    (∃ Refreshed : AAlsCharacter,
      Refreshed.Calls.filter IsMantlingCall = [] ∧
      Tick SampleLedgeEngine 1 { LocomotionMode := .InAir, CapsuleHalfHeight := 90 } =
        (TryStartMantling SampleLedgeEngine {} Refreshed).map
          (fun Result =>
            { Result.2 with
              LocomotionState :=
                { Result.2.LocomotionState with
                  PreviousVelocity := Result.2.LocomotionState.Velocity }
              AimingState :=
                { Result.2.AimingState with
                  PreviousSmoothYawAngle := Result.2.AimingState.SmoothRotationYaw } })) ∧
    (∃ Ticked : AAlsCharacter,
      Tick SampleLedgeEngine 1
        { LocomotionMode := .Grounded, bEnableNetworkOptimizations := true,
          CapsuleHalfHeight := 90 } = some Ticked ∧
      Ticked.Calls.filter IsMantlingCall = [] ∧
      Ticked.LocomotionMode = EAlsLocomotionMode.Grounded) ∧
    (Tick SampleLedgeEngine 1 { LocomotionMode := .Mantling }).isSome = true := by
  refine ⟨?_, ?_, ?_⟩
  · obtain ⟨Refreshed, -, hCalls, -, hTick⟩ :=
      (C19_Tick_mantling_attempt SampleLedgeEngine 1
        { LocomotionMode := .InAir, CapsuleHalfHeight := 90 }).1 rfl
    exact ⟨Refreshed, hCalls, hTick⟩
  · obtain ⟨hCalls, -, hMode⟩ :=
      (C19_Tick_mantling_attempt SampleLedgeEngine 1
        { LocomotionMode := .Grounded, bEnableNetworkOptimizations := true,
          CapsuleHalfHeight := 90 }).2.1 (by decide) _ Tick_grounded_before_ledge
    exact ⟨_, Tick_grounded_before_ledge, hCalls, hMode⟩
  · exact (C19_Tick_mantling_attempt SampleLedgeEngine 1 { LocomotionMode := .Mantling }).2.2
      (Or.inl rfl)

/-! ### The gait with its flags -/

/-- C27: a default-constructed `FAlsGait` holds Walking with `IsWalking` true and the other
two flags false; after construction from a gait or assignment of a gait (to any `FAlsGait`),
the conversion back returns that gait, each flag tells whether the gait is its own, so exactly
one flag is true; and assigning a second gait fully replaces the first: the result of an
assignment depends only on the gait assigned, and equals the construction from that gait. -/
theorem C27_FAlsGait_flags (This : FAlsGait) (NewGait SecondGait : EAlsGait) :
    ((({} : FAlsGait).toEAlsGait = EAlsGait.Walking ∧
      ({} : FAlsGait).IsWalking = true ∧
      ({} : FAlsGait).IsRunning = false ∧
      ({} : FAlsGait).IsSprinting = false)) ∧
    ((FAlsGait.ofGait NewGait).toEAlsGait = NewGait ∧
      ((FAlsGait.ofGait NewGait).IsWalking = true ↔ NewGait = EAlsGait.Walking) ∧
      ((FAlsGait.ofGait NewGait).IsRunning = true ↔ NewGait = EAlsGait.Running) ∧
      ((FAlsGait.ofGait NewGait).IsSprinting = true ↔ NewGait = EAlsGait.Sprinting) ∧
      [(FAlsGait.ofGait NewGait).IsWalking, (FAlsGait.ofGait NewGait).IsRunning,
        (FAlsGait.ofGait NewGait).IsSprinting].count true = 1) ∧
    ((This.assign NewGait).toEAlsGait = NewGait ∧
      ((This.assign NewGait).IsWalking = true ↔ NewGait = EAlsGait.Walking) ∧
      ((This.assign NewGait).IsRunning = true ↔ NewGait = EAlsGait.Running) ∧
      ((This.assign NewGait).IsSprinting = true ↔ NewGait = EAlsGait.Sprinting) ∧
      [(This.assign NewGait).IsWalking, (This.assign NewGait).IsRunning,
        (This.assign NewGait).IsSprinting].count true = 1) ∧
    (This.assign NewGait).assign SecondGait = This.assign SecondGait ∧
    This.assign NewGait = FAlsGait.ofGait NewGait := by
  refine ⟨⟨rfl, rfl, rfl, rfl⟩, ?_, ?_, ?_, ?_⟩
  · cases NewGait <;>
      simp [FAlsGait.ofGait, FAlsGait.assign, FAlsGait.toEAlsGait, FAlsGait.IsWalking,
        FAlsGait.IsRunning, FAlsGait.IsSprinting]
  · cases NewGait <;>
      simp [FAlsGait.assign, FAlsGait.toEAlsGait, FAlsGait.IsWalking, FAlsGait.IsRunning,
        FAlsGait.IsSprinting]
  · simp [FAlsGait.assign]
  · simp [FAlsGait.ofGait, FAlsGait.assign]

/-! ### The jump request -/

/-- C23: `Jump` forwards to the base character jump exactly when the locomotion mode is
Grounded, the locomotion action is None and the stance is Standing: then the only effect is
the recorded base jump; in every other state, in particular while Mantling, Ragdolling, InAir,
Rolling or Crouching, the character is returned unchanged and no jump is requested. -/
theorem C23_Jump (Character : AAlsCharacter) :
    (Character.LocomotionMode = EAlsLocomotionMode.Grounded ∧
        Character.LocomotionAction = EAlsLocomotionAction.None ∧
        Character.Stance = EAlsStance.Standing →
      Jump Character = Character.Invoke EngineCall.SuperJump ∧
      (Jump Character).Calls = Character.Calls ++ [EngineCall.SuperJump] ∧
      { Jump Character with Calls := Character.Calls } = Character) ∧
    (¬ (Character.LocomotionMode = EAlsLocomotionMode.Grounded ∧
        Character.LocomotionAction = EAlsLocomotionAction.None ∧
        Character.Stance = EAlsStance.Standing) →
      Jump Character = Character) ∧
    (EngineCall.SuperJump ∈ ((Jump Character).Calls.drop Character.Calls.length) ↔
      Character.LocomotionMode = EAlsLocomotionMode.Grounded ∧
        Character.LocomotionAction = EAlsLocomotionAction.None ∧
        Character.Stance = EAlsStance.Standing) ∧
    (Character.LocomotionMode = EAlsLocomotionMode.Mantling ∨
        Character.LocomotionMode = EAlsLocomotionMode.Ragdolling ∨
        Character.LocomotionMode = EAlsLocomotionMode.InAir ∨
        Character.LocomotionAction = EAlsLocomotionAction.Rolling ∨
        Character.Stance = EAlsStance.Crouching →
      Jump Character = Character) := by
  unfold Jump
  by_cases hAllowed : Character.LocomotionMode = EAlsLocomotionMode.Grounded ∧
      Character.LocomotionAction = EAlsLocomotionAction.None ∧
      Character.Stance = EAlsStance.Standing
  · rw [if_pos hAllowed]
    refine ⟨fun _ => ⟨rfl, rfl, rfl⟩, fun hNot => absurd hAllowed hNot, ?_, ?_⟩
    · simp [Invoke, hAllowed]
    · rintro (h | h | h | h | h) <;> simp [hAllowed.1, hAllowed.2.1, hAllowed.2.2] at h
  · rw [if_neg hAllowed]
    refine ⟨fun h => absurd h hAllowed, fun _ => rfl, ?_, fun _ => rfl⟩
    simp [hAllowed]

/-- C23 at work: a standing grounded character with no action jumps; a mantling character and
a crouching character do not. -/
theorem C23_Jump_witness :
    (Jump {}).Calls = [EngineCall.SuperJump] ∧
    Jump { LocomotionMode := .Mantling } = { LocomotionMode := .Mantling } ∧
    Jump { Stance := .Crouching } = { Stance := .Crouching } :=
  ⟨((C23_Jump {}).1 ⟨rfl, rfl, rfl⟩).2.1,
    (C23_Jump { LocomotionMode := .Mantling }).2.2.2 (Or.inl rfl),
    (C23_Jump { Stance := .Crouching }).2.2.2 (Or.inr (Or.inr (Or.inr (Or.inr rfl))))⟩

/-! ### The stationary aiming clamp -/

/-- After turning the actor toward a target yaw, the target actor rotation is that yaw with
no pitch and no roll, and the actor rotation is the engine interpolation toward it. -/
theorem RefreshActorRotation_target (Engine : FEngine)
    (TargetYawAngle DeltaTime RotationSpeed : ℚ) (Character : AAlsCharacter) :
    (RefreshActorRotation Engine TargetYawAngle DeltaTime RotationSpeed
        Character).LocomotionState.TargetActorRotation =
      { Pitch := 0, Yaw := TargetYawAngle, Roll := 0 } ∧
    (RefreshActorRotation Engine TargetYawAngle DeltaTime RotationSpeed
        Character).GetActorRotation =
      Engine.RInterpTo Character.GetActorRotation
        { Pitch := 0, Yaw := TargetYawAngle, Roll := 0 } DeltaTime RotationSpeed :=
  ⟨rfl, rfl⟩

/-- C25, as stated, fails: for the aim yaw 70 and the actor yaw -2^-30 (both binary32
values) the normalised difference 70 + 2^-30 is greater than 70, so the target actor rotation
should become the aim yaw minus 70, which is 0; yet the `float` difference is 70, not greater
than 70, and `RefreshAimingActorRotation` changes nothing: the target yaw stays 33. -/
theorem C25_float_difference_counterexample :
    Binary32.Round (-(1 / 2 ^ 30)) = -(1 / 2 ^ 30) ∧
    |FRotator.NormalizeAxis (70 - (-(1 / 2 ^ 30)))| > 70 ∧
    Binary32.Sub 70 (-(1 / 2 ^ 30)) = 70 ∧
    RefreshAimingActorRotation {} 1
        { AimingState := { SmoothRotationYaw := 70 }, ActorRotationYaw := -(1 / 2 ^ 30),
          LocomotionState := { TargetActorRotation := { Yaw := 33 } } } =
      { AimingState := { SmoothRotationYaw := 70 }, ActorRotationYaw := -(1 / 2 ^ 30),
        LocomotionState := { TargetActorRotation := { Yaw := 33 } } } ∧
    (RefreshAimingActorRotation {} 1
        { AimingState := { SmoothRotationYaw := 70 }, ActorRotationYaw := -(1 / 2 ^ 30),
          LocomotionState :=
            { TargetActorRotation := { Yaw := 33 } } }).LocomotionState.TargetActorRotation.Yaw =
      33 := by
  have hActor : Binary32.Round (-(1 / 2 ^ 30)) = -(1 / 2 ^ 30) := by
    have h := @Binary32.Round_of_representable (-1) (-30) (by norm_num) (by norm_num)
    norm_num at h
    norm_num
    exact h
  have hSub : Binary32.Sub 70 (-(1 / 2 ^ 30)) = 70 := by
    unfold Binary32.Sub
    have hExact : (70 : ℚ) - (-(1 / 2 ^ 30)) = 70 + 1 / 2 ^ 30 := by norm_num
    rw [hExact, Binary32.Round_eq_of_binade 6 9175040 (by norm_num) (by norm_num)
      (by norm_num) (Or.inl (by norm_num [abs_of_pos]))]
    norm_num
  have hNormalised : FRotator.NormalizeAxis 70 = 70 := by
    norm_num [FRotator.NormalizeAxis, FRotator.ClampAxis, FMath.Fmod]
  have hSame : RefreshAimingActorRotation {} 1
        { AimingState := { SmoothRotationYaw := 70 }, ActorRotationYaw := -(1 / 2 ^ 30),
          LocomotionState := { TargetActorRotation := { Yaw := 33 } } } =
      { AimingState := { SmoothRotationYaw := 70 }, ActorRotationYaw := -(1 / 2 ^ 30),
        LocomotionState := { TargetActorRotation := { Yaw := 33 } } } := by
    unfold RefreshAimingActorRotation
    dsimp only
    rw [hSub, hNormalised, if_neg (by norm_num)]
  refine ⟨hActor, ?_, hSub, hSame, ?_⟩
  · norm_num [FRotator.NormalizeAxis, FRotator.ClampAxis, FMath.Fmod, abs_of_pos]
  · rw [hSame]

/-- C25, amended: let `d` be the `float` difference of the aim yaw and the actor yaw,
normalised; it lies in (-180, 180]. When `|d| ≤ 70`, `RefreshAimingActorRotation` returns the
character unchanged, so neither the actor rotation nor the target actor rotation changes.
When `|d| > 70`, the target actor rotation becomes pitch 0, roll 0 and the aim yaw minus 70
when `d > 0`, the aim yaw plus 70 when `d < 0`, a yaw exactly 70 degrees from the aim yaw;
the actor is turned toward that target by the engine interpolation at speed 20. -/
theorem C25_RefreshAimingActorRotation (Engine : FEngine) (DeltaTime : ℚ)
    (Character : AAlsCharacter) (d : ℚ)
    (hd : d = FRotator.NormalizeAxis
      (Binary32.Sub Character.AimingState.SmoothRotationYaw Character.ActorRotationYaw)) :
    (-180 < d ∧ d ≤ 180) ∧
    (|d| ≤ 70 → RefreshAimingActorRotation Engine DeltaTime Character = Character) ∧
    (|d| > 70 →
      (RefreshAimingActorRotation Engine DeltaTime
        Character).LocomotionState.TargetActorRotation.Pitch = 0 ∧
      (RefreshAimingActorRotation Engine DeltaTime
        Character).LocomotionState.TargetActorRotation.Roll = 0 ∧
      (d > 0 →
        (RefreshAimingActorRotation Engine DeltaTime
          Character).LocomotionState.TargetActorRotation.Yaw =
          Character.AimingState.SmoothRotationYaw - 70) ∧
      (d < 0 →
        (RefreshAimingActorRotation Engine DeltaTime
          Character).LocomotionState.TargetActorRotation.Yaw =
          Character.AimingState.SmoothRotationYaw + 70) ∧
      |(RefreshAimingActorRotation Engine DeltaTime
          Character).LocomotionState.TargetActorRotation.Yaw -
        Character.AimingState.SmoothRotationYaw| = 70 ∧
      (RefreshAimingActorRotation Engine DeltaTime Character).GetActorRotation =
        Engine.RInterpTo Character.GetActorRotation
          (RefreshAimingActorRotation Engine DeltaTime
            Character).LocomotionState.TargetActorRotation DeltaTime 20) := by
  obtain ⟨hLow, hHigh, -⟩ := NormalizeAxis_spec
    (Binary32.Sub Character.AimingState.SmoothRotationYaw Character.ActorRotationYaw)
  subst hd
  refine ⟨⟨hLow, hHigh⟩, ?_, ?_⟩
  · intro hSmall
    unfold RefreshAimingActorRotation
    dsimp only
    rw [if_neg (not_lt.mpr hSmall)]
  · intro hLarge
    unfold RefreshAimingActorRotation
    dsimp only
    rw [if_pos hLarge, (RefreshActorRotation_target _ _ _ _ _).1,
      (RefreshActorRotation_target _ _ _ _ _).2]
    refine ⟨rfl, rfl, ?_, ?_, ?_, rfl⟩
    · intro hPositive
      dsimp only
      rw [if_pos hPositive]
      ring
    · intro hNegative
      dsimp only
      rw [if_neg (not_lt.mpr (le_of_lt hNegative))]
    · dsimp only
      split <;> norm_num

/-- C25 amended, at a concrete input: an aim 100 degrees to the left of the actor sets the target yaw 70 degrees
from the aim, on the side of the actor. -/
theorem C25_RefreshAimingActorRotation_witness :
    (RefreshAimingActorRotation {} 1
      { AimingState := { SmoothRotationYaw := 100 } }).LocomotionState.TargetActorRotation.Yaw =
      100 - 70 := by
  have hNormalised : FRotator.NormalizeAxis (Binary32.Sub 100 0) = 100 := by
    norm_num [FRotator.NormalizeAxis, FRotator.ClampAxis, FMath.Fmod, Binary32.Sub,
      Binary32.Round_ofNat]
  exact ((C25_RefreshAimingActorRotation {} 1
    { AimingState := { SmoothRotationYaw := 100 } } 100 hNormalised.symm).2.2
      (by norm_num)).2.2.1 (by norm_num)

/-! ### The ragdoll ground offset -/

/-- Storing the ragdoll target location stores it and leaves the capsule alone. -/
theorem SetRagdollTargetLocation_target (NewLocation : FVector) (Character : AAlsCharacter) :
    (SetRagdollTargetLocation NewLocation Character).RagdollTargetLocation = NewLocation ∧
    (SetRagdollTargetLocation NewLocation Character).CapsuleHalfHeight =
      Character.CapsuleHalfHeight := by
  unfold SetRagdollTargetLocation
  split
  · dsimp only
    split <;> exact ⟨rfl, rfl⟩
  · rename_i hSame
    exact ⟨not_not.mp hSame, rfl⟩

/-- The probe, the actor location and the grounded flag of one
`RefreshRagdollingActorTransform` on an instance that is not locally controlled. -/
theorem RefreshRagdollingActorTransform_remote (Engine : FEngine) (DeltaTime : ℚ)
    (Character : AAlsCharacter) (hRemote : Character.bLocallyControlled = false) :
    EngineCall.LineTraceSingleByChannel Character.RagdollTargetLocation
        { X := Character.RagdollTargetLocation.X, Y := Character.RagdollTargetLocation.Y,
          Z := Character.RagdollTargetLocation.Z - Character.CapsuleHalfHeight } ∈
      (RefreshRagdollingActorTransform Engine DeltaTime Character).Calls ∧
    (RefreshRagdollingActorTransform Engine DeltaTime Character).ActorLocation =
      (if (Engine.LineTraceSingleByChannel Character.RagdollTargetLocation
          { X := Character.RagdollTargetLocation.X, Y := Character.RagdollTargetLocation.Y,
            Z := Character.RagdollTargetLocation.Z -
              Character.CapsuleHalfHeight }).IsValidBlockingHit then
        { X := Character.RagdollTargetLocation.X, Y := Character.RagdollTargetLocation.Y,
          Z := Character.RagdollTargetLocation.Z + (Character.CapsuleHalfHeight -
            |(Engine.LineTraceSingleByChannel Character.RagdollTargetLocation
                { X := Character.RagdollTargetLocation.X,
                  Y := Character.RagdollTargetLocation.Y,
                  Z := Character.RagdollTargetLocation.Z -
                    Character.CapsuleHalfHeight }).ImpactPoint.Z -
              (Engine.LineTraceSingleByChannel Character.RagdollTargetLocation
                { X := Character.RagdollTargetLocation.X,
                  Y := Character.RagdollTargetLocation.Y,
                  Z := Character.RagdollTargetLocation.Z -
                    Character.CapsuleHalfHeight }).TraceStart.Z| + 2) }
      else Character.RagdollTargetLocation) ∧
    (RefreshRagdollingActorTransform Engine DeltaTime Character).RagdollingState.bGrounded =
      (Engine.LineTraceSingleByChannel Character.RagdollTargetLocation
        { X := Character.RagdollTargetLocation.X, Y := Character.RagdollTargetLocation.Y,
          Z := Character.RagdollTargetLocation.Z -
            Character.CapsuleHalfHeight }).IsValidBlockingHit := by
  unfold RefreshRagdollingActorTransform
  simp only [SetActorLocationAndRotation, Invoke, hRemote, Bool.false_eq_true, if_false,
    Bool.not_false, if_true, apply_ite AAlsCharacter.Calls,
    apply_ite AAlsCharacter.RagdollingState, apply_ite FAlsRagdollingState.bGrounded, ite_self]
  refine ⟨?_, trivial, trivial⟩
  split_ifs <;> simp

/-- The probe, the actor location and the grounded flag of one
`RefreshRagdollingActorTransform` on a locally controlled instance, where the target location
is the pelvis location. -/
theorem RefreshRagdollingActorTransform_local (Engine : FEngine) (DeltaTime : ℚ)
    (Character : AAlsCharacter) (hLocal : Character.bLocallyControlled = true) :
    EngineCall.LineTraceSingleByChannel Character.PelvisLocation
        { X := Character.PelvisLocation.X, Y := Character.PelvisLocation.Y,
          Z := Character.PelvisLocation.Z - Character.CapsuleHalfHeight } ∈
      (RefreshRagdollingActorTransform Engine DeltaTime Character).Calls ∧
    (RefreshRagdollingActorTransform Engine DeltaTime Character).ActorLocation =
      (if (Engine.LineTraceSingleByChannel Character.PelvisLocation
          { X := Character.PelvisLocation.X, Y := Character.PelvisLocation.Y,
            Z := Character.PelvisLocation.Z -
              Character.CapsuleHalfHeight }).IsValidBlockingHit then
        { X := Character.PelvisLocation.X, Y := Character.PelvisLocation.Y,
          Z := Character.PelvisLocation.Z + (Character.CapsuleHalfHeight -
            |(Engine.LineTraceSingleByChannel Character.PelvisLocation
                { X := Character.PelvisLocation.X,
                  Y := Character.PelvisLocation.Y,
                  Z := Character.PelvisLocation.Z -
                    Character.CapsuleHalfHeight }).ImpactPoint.Z -
              (Engine.LineTraceSingleByChannel Character.PelvisLocation
                { X := Character.PelvisLocation.X,
                  Y := Character.PelvisLocation.Y,
                  Z := Character.PelvisLocation.Z -
                    Character.CapsuleHalfHeight }).TraceStart.Z| + 2) }
      else Character.PelvisLocation) ∧
    (RefreshRagdollingActorTransform Engine DeltaTime Character).RagdollingState.bGrounded =
      (Engine.LineTraceSingleByChannel Character.PelvisLocation
        { X := Character.PelvisLocation.X, Y := Character.PelvisLocation.Y,
          Z := Character.PelvisLocation.Z -
            Character.CapsuleHalfHeight }).IsValidBlockingHit := by
  have hFrame := SetRagdollTargetLocation_frame Character.PelvisLocation Character
  have hTarget := SetRagdollTargetLocation_target Character.PelvisLocation Character
  unfold RefreshRagdollingActorTransform
  simp only [SetActorLocationAndRotation, Invoke, hLocal, hFrame.2, hTarget.1, hTarget.2,
    if_true, Bool.not_true, Bool.false_eq_true, if_false,
    apply_ite AAlsCharacter.RagdollingState, apply_ite FAlsRagdollingState.bGrounded, ite_self]
  refine ⟨?_, trivial, trivial⟩
  simp

/-- C26: let `T` be the ragdoll target location of the step (the pelvis location on a locally
controlled instance, else the stored target location) and `H` the capsule half height. The
step probes downward from `T` to `T - (0, 0, H)`. When the probe answers a valid blocking hit
that starts at the height of `T` and whose impact height `z` is not above `T`, the actor
location is set to `(T.x, T.y, z + H + 2)`, so the bottom of the capsule is 2 above the impact
point, and the ragdoll is grounded; when the probe answers no valid blocking hit, the actor
location is set to `T` and the ragdoll is not grounded. -/
theorem C26_ragdoll_ground_offset (Engine : FEngine) (DeltaTime : ℚ)
    (Character : AAlsCharacter) (T : FVector) (Hit : FHitResult)
    (hT : T = if Character.bLocallyControlled then Character.PelvisLocation
      else Character.RagdollTargetLocation)
    (hHit : Hit = Engine.LineTraceSingleByChannel T
      { X := T.X, Y := T.Y, Z := T.Z - Character.CapsuleHalfHeight }) :
    EngineCall.LineTraceSingleByChannel T
        { X := T.X, Y := T.Y, Z := T.Z - Character.CapsuleHalfHeight } ∈
      (RefreshRagdollingActorTransform Engine DeltaTime Character).Calls ∧
    (Hit.IsValidBlockingHit = true → Hit.TraceStart.Z = T.Z → Hit.ImpactPoint.Z ≤ T.Z →
      (RefreshRagdollingActorTransform Engine DeltaTime Character).ActorLocation =
        { X := T.X, Y := T.Y, Z := Hit.ImpactPoint.Z + Character.CapsuleHalfHeight + 2 } ∧
      (RefreshRagdollingActorTransform Engine DeltaTime Character).ActorLocation.Z -
        Character.CapsuleHalfHeight = Hit.ImpactPoint.Z + 2 ∧
      (RefreshRagdollingActorTransform Engine DeltaTime
        Character).RagdollingState.bGrounded = true) ∧
    (Hit.IsValidBlockingHit = false →
      (RefreshRagdollingActorTransform Engine DeltaTime Character).ActorLocation = T ∧
      (RefreshRagdollingActorTransform Engine DeltaTime
        Character).RagdollingState.bGrounded = false) := by
  subst hHit
  cases hLocal : Character.bLocallyControlled
  · rw [hLocal] at hT
    simp only [Bool.false_eq_true, if_false] at hT
    subst hT
    obtain ⟨hCall, hLocation, hGrounded⟩ :=
      RefreshRagdollingActorTransform_remote Engine DeltaTime Character hLocal
    refine ⟨hCall, ?_, ?_⟩
    · intro hValid hStart hBelow
      rw [hLocation, hGrounded, if_pos hValid, hStart,
        abs_of_nonpos (sub_nonpos.mpr hBelow)]
      refine ⟨?_, ?_, hValid⟩
      · congr 1
        ring
      · dsimp only
        ring
    · intro hInvalid
      rw [hLocation, hGrounded, hInvalid]
      exact ⟨rfl, rfl⟩
  · rw [hLocal] at hT
    simp only [if_true] at hT
    subst hT
    obtain ⟨hCall, hLocation, hGrounded⟩ :=
      RefreshRagdollingActorTransform_local Engine DeltaTime Character hLocal
    refine ⟨hCall, ?_, ?_⟩
    · intro hValid hStart hBelow
      rw [hLocation, hGrounded, if_pos hValid, hStart,
        abs_of_nonpos (sub_nonpos.mpr hBelow)]
      refine ⟨?_, ?_, hValid⟩
      · congr 1
        ring
      · dsimp only
        ring
    · intro hInvalid
      rw [hLocation, hGrounded, hInvalid]
      exact ⟨rfl, rfl⟩

/-- C26 at work: a ragdoll whose target location is at height 100 over a floor at height 40,
with a capsule half height of 90, is placed at height 132, its capsule bottom 2 above the
floor. -/
theorem C26_ragdoll_ground_offset_witness :
    (RefreshRagdollingActorTransform
      { LineTraceSingleByChannel := fun Start _ =>
          { bBlockingHit := true, ImpactPoint := { Z := 40 }, TraceStart := Start } }
      1 { RagdollTargetLocation := { Z := 100 }, CapsuleHalfHeight := 90,
          bLocallyControlled := false }).ActorLocation = { X := 0, Y := 0, Z := 40 + 90 + 2 } :=
  ((C26_ragdoll_ground_offset
    { LineTraceSingleByChannel := fun Start _ =>
        { bBlockingHit := true, ImpactPoint := { Z := 40 }, TraceStart := Start } }
    1 { RagdollTargetLocation := { Z := 100 }, CapsuleHalfHeight := 90,
        bLocallyControlled := false } { Z := 100 } _ rfl rfl).2.1 rfl rfl (by norm_num)).1

/-! ### The gait refresh and the movement integrator -/

/-- Switching the gait leaves the movement integrator and what the gait amount reads alone. -/
theorem SetGait_integrator (NewGait : EAlsGait) (Character : AAlsCharacter) :
    (SetGait NewGait Character).MaxWalkSpeed = Character.MaxWalkSpeed ∧
    (SetGait NewGait Character).MovementMaxAcceleration = Character.MovementMaxAcceleration ∧
    (SetGait NewGait Character).BrakingDecelerationWalking =
      Character.BrakingDecelerationWalking ∧
    (SetGait NewGait Character).GroundFriction = Character.GroundFriction ∧
    (SetGait NewGait Character).LocomotionState = Character.LocomotionState ∧
    (SetGait NewGait Character).bEnableNetworkOptimizations =
      Character.bEnableNetworkOptimizations := by
  unfold SetGait
  split
  · exact ⟨rfl, rfl, rfl, rfl, rfl, rfl⟩
  · exact ⟨rfl, rfl, rfl, rfl, rfl, rfl⟩

/-- The gait amount reads the locomotion state only. -/
theorem CalculateGaitAmount_congr (First Second : AAlsCharacter)
    (GaitSettings : FAlsMovementGaitSettings)
    (hState : First.LocomotionState = Second.LocomotionState) :
    First.CalculateGaitAmount GaitSettings = Second.CalculateGaitAmount GaitSettings := by
  unfold CalculateGaitAmount
  rw [hState]

/-- C24: with network optimisations on, `RefreshGait` returns with the max walk speed of the
movement integrator equal to the speed of the max allowed gait (not of the actual gait) and
with the max acceleration, the braking deceleration and the ground friction unchanged. With
network optimisations off and a valid movement curve, it returns with the same max walk speed
and with the max acceleration, the braking deceleration and the ground friction equal to the
X, Y and Z of the curve sampled at the gait amount. -/
theorem C24_RefreshGait_settings (Engine : FEngine) (GaitSettings : FAlsMovementGaitSettings)
    (Character : AAlsCharacter) :
    (Character.bEnableNetworkOptimizations = true →
      ∃ Refreshed : AAlsCharacter,
        RefreshGait Engine GaitSettings Character = some Refreshed ∧
        Refreshed.MaxWalkSpeed =
          GaitSettings.GetSpeedForGait Character.CalculateMaxAllowedGait ∧
        Refreshed.MovementMaxAcceleration = Character.MovementMaxAcceleration ∧
        Refreshed.BrakingDecelerationWalking = Character.BrakingDecelerationWalking ∧
        Refreshed.GroundFriction = Character.GroundFriction) ∧
    (Character.bEnableNetworkOptimizations = false →
      ∀ Curve : UCurveVector,
        Engine.ResolveVectorCurve
            GaitSettings.AccelerationAndDecelerationAndGroundFrictionCurve = some Curve →
        ∃ Refreshed : AAlsCharacter,
          RefreshGait Engine GaitSettings Character = some Refreshed ∧
          Refreshed.MaxWalkSpeed =
            GaitSettings.GetSpeedForGait Character.CalculateMaxAllowedGait ∧
          Refreshed.MovementMaxAcceleration =
            (Curve.GetVectorValue (Character.CalculateGaitAmount GaitSettings)).X ∧
          Refreshed.BrakingDecelerationWalking =
            (Curve.GetVectorValue (Character.CalculateGaitAmount GaitSettings)).Y ∧
          Refreshed.GroundFriction =
            (Curve.GetVectorValue (Character.CalculateGaitAmount GaitSettings)).Z) := by
  obtain ⟨hSpeed, hAcceleration, hBraking, hFriction, hState, hFlag⟩ :=
    SetGait_integrator
      (Character.CalculateActualGait Character.CalculateMaxAllowedGait GaitSettings) Character
  constructor
  · intro hOptimised
    unfold RefreshGait
    dsimp only
    rw [hFlag, hOptimised, if_pos rfl]
    refine ⟨_, rfl, ?_, ?_, ?_, ?_⟩
    · unfold RefreshGaitSettingsNetworked
      dsimp only
      split
      · split
        · rfl
        · rename_i hSame
          exact not_not.mp hSame
      · rfl
    · unfold RefreshGaitSettingsNetworked
      dsimp only
      split
      · split
        · exact hAcceleration
        · exact hAcceleration
      · exact hAcceleration
    · unfold RefreshGaitSettingsNetworked
      dsimp only
      split
      · split
        · exact hBraking
        · exact hBraking
      · exact hBraking
    · unfold RefreshGaitSettingsNetworked
      dsimp only
      split
      · split
        · exact hFriction
        · exact hFriction
      · exact hFriction
  · intro hPlain Curve hCurve
    have hAmount :
        (SetCustomMaxWalkSpeed (GaitSettings.GetSpeedForGait Character.CalculateMaxAllowedGait)
          (SetGait
            (Character.CalculateActualGait Character.CalculateMaxAllowedGait GaitSettings)
            Character)).CalculateGaitAmount GaitSettings =
        Character.CalculateGaitAmount GaitSettings :=
      CalculateGaitAmount_congr _ _ _ hState
    unfold RefreshGait
    dsimp only
    rw [hFlag, hPlain, if_neg (by decide)]
    unfold RefreshGaitSettingsStandalone
    dsimp only
    rw [hCurve]
    dsimp only
    rw [hAmount]
    exact ⟨_, rfl, rfl, rfl, rfl, rfl⟩

/-- C24 at work: a standing character at rest whose desired gait is Running walks, but with
network optimisations on the max walk speed pushed is the running speed 375 of the max allowed
gait; with them off the curve values are pushed as well. -/
theorem C24_RefreshGait_settings_witness :
    (∃ Refreshed : AAlsCharacter,
      RefreshGait SampleLedgeEngine { WalkSpeed := 175, RunSpeed := 375, SprintSpeed := 650 }
        { bEnableNetworkOptimizations := true, GroundFriction := 8 } = some Refreshed ∧
      Refreshed.MaxWalkSpeed = 375 ∧ Refreshed.GroundFriction = 8) ∧
    (∃ Refreshed : AAlsCharacter,
      RefreshGait SampleLedgeEngine
        { WalkSpeed := 175, RunSpeed := 375, SprintSpeed := 650,
          AccelerationAndDecelerationAndGroundFrictionCurve := some 2 }
        { bEnableNetworkOptimizations := false, GroundFriction := 8 } = some Refreshed ∧
      Refreshed.MaxWalkSpeed = 375 ∧ Refreshed.GroundFriction = 1) := by
  constructor
  · obtain ⟨Refreshed, hRefreshed, hSpeed, -, -, hFriction⟩ :=
      (C24_RefreshGait_settings SampleLedgeEngine
        { WalkSpeed := 175, RunSpeed := 375, SprintSpeed := 650 }
        { bEnableNetworkOptimizations := true, GroundFriction := 8 }).1 rfl
    exact ⟨Refreshed, hRefreshed, hSpeed, hFriction⟩
  · obtain ⟨Refreshed, hRefreshed, hSpeed, -, -, hFriction⟩ :=
      (C24_RefreshGait_settings SampleLedgeEngine
        { WalkSpeed := 175, RunSpeed := 375, SprintSpeed := 650,
          AccelerationAndDecelerationAndGroundFrictionCurve := some 2 }
        { bEnableNetworkOptimizations := false, GroundFriction := 8 }).2 rfl
        { GetVectorValue := fun _ => FVector.OneVector, MaxTime := 1 } rfl
    exact ⟨Refreshed, hRefreshed, hSpeed, hFriction⟩

/-! ### The mantling timeline across mode transitions -/

/-- Re-applying the desired stance does not touch the mantling timeline. -/
theorem RefreshDesiredStance_timeline (Character : AAlsCharacter) :
    Character.RefreshDesiredStance.Calls.filter IsMantlingTimelineCall =
      Character.Calls.filter IsMantlingTimelineCall := by
  unfold RefreshDesiredStance
  split
  · split <;> simp [Invoke, List.filter_append, IsMantlingTimelineCall]
  · rfl

/-- Storing the ragdoll target location does not touch the mantling timeline nor the
locomotion mode. -/
theorem SetRagdollTargetLocation_timeline (NewLocation : FVector) (Character : AAlsCharacter) :
    (SetRagdollTargetLocation NewLocation Character).Calls.filter IsMantlingTimelineCall =
      Character.Calls.filter IsMantlingTimelineCall ∧
    (SetRagdollTargetLocation NewLocation Character).LocomotionMode =
      Character.LocomotionMode := by
  unfold SetRagdollTargetLocation
  split
  · dsimp only
    split <;> simp [Invoke, List.filter_append, IsMantlingTimelineCall]
  · exact ⟨rfl, rfl⟩

/-- Clearing the movement mode does not touch the mantling timeline. -/
theorem SetMovementMode_None_timeline (Character : AAlsCharacter) :
    (SetMovementMode EMovementMode.MOVE_None Character).Calls.filter IsMantlingTimelineCall =
      Character.Calls.filter IsMantlingTimelineCall := by
  rw [SetMovementMode]
  split
  · rfl
  · rw [OnMovementModeChanged]
    simp [Invoke, List.filter_append, IsMantlingTimelineCall]

/-- Entering Ragdolling from a mode other than Mantling does not touch the mantling
timeline. -/
theorem SetLocomotionMode_Ragdolling_timeline (Character : AAlsCharacter)
    (hMode : Character.LocomotionMode ≠ EAlsLocomotionMode.Mantling) :
    (SetLocomotionMode EAlsLocomotionMode.Ragdolling Character).Calls.filter
        IsMantlingTimelineCall = Character.Calls.filter IsMantlingTimelineCall := by
  rw [SetLocomotionMode]
  split
  · rfl
  · rw [NotifyLocomotionModeChanged]
    simp [hMode, Invoke, List.filter_append, IsMantlingTimelineCall]

/-- Engaging the ragdoll from a mode other than Mantling does not touch the mantling
timeline. -/
theorem StartRagdollingImplementation_timeline (Character : AAlsCharacter)
    (hMode : Character.LocomotionMode ≠ EAlsLocomotionMode.Mantling) :
    (StartRagdollingImplementation Character).Calls.filter IsMantlingTimelineCall =
      Character.Calls.filter IsMantlingTimelineCall := by
  rw [StartRagdollingImplementation]
  simp only [Invoke, List.filter_append]
  rw [SetLocomotionMode_Ragdolling_timeline, SetMovementMode_None_timeline]
  · split <;> split <;>
      simp [SetRagdollTargetLocation_timeline, List.filter_append, IsMantlingTimelineCall]
  · rw [SetMovementMode_None_LocomotionMode]
    split <;> split <;> simp [SetRagdollTargetLocation_timeline, hMode]

/-- Starting the ragdoll from a mode other than Mantling does not touch the mantling
timeline. -/
theorem StartRagdolling_timeline (Character : AAlsCharacter)
    (hMode : Character.LocomotionMode ≠ EAlsLocomotionMode.Mantling) :
    (StartRagdolling Character).Calls.filter IsMantlingTimelineCall =
      Character.Calls.filter IsMantlingTimelineCall := by
  rw [StartRagdolling]
  split
  · rfl
  · split
    · rw [StartRagdollingImplementation_timeline _ (by exact hMode)]
      simp [Invoke, List.filter_append, IsMantlingTimelineCall]
    · simp [Invoke, List.filter_append, IsMantlingTimelineCall]

/-- A mode transition other than the one from Mantling into Ragdolling does not touch the
mantling timeline. -/
theorem SetLocomotionMode_timeline (NewMode : EAlsLocomotionMode) (Character : AAlsCharacter)
    (hOther : ¬ (Character.LocomotionMode = EAlsLocomotionMode.Mantling ∧
      NewMode = EAlsLocomotionMode.Ragdolling)) :
    (SetLocomotionMode NewMode Character).Calls.filter IsMantlingTimelineCall =
      Character.Calls.filter IsMantlingTimelineCall := by
  rw [SetLocomotionMode]
  split
  · rfl
  · rw [NotifyLocomotionModeChanged]
    dsimp only
    split
    · simp [Invoke, List.filter_append, IsMantlingTimelineCall, RefreshDesiredStance_timeline]
    · split
      · rename_i hStop
        exact absurd ⟨hStop.2, hStop.1⟩ hOther
      · split
        · split
          · split <;> simp [Invoke, List.filter_append, IsMantlingTimelineCall]
          · split
            · rename_i hInAir _ _
              rw [Invoke, List.filter_append,
                StartRagdolling_timeline _ (by simp [hInAir])]
              simp [IsMantlingTimelineCall]
            · simp [Invoke, List.filter_append, IsMantlingTimelineCall]
        · simp [Invoke, List.filter_append, IsMantlingTimelineCall]

/-- C21, as stated, fails for the transitions from Mantling into Grounded and into InAir: a
mantling character that becomes grounded, or enters the air, records the hook (and the stance
request) but no stop of the mantling timeline. -/
theorem C21_timeline_not_stopped_counterexample :
    (SetLocomotionMode EAlsLocomotionMode.Grounded
      { LocomotionMode := EAlsLocomotionMode.Mantling }).Calls =
      [EngineCall.UnCrouch, EngineCall.OnLocomotionModeChanged EAlsLocomotionMode.Mantling] ∧
    (SetLocomotionMode EAlsLocomotionMode.InAir
      { LocomotionMode := EAlsLocomotionMode.Mantling }).Calls =
      [EngineCall.OnLocomotionModeChanged EAlsLocomotionMode.Mantling] := by
  constructor
  · simp [SetLocomotionMode, NotifyLocomotionModeChanged, RefreshDesiredStance, Invoke]
  · simp [SetLocomotionMode, NotifyLocomotionModeChanged, Invoke]

/-- C21, amended: for a mantling character, `SetLocomotionMode(Ragdolling)` assigns the mode,
stops the mantling timeline and then calls the hook with the previous mode Mantling; every
other mode transition does not touch the mantling timeline: neither the transitions from
Mantling into Grounded or InAir, nor a transition into Ragdolling from a mode other than
Mantling. -/
theorem C21_mantling_timeline (Character : AAlsCharacter) (NewMode : EAlsLocomotionMode) :
    (Character.LocomotionMode = EAlsLocomotionMode.Mantling →
      SetLocomotionMode EAlsLocomotionMode.Ragdolling Character =
        (({ Character with LocomotionMode := EAlsLocomotionMode.Ragdolling } :
            AAlsCharacter).Invoke EngineCall.MantlingTimelineStop).Invoke
          (EngineCall.OnLocomotionModeChanged EAlsLocomotionMode.Mantling) ∧
      (SetLocomotionMode EAlsLocomotionMode.Ragdolling Character).Calls.filter
          IsMantlingTimelineCall =
        Character.Calls.filter IsMantlingTimelineCall ++ [EngineCall.MantlingTimelineStop]) ∧
    (Character.LocomotionMode = EAlsLocomotionMode.Mantling →
      NewMode = EAlsLocomotionMode.Grounded ∨ NewMode = EAlsLocomotionMode.InAir →
      (SetLocomotionMode NewMode Character).Calls.filter IsMantlingTimelineCall =
        Character.Calls.filter IsMantlingTimelineCall) ∧
    (Character.LocomotionMode ≠ EAlsLocomotionMode.Mantling →
      (SetLocomotionMode EAlsLocomotionMode.Ragdolling Character).Calls.filter
          IsMantlingTimelineCall =
        Character.Calls.filter IsMantlingTimelineCall) := by
  refine ⟨?_, ?_, ?_⟩
  · intro hMantling
    have hStop : SetLocomotionMode EAlsLocomotionMode.Ragdolling Character =
        (({ Character with LocomotionMode := EAlsLocomotionMode.Ragdolling } :
            AAlsCharacter).Invoke EngineCall.MantlingTimelineStop).Invoke
          (EngineCall.OnLocomotionModeChanged EAlsLocomotionMode.Mantling) := by
      rw [SetLocomotionMode]
      rw [if_neg (by rw [hMantling]; decide)]
      rw [NotifyLocomotionModeChanged]
      simp [hMantling]
    refine ⟨hStop, ?_⟩
    rw [hStop]
    simp [Invoke, List.filter_append, IsMantlingTimelineCall]
  · intro _ hNewMode
    apply SetLocomotionMode_timeline
    rintro ⟨-, hRagdolling⟩
    rcases hNewMode with hNewMode | hNewMode <;> rw [hNewMode] at hRagdolling <;>
      exact absurd hRagdolling (by decide)
  · intro hNotMantling
    apply SetLocomotionMode_timeline
    exact fun hBoth => hNotMantling hBoth.1

/-- C21, amended, at work: ragdolling out of a mantle stops the timeline; landing out of a
mantle and ragdolling from the ground do not. -/
theorem C21_mantling_timeline_witness :
    (SetLocomotionMode EAlsLocomotionMode.Ragdolling
      { LocomotionMode := EAlsLocomotionMode.Mantling }).Calls.filter IsMantlingTimelineCall =
      [EngineCall.MantlingTimelineStop] ∧
    (SetLocomotionMode EAlsLocomotionMode.Grounded
      { LocomotionMode := EAlsLocomotionMode.Mantling }).Calls.filter IsMantlingTimelineCall =
      [] ∧
    (SetLocomotionMode EAlsLocomotionMode.Ragdolling
      { LocomotionMode := EAlsLocomotionMode.Grounded }).Calls.filter IsMantlingTimelineCall =
      [] :=
  ⟨((C21_mantling_timeline { LocomotionMode := EAlsLocomotionMode.Mantling }
      EAlsLocomotionMode.Grounded).1 rfl).2,
    (C21_mantling_timeline { LocomotionMode := EAlsLocomotionMode.Mantling }
      EAlsLocomotionMode.Grounded).2.1 rfl (Or.inl rfl),
    (C21_mantling_timeline { LocomotionMode := EAlsLocomotionMode.Grounded }
      EAlsLocomotionMode.Grounded).2.2 (by decide)⟩

/-! ### Ragdoll disengagement -/

/-- Re-applying the desired stance plays no montage and leaves the velocity of the integrator
and the sampled ragdoll alone. -/
theorem RefreshDesiredStance_disengage_frame (Character : AAlsCharacter) :
    (RefreshDesiredStance Character).Calls.filter IsMontagePlayCall =
      Character.Calls.filter IsMontagePlayCall ∧
    (RefreshDesiredStance Character).MovementVelocity = Character.MovementVelocity ∧
    (RefreshDesiredStance Character).RagdollingState.RootBoneVelocity =
      Character.RagdollingState.RootBoneVelocity ∧
    (RefreshDesiredStance Character).RagdollingState.bFacedUpward =
      Character.RagdollingState.bFacedUpward := by
  unfold RefreshDesiredStance
  split
  · split <;> simp [Invoke, List.filter_append, IsMontagePlayCall]
  · exact ⟨rfl, rfl, rfl, rfl⟩

/-- Storing the ragdoll target location plays no montage and leaves the velocity of the
integrator and the sampled ragdoll alone. -/
theorem SetRagdollTargetLocation_disengage_frame (NewLocation : FVector)
    (Character : AAlsCharacter) :
    (SetRagdollTargetLocation NewLocation Character).Calls.filter IsMontagePlayCall =
      Character.Calls.filter IsMontagePlayCall ∧
    (SetRagdollTargetLocation NewLocation Character).MovementVelocity = Character.MovementVelocity ∧
    (SetRagdollTargetLocation NewLocation Character).RagdollingState.RootBoneVelocity =
      Character.RagdollingState.RootBoneVelocity ∧
    (SetRagdollTargetLocation NewLocation Character).RagdollingState.bFacedUpward =
      Character.RagdollingState.bFacedUpward := by
  unfold SetRagdollTargetLocation
  split
  · dsimp only
    split <;> simp [Invoke, List.filter_append, IsMontagePlayCall]
  · exact ⟨rfl, rfl, rfl, rfl⟩

/-- Clearing the movement mode plays no montage and leaves the velocity of the integrator
and the sampled ragdoll alone. -/
theorem SetMovementMode_None_disengage_frame (Character : AAlsCharacter) :
    (SetMovementMode EMovementMode.MOVE_None Character).Calls.filter IsMontagePlayCall =
      Character.Calls.filter IsMontagePlayCall ∧
    (SetMovementMode EMovementMode.MOVE_None Character).MovementVelocity = Character.MovementVelocity ∧
    (SetMovementMode EMovementMode.MOVE_None Character).RagdollingState.RootBoneVelocity =
      Character.RagdollingState.RootBoneVelocity ∧
    (SetMovementMode EMovementMode.MOVE_None Character).RagdollingState.bFacedUpward =
      Character.RagdollingState.bFacedUpward := by
  rw [SetMovementMode]
  split
  · exact ⟨rfl, rfl, rfl, rfl⟩
  · rw [OnMovementModeChanged]
    simp [Invoke, List.filter_append, IsMontagePlayCall]

/-- Entering Ragdolling plays no montage and leaves the velocity of the integrator and the
sampled ragdoll alone. -/
theorem SetLocomotionMode_Ragdolling_disengage_frame (Character : AAlsCharacter) :
    (SetLocomotionMode EAlsLocomotionMode.Ragdolling Character).Calls.filter IsMontagePlayCall =
      Character.Calls.filter IsMontagePlayCall ∧
    (SetLocomotionMode EAlsLocomotionMode.Ragdolling Character).MovementVelocity = Character.MovementVelocity ∧
    (SetLocomotionMode EAlsLocomotionMode.Ragdolling Character).RagdollingState.RootBoneVelocity =
      Character.RagdollingState.RootBoneVelocity ∧
    (SetLocomotionMode EAlsLocomotionMode.Ragdolling Character).RagdollingState.bFacedUpward =
      Character.RagdollingState.bFacedUpward := by
  rw [SetLocomotionMode]
  split
  · exact ⟨rfl, rfl, rfl, rfl⟩
  · rw [NotifyLocomotionModeChanged]
    simp only [reduceCtorEq, if_false, true_and, dite_false]
    split <;> simp [Invoke, List.filter_append, IsMontagePlayCall]

/-- Engaging the ragdoll plays no montage and leaves the velocity of the integrator and the
sampled velocity and facing of the ragdoll alone. -/
theorem StartRagdollingImplementation_disengage_frame (Character : AAlsCharacter) :
    (StartRagdollingImplementation Character).Calls.filter IsMontagePlayCall =
      Character.Calls.filter IsMontagePlayCall ∧
    (StartRagdollingImplementation Character).MovementVelocity = Character.MovementVelocity ∧
    (StartRagdollingImplementation Character).RagdollingState.RootBoneVelocity =
      Character.RagdollingState.RootBoneVelocity ∧
    (StartRagdollingImplementation Character).RagdollingState.bFacedUpward =
      Character.RagdollingState.bFacedUpward := by
  rw [StartRagdollingImplementation]
  simp only [Invoke, List.filter_append, SetLocomotionMode_Ragdolling_disengage_frame,
    SetMovementMode_None_disengage_frame]
  split <;> split <;>
    simp [SetRagdollTargetLocation_disengage_frame, List.filter_append, IsMontagePlayCall]

/-- Starting the ragdoll plays no montage and leaves the velocity of the integrator and the
sampled velocity and facing of the ragdoll alone. -/
theorem StartRagdolling_disengage_frame (Character : AAlsCharacter) :
    (StartRagdolling Character).Calls.filter IsMontagePlayCall =
      Character.Calls.filter IsMontagePlayCall ∧
    (StartRagdolling Character).MovementVelocity = Character.MovementVelocity ∧
    (StartRagdolling Character).RagdollingState.RootBoneVelocity =
      Character.RagdollingState.RootBoneVelocity ∧
    (StartRagdolling Character).RagdollingState.bFacedUpward =
      Character.RagdollingState.bFacedUpward := by
  rw [StartRagdolling]
  split
  · exact ⟨rfl, rfl, rfl, rfl⟩
  · split
    · simp [StartRagdollingImplementation_disengage_frame, Invoke, List.filter_append,
        IsMontagePlayCall]
    · simp [Invoke, List.filter_append, IsMontagePlayCall]

/-- A mode transition plays no montage and leaves the velocity of the integrator and the
sampled velocity and facing of the ragdoll alone. -/
theorem SetLocomotionMode_disengage_frame (NewMode : EAlsLocomotionMode)
    (Character : AAlsCharacter) :
    (SetLocomotionMode NewMode Character).Calls.filter IsMontagePlayCall =
      Character.Calls.filter IsMontagePlayCall ∧
    (SetLocomotionMode NewMode Character).MovementVelocity = Character.MovementVelocity ∧
    (SetLocomotionMode NewMode Character).RagdollingState.RootBoneVelocity =
      Character.RagdollingState.RootBoneVelocity ∧
    (SetLocomotionMode NewMode Character).RagdollingState.bFacedUpward =
      Character.RagdollingState.bFacedUpward := by
  rw [SetLocomotionMode]
  split
  · exact ⟨rfl, rfl, rfl, rfl⟩
  · rw [NotifyLocomotionModeChanged]
    dsimp only
    split
    · simp [Invoke, List.filter_append, IsMontagePlayCall,
        RefreshDesiredStance_disengage_frame]
    · split
      · simp [Invoke, List.filter_append, IsMontagePlayCall]
      · split
        · split
          · split <;> simp [Invoke, List.filter_append, IsMontagePlayCall]
          · split
            · simp [Invoke, List.filter_append, IsMontagePlayCall,
                StartRagdolling_disengage_frame]
            · simp [Invoke, List.filter_append, IsMontagePlayCall]
        · simp [Invoke, List.filter_append, IsMontagePlayCall]

/-- A switch of the movement mode plays no montage and leaves the velocity of the integrator
and the sampled velocity and facing of the ragdoll alone. -/
theorem SetMovementMode_disengage_frame (NewMovementMode : EMovementMode)
    (Character : AAlsCharacter) :
    (SetMovementMode NewMovementMode Character).Calls.filter IsMontagePlayCall =
      Character.Calls.filter IsMontagePlayCall ∧
    (SetMovementMode NewMovementMode Character).MovementVelocity = Character.MovementVelocity ∧
    (SetMovementMode NewMovementMode Character).RagdollingState.RootBoneVelocity =
      Character.RagdollingState.RootBoneVelocity ∧
    (SetMovementMode NewMovementMode Character).RagdollingState.bFacedUpward =
      Character.RagdollingState.bFacedUpward := by
  rw [SetMovementMode]
  split
  · exact ⟨rfl, rfl, rfl, rfl⟩
  · rw [OnMovementModeChanged]
    dsimp only
    split <;>
      simp [SetLocomotionMode_disengage_frame, Invoke, List.filter_append, IsMontagePlayCall]

/-- Becoming grounded leaves the mode of the movement integrator alone. -/
theorem SetLocomotionMode_Grounded_MovementMode (Character : AAlsCharacter) :
    (SetLocomotionMode EAlsLocomotionMode.Grounded Character).MovementMode =
      Character.MovementMode := by
  rw [SetLocomotionMode]
  split
  · rfl
  · rw [NotifyLocomotionModeChanged]
    simp only [if_true]
    unfold RefreshDesiredStance
    split
    · split <;> rfl
    · rfl

/-- Switching the movement integrator to walking leaves it walking. -/
theorem SetMovementMode_Walking_MovementMode (Character : AAlsCharacter) :
    (SetMovementMode EMovementMode.MOVE_Walking Character).MovementMode =
      EMovementMode.MOVE_Walking := by
  rw [SetMovementMode]
  split
  · assumption
  · rw [OnMovementModeChanged]
    simp [SetLocomotionMode_Grounded_MovementMode, Invoke]

/-- Clearing the movement mode leaves it cleared. -/
theorem SetMovementMode_None_MovementMode (Character : AAlsCharacter) :
    (SetMovementMode EMovementMode.MOVE_None Character).MovementMode =
      EMovementMode.MOVE_None := by
  rw [SetMovementMode]
  split
  · assumption
  · rw [OnMovementModeChanged]
    simp [Invoke]

/-- Entering Ragdolling leaves the mode of the movement integrator alone. -/
theorem SetLocomotionMode_Ragdolling_MovementMode (Character : AAlsCharacter) :
    (SetLocomotionMode EAlsLocomotionMode.Ragdolling Character).MovementMode =
      Character.MovementMode := by
  rw [SetLocomotionMode]
  split
  · rfl
  · rw [NotifyLocomotionModeChanged]
    simp only [reduceCtorEq, if_false, true_and, dite_false]
    split <;> rfl

/-- Engaging the ragdoll leaves the movement integrator with no mode. -/
theorem StartRagdollingImplementation_MovementMode (Character : AAlsCharacter) :
    (StartRagdollingImplementation Character).MovementMode = EMovementMode.MOVE_None := by
  rw [StartRagdollingImplementation]
  simp only [Invoke, SetLocomotionMode_Ragdolling_MovementMode,
    SetMovementMode_None_MovementMode]

/-- Entering the air leaves the mode of the movement integrator alone, unless a roll is
interrupted into a ragdoll on the authority. -/
theorem SetLocomotionMode_InAir_MovementMode (Character : AAlsCharacter)
    (hNoRagdoll : ¬ (Character.LocomotionAction = EAlsLocomotionAction.Rolling ∧
      Character.HasAuthority = true)) :
    (SetLocomotionMode EAlsLocomotionMode.InAir Character).MovementMode =
      Character.MovementMode := by
  rw [SetLocomotionMode]
  split
  · rfl
  · rw [NotifyLocomotionModeChanged]
    simp only [reduceCtorEq, if_false, false_and, dite_true]
    split
    · split <;> rfl
    · split
      · rename_i hRolling
        rw [StartRagdolling]
        simp only [reduceCtorEq, if_false]
        have hAuthority : Character.HasAuthority = false := by
          cases hValue : Character.HasAuthority
          · rfl
          · exact absurd ⟨hRolling, hValue⟩ hNoRagdoll
        have hSame : ({ Character with LocomotionMode := EAlsLocomotionMode.InAir } :
            AAlsCharacter).HasAuthority = Character.HasAuthority := rfl
        rw [hSame, hAuthority]
        rfl
      · rfl

/-- Entering the air while rolling on the authority, from another mode, leaves the movement
integrator with no mode: the ragdoll is engaged. -/
theorem SetLocomotionMode_InAir_restart (Character : AAlsCharacter)
    (hMode : Character.LocomotionMode ≠ EAlsLocomotionMode.InAir)
    (hAction : Character.LocomotionAction = EAlsLocomotionAction.Rolling)
    (hAuthority : Character.HasAuthority = true) :
    (SetLocomotionMode EAlsLocomotionMode.InAir Character).MovementMode =
      EMovementMode.MOVE_None := by
  rw [SetLocomotionMode_changed _ _ hMode,
    NotifyLocomotionModeChanged_InAir_rolling Character.LocomotionMode
      { Character with LocomotionMode := EAlsLocomotionMode.InAir } rfl hAction,
    StartRagdolling]
  have hSame : ({ Character with LocomotionMode := EAlsLocomotionMode.InAir } :
      AAlsCharacter).HasAuthority = Character.HasAuthority := rfl
  simp only [reduceCtorEq, if_false, hSame, hAuthority, if_true]
  exact StartRagdollingImplementation_MovementMode _

/-- Switching the movement integrator to falling leaves it falling, unless a roll is
interrupted into a ragdoll on the authority. -/
theorem SetMovementMode_Falling_MovementMode (Character : AAlsCharacter)
    (hNoRagdoll : ¬ (Character.LocomotionAction = EAlsLocomotionAction.Rolling ∧
      Character.HasAuthority = true)) :
    (SetMovementMode EMovementMode.MOVE_Falling Character).MovementMode =
      EMovementMode.MOVE_Falling := by
  rw [SetMovementMode]
  split
  · assumption
  · rw [OnMovementModeChanged]
    dsimp only
    rw [SetLocomotionMode_InAir_MovementMode _ (by exact hNoRagdoll)]
    rfl

/-- Switching the movement integrator to falling while rolling on the authority, when the
character is neither falling nor in the air, leaves the integrator with no mode. -/
theorem SetMovementMode_Falling_restart (Character : AAlsCharacter)
    (hMovement : Character.MovementMode ≠ EMovementMode.MOVE_Falling)
    (hMode : Character.LocomotionMode ≠ EAlsLocomotionMode.InAir)
    (hAction : Character.LocomotionAction = EAlsLocomotionAction.Rolling)
    (hAuthority : Character.HasAuthority = true) :
    (SetMovementMode EMovementMode.MOVE_Falling Character).MovementMode =
      EMovementMode.MOVE_None := by
  rw [SetMovementMode, if_neg hMovement, OnMovementModeChanged]
  dsimp only
  exact SetLocomotionMode_InAir_restart _ hMode hAction hAuthority

/-- The state of a disengagement before its branch on the grounded flag: replication is
restored and the animation tick policy is restored on a dedicated server; the movement
integrator, the ragdolling state, the mode, the action and the role are as before. -/
theorem StopRagdollingImplementation_begun (Character Begun : AAlsCharacter)
    (hBegun : Begun =
      if Character.NetMode = ENetMode.NM_DedicatedServer then
        { ({ Character.Invoke (.SetReplicateMovement true) with
              bIgnoreClientMovementErrorChecksAndCorrection := false } : AAlsCharacter) with
          VisibilityBasedAnimTickOption :=
            Character.RagdollingState.PreviousVisibilityBasedAnimTickOption }
      else
        { Character.Invoke (.SetReplicateMovement true) with
          bIgnoreClientMovementErrorChecksAndCorrection := false }) :
    Begun.Calls.filter IsMontagePlayCall = Character.Calls.filter IsMontagePlayCall ∧
    Begun.MovementVelocity = Character.MovementVelocity ∧
    Begun.RagdollingState = Character.RagdollingState ∧
    Begun.MovementMode = Character.MovementMode ∧
    Begun.LocomotionMode = Character.LocomotionMode ∧
    Begun.LocomotionAction = Character.LocomotionAction ∧
    Begun.HasAuthority = Character.HasAuthority := by
  subst hBegun
  split <;> simp [Invoke, HasAuthority, List.filter_append, IsMontagePlayCall]

/-- A disengagement is its beginning, the branch on the grounded flag and the restoring of
the collision and physics switches. -/
theorem StopRagdollingImplementation_eq (Engine : FEngine) (Character : AAlsCharacter) :
    ∃ Begun : AAlsCharacter,
      (Begun =
        if Character.NetMode = ENetMode.NM_DedicatedServer then
          { ({ Character.Invoke (.SetReplicateMovement true) with
                bIgnoreClientMovementErrorChecksAndCorrection := false } : AAlsCharacter) with
            VisibilityBasedAnimTickOption :=
              Character.RagdollingState.PreviousVisibilityBasedAnimTickOption }
        else
          { Character.Invoke (.SetReplicateMovement true) with
            bIgnoreClientMovementErrorChecksAndCorrection := false }) ∧
      StopRagdollingImplementation Engine Character =
        (((((if Begun.RagdollingState.bGrounded then
              (SetMovementMode .MOVE_Walking Begun).Invoke
                (.MontagePlay
                  (Engine.SelectGetUpMontage
                    (SetMovementMode .MOVE_Walking Begun).RagdollingState.bFacedUpward) 1 0
                  true)
            else
              { SetMovementMode .MOVE_Falling Begun with
                MovementVelocity :=
                  (SetMovementMode .MOVE_Falling
                    Begun).RagdollingState.RootBoneVelocity }).Invoke
            (.MeshSetAllBodiesSimulatePhysics false)).Invoke
            (.MeshSetCollisionEnabled .QueryOnly)).Invoke
            (.MeshSetCollisionObjectType .ECC_Pawn)).Invoke
            (.CapsuleSetCollisionEnabled .QueryAndPhysics)).Invoke .OnRagdollingEnded :=
  ⟨_, rfl, rfl⟩

/-- A disengagement on the ground: the movement integrator ends walking with its velocity
untouched, and the one montage played is the get up montage selected by the facing. -/
theorem StopRagdollingImplementation_grounded (Engine : FEngine) (Character : AAlsCharacter)
    (hGrounded : Character.RagdollingState.bGrounded = true) :
    (StopRagdollingImplementation Engine Character).MovementMode =
      EMovementMode.MOVE_Walking ∧
    (StopRagdollingImplementation Engine Character).MovementVelocity =
      Character.MovementVelocity ∧
    (StopRagdollingImplementation Engine Character).Calls.filter IsMontagePlayCall =
      Character.Calls.filter IsMontagePlayCall ++
        [EngineCall.MontagePlay
          (Engine.SelectGetUpMontage Character.RagdollingState.bFacedUpward) 1 0 true] := by
  obtain ⟨Begun, hBegun, hEq⟩ := StopRagdollingImplementation_eq Engine Character
  obtain ⟨hCalls, hVelocity, hState, -, -, -, -⟩ :=
    StopRagdollingImplementation_begun Character Begun hBegun
  obtain ⟨hCalls2, hVelocity2, -, hFaced2⟩ :=
    SetMovementMode_disengage_frame EMovementMode.MOVE_Walking Begun
  have hBranch : Begun.RagdollingState.bGrounded = true := by
    rw [hState]
    exact hGrounded
  have hFaced : (SetMovementMode EMovementMode.MOVE_Walking Begun).RagdollingState.bFacedUpward =
      Character.RagdollingState.bFacedUpward := by
    rw [hFaced2, hState]
  rw [hEq, if_pos hBranch, hFaced]
  simp only [Invoke, List.filter_append]
  refine ⟨?_, ?_, ?_⟩
  · exact SetMovementMode_Walking_MovementMode Begun
  · exact hVelocity2.trans hVelocity
  · rw [hCalls2, hCalls]
    simp [IsMontagePlayCall]

/-- A disengagement in the air: the velocity of the movement integrator becomes the velocity
of the root bone and no montage is played; the movement integrator ends falling, unless the
character is rolling on the authority, where entering the air engages the ragdoll again and
the integrator ends with no mode. -/
theorem StopRagdollingImplementation_airborne (Engine : FEngine) (Character : AAlsCharacter)
    (hAirborne : Character.RagdollingState.bGrounded = false) :
    (StopRagdollingImplementation Engine Character).MovementVelocity =
      Character.RagdollingState.RootBoneVelocity ∧
    (StopRagdollingImplementation Engine Character).Calls.filter IsMontagePlayCall =
      Character.Calls.filter IsMontagePlayCall ∧
    (¬ (Character.LocomotionAction = EAlsLocomotionAction.Rolling ∧
        Character.HasAuthority = true) →
      (StopRagdollingImplementation Engine Character).MovementMode =
        EMovementMode.MOVE_Falling) ∧
    (Character.LocomotionAction = EAlsLocomotionAction.Rolling →
      Character.HasAuthority = true →
      Character.MovementMode ≠ EMovementMode.MOVE_Falling →
      Character.LocomotionMode ≠ EAlsLocomotionMode.InAir →
      (StopRagdollingImplementation Engine Character).MovementMode =
        EMovementMode.MOVE_None) := by
  obtain ⟨Begun, hBegun, hEq⟩ := StopRagdollingImplementation_eq Engine Character
  obtain ⟨hCalls, -, hState, hMovement, hMode, hAction, hAuthority⟩ :=
    StopRagdollingImplementation_begun Character Begun hBegun
  obtain ⟨hCalls2, -, hRoot2, -⟩ :=
    SetMovementMode_disengage_frame EMovementMode.MOVE_Falling Begun
  have hBranch : ¬ Begun.RagdollingState.bGrounded = true := by
    rw [hState, hAirborne]
    decide
  rw [hEq, if_neg hBranch]
  simp only [Invoke, List.filter_append]
  refine ⟨?_, ?_, ?_, ?_⟩
  · rw [hRoot2, hState]
  · rw [hCalls2, hCalls]
    simp [IsMontagePlayCall]
  · intro hNoRagdoll
    exact SetMovementMode_Falling_MovementMode Begun (by rw [hAction, hAuthority]; exact hNoRagdoll)
  · intro hRolling hAuth hNotFalling hNotInAir
    exact SetMovementMode_Falling_restart Begun (by rw [hMovement]; exact hNotFalling)
      (by rw [hMode]; exact hNotInAir) (by rw [hAction]; exact hRolling)
      (by rw [hAuthority]; exact hAuth)

/-- C22, the code at the failing input: an airborne ragdoll on the authority whose action is
still Rolling is disengaged. The code switches the movement integrator to falling, as its
comment states; the notification of that switch enters the air, where a roll in progress
engages the ragdoll again; the rest of the disengagement then runs on the engaged ragdoll. On
return the movement mode is None, not Falling, the locomotion mode is Ragdolling, the velocity
of the integrator is that of the root bone, and the calls recorded show the ragdoll engaged
again (collision of the capsule off, physics of the mesh on) and then the physics of the mesh
switched off and the collision of the capsule restored. -/
theorem C22_airborne_rolling_reengages_ragdoll :
    (StopRagdollingImplementation {}
      { LocomotionMode := EAlsLocomotionMode.Ragdolling,
        LocomotionAction := EAlsLocomotionAction.Rolling,
        MovementMode := EMovementMode.MOVE_None,
        RagdollingState := { bGrounded := false, RootBoneVelocity := { Z := -300 } } }).MovementMode =
      EMovementMode.MOVE_None ∧
    (StopRagdollingImplementation {}
      { LocomotionMode := EAlsLocomotionMode.Ragdolling,
        LocomotionAction := EAlsLocomotionAction.Rolling,
        MovementMode := EMovementMode.MOVE_None,
        RagdollingState := { bGrounded := false, RootBoneVelocity := { Z := -300 } } }).LocomotionMode =
      EAlsLocomotionMode.Ragdolling ∧
    (StopRagdollingImplementation {}
      { LocomotionMode := EAlsLocomotionMode.Ragdolling,
        LocomotionAction := EAlsLocomotionAction.Rolling,
        MovementMode := EMovementMode.MOVE_None,
        RagdollingState :=
          { bGrounded := false, RootBoneVelocity := { Z := -300 } } }).MovementVelocity =
      { Z := -300 } ∧
    (StopRagdollingImplementation {}
      { LocomotionMode := EAlsLocomotionMode.Ragdolling,
        LocomotionAction := EAlsLocomotionAction.Rolling,
        MovementMode := EMovementMode.MOVE_None,
        RagdollingState := { bGrounded := false, RootBoneVelocity := { Z := -300 } } }).Calls =
      [EngineCall.SetReplicateMovement true,
       EngineCall.SuperOnMovementModeChanged EMovementMode.MOVE_None,
       EngineCall.MulticastStartRagdolling,
       EngineCall.SetReplicateMovement false,
       EngineCall.SuperOnMovementModeChanged EMovementMode.MOVE_Falling,
       EngineCall.OnLocomotionModeChanged EAlsLocomotionMode.InAir,
       EngineCall.CapsuleSetCollisionEnabled ECollisionEnabled.NoCollision,
       EngineCall.MeshSetCollisionObjectType ECollisionChannel.ECC_PhysicsBody,
       EngineCall.MeshSetCollisionEnabled ECollisionEnabled.QueryAndPhysics,
       EngineCall.MeshSetAllBodiesBelowPelvisSimulatePhysics,
       EngineCall.MontageStop,
       EngineCall.OnRagdollingStarted,
       EngineCall.OnLocomotionModeChanged EAlsLocomotionMode.Ragdolling,
       EngineCall.MeshSetAllBodiesSimulatePhysics false,
       EngineCall.MeshSetCollisionEnabled ECollisionEnabled.QueryOnly,
       EngineCall.MeshSetCollisionObjectType ECollisionChannel.ECC_Pawn,
       EngineCall.CapsuleSetCollisionEnabled ECollisionEnabled.QueryAndPhysics,
       EngineCall.OnRagdollingEnded] := by
  refine ⟨?_, ?_, ?_, ?_⟩ <;>
    simp [StopRagdollingImplementation, SetMovementMode, OnMovementModeChanged,
      SetLocomotionMode, NotifyLocomotionModeChanged, StartRagdolling,
      StartRagdollingImplementation, Invoke, HasAuthority, ENetRole.rank,
      SetRagdollTargetLocation, RefreshDesiredStance]
